import Mathlib

/-!
Shallow embedding of the BoxDrop file-storage server (Go sources under
lib/support/server and internal/types.go) for specification checking.

The four SQLite tables (users, directories, files, shared) are modelled as
lists of rows carried in a `ServerState`; the content-addressed blob
directory is modelled as a list of (checksum, bytes) pairs.  SQL statements
become list operations: COUNT(*) is countP, QueryRow is find? (first row),
DELETE is filter, UPDATE is map, INSERT appends at the end.  Go functions
returning (value, error) become Except-valued functions; functions that
mutate the database also return the new ServerState.  Wall-clock time
(time.Now().Unix()) and randomly generated strings (createRandomString) are
passed in as explicit parameters.
-/

deriving instance DecidableEq for Except

namespace BoxDrop

/-- Row of the users table (see createUsersTable).  Nullable columns
(ver_code, ver_code_creation_time, session_token,
session_token_last_access_time, curr_dir) are Options; scanning a NULL into
a non-nullable Go variable is modelled as an error, as in database/sql. -/
structure UserRow where
  username : String
  email : String
  ver_code : Option String
  ver_code_creation_time : Option Nat
  password : String
  salt : String
  session_token : Option String
  session_token_last_access_time : Option Nat
  curr_dir : Option String
deriving DecidableEq, Repr

/-- Row of the directories table: (username, path, name). -/
structure DirRow where
  username : String
  path : String
  name : String
deriving DecidableEq, Repr

/-- Row of the files table: (username, filename, filepath, checksum). -/
structure FileRow where
  username : String
  filename : String
  filepath : String
  checksum : String
deriving DecidableEq, Repr

/-- Row of the shared table: (owner, filename, filepath, checksum, sharee,
write_perms). -/
structure SharedRow where
  owner : String
  filename : String
  filepath : String
  checksum : String
  sharee : String
  write_perms : Bool
deriving DecidableEq, Repr

/-- One physical blob file in the base directory, stored under its checksum
with its byte content (bytes modelled as Nats). -/
structure Blob where
  checksum : String
  content : List Nat
deriving DecidableEq, Repr

/-- The whole persistent state: the four tables plus the blob directory. -/
structure ServerState where
  users : List UserRow
  directories : List DirRow
  files : List FileRow
  shared : List SharedRow
  blobs : List Blob
deriving DecidableEq, Repr

/-- The state right after createTables on a fresh database: empty tables,
no blobs. -/
def initState : ServerState := ⟨[], [], [], [], []⟩

/-! Return records from internal/types.go. -/

/-- internal.RegisterReturn. -/
structure RegisterReturn where
  Success : Bool
  Err : String := ""
deriving DecidableEq, Repr

/-- internal.LoginReturn (SessionToken []byte modelled as String). -/
structure LoginReturn where
  SessionToken : String
  Err : String
deriving DecidableEq, Repr

/-- internal.ErrorReturn. -/
structure ErrorReturn where
  Err : String
  Logout : Bool
deriving DecidableEq, Repr

/-- internal.PwdReturn. -/
structure PwdReturn where
  Path : String
  Err : String
  Logout : Bool
deriving DecidableEq, Repr

/-- internal.ListReturn. -/
structure ListReturn where
  Dirs : List String
  Files : List String
  Err : String
  Logout : Bool
deriving DecidableEq, Repr

/-- internal.DownloadReturn (Body []byte modelled as List Nat). -/
structure DownloadReturn where
  Body : List Nat
  Err : String
  Logout : Bool
deriving DecidableEq, Repr

/-- internal.ShareesReturn. -/
structure ShareesReturn where
  Sharees : List String
  Err : String
  Logout : Bool
deriving DecidableEq, Repr

/-! Modelled external primitives.  bcrypt and SHA-512 are external crypto
libraries (the spec lists them as consumed external interfaces), so they are
modelled as injective placeholders: hashing is the identity on the input
string and comparison is string equality, matching the idealization that a
bcrypt comparison succeeds exactly on the originally hashed input and that
the digest is collision-free. -/

/-- Model of bcrypt.GenerateFromPassword (never errors in the model). -/
def bcryptGenerate (plain : String) : String := plain

/-- Model of bcrypt.CompareHashAndPassword: true iff the hash matches. -/
def bcryptCompare (hash plain : String) : Bool := hash == plain

/-- Model of hex.EncodeToString(makeFileChecksum(file_bytes)): an injective
encoding of the byte list standing in for the hex-encoded SHA-512 digest. -/
def makeFileChecksumHex (file_bytes : List Nat) : String :=
  "#" ++ String.intercalate "." (file_bytes.map toString)

/-! Character-level helpers standing in for Go's strings/regexp functions.
All are structurally recursive so that concrete instances reduce in the
kernel.  Go slices strings at byte indices, but every slice position taken
by this code sits at an ASCII '/' boundary, so the character-level model
agrees with the byte-level original. -/

/-- Whitespace characters of Go's unicode.IsSpace restricted to Latin-1
(strings.TrimSpace). -/
def isGoSpace (c : Char) : Bool :=
  c == ' ' || c == '\t' || c == '\n' || c == '\x0b' || c == '\x0c' ||
    c == '\r' || c.val == 0x85 || c.val == 0xa0

/-- Model of strings.TrimSpace: drop whitespace from both ends. -/
def trimSpace (s : String) : String :=
  ⟨((s.data.dropWhile isGoSpace).reverse.dropWhile isGoSpace).reverse⟩

/-- Split a character list at every occurrence of sep, keeping empty
fields, like strings.Split. -/
def splitOnChar (sep : Char) : List Char → List (List Char)
  | [] => [[]]
  | c :: rest =>
    if c = sep then
      [] :: splitOnChar sep rest
    else
      match splitOnChar sep rest with
      | [] => [[c]]
      | f :: fs => (c :: f) :: fs

/-- Index of the last occurrence of c, like strings.LastIndex (which
returns -1 when absent, modelled as none). -/
def lastIdxOf (c : Char) : List Char → Option Nat
  | [] => none
  | a :: as =>
    match lastIdxOf c as with
    | some j => some (j + 1)
    | none => if a = c then some 0 else none

/-- Go strings.LastIndex(s, "/") + 1, the slice bound used by the path
code: 0 when there is no slash. -/
def lastSlashBound (l : List Char) : Nat :=
  match lastIdxOf '/' l with
  | some j => j + 1
  | none => 0

/-- Model of strings.HasPrefix. -/
def goHasPrefixStr (s pre : String) : Bool := pre.data.isPrefixOf s.data

/-- Model of strings.HasSuffix / the code's path[len(path)-1:] == "/"
checks. -/
def goHasSuffixStr (s suf : String) : Bool := suf.data.isSuffixOf s.data

/-! Validators from util.go (regexp.MatchString turned into character-class
checks; Go len() on a string counts bytes, hence utf8ByteSize). -/

/-- Character class [a-z0-9._%+\-] of the email regex local part. -/
def isEmailLocalChar (c : Char) : Bool :=
  ('a' ≤ c && c ≤ 'z') || ('0' ≤ c && c ≤ '9') ||
    c == '.' || c == '_' || c == '%' || c == '+' || c == '-'

/-- Character class [a-z0-9.\-] of the email regex domain part. -/
def isEmailDomainChar (c : Char) : Bool :=
  ('a' ≤ c && c ≤ 'z') || ('0' ≤ c && c ≤ '9') || c == '.' || c == '-'

/-- Matches [a-z0-9.\-]+\.[a-z]{2,4} against the part after the '@'.  The
trailing [a-z]{2,4} group contains no dot, so its preceding dot must be the
last dot of the string; the characterization below is equivalent to the
anchored regex. -/
def validateEmailDomain (l : List Char) : Bool :=
  match lastIdxOf '.' l with
  | none => false
  | some i =>
    let m := l.take i
    let t := l.drop (i + 1)
    !m.isEmpty && m.all isEmailDomainChar &&
      decide (2 ≤ t.length) && decide (t.length ≤ 4) &&
      t.all fun c => 'a' ≤ c && c ≤ 'z'

/-- validateEmail: the regex ^[a-z0-9._%+\-]+@[a-z0-9.\-]+\.[a-z]{2,4}$.
Neither character class contains '@', so a match has exactly one '@'. -/
def validateEmail (email : String) : Bool :=
  match splitOnChar '@' email.data with
  | [localPart, domainPart] =>
    !localPart.isEmpty && localPart.all isEmailLocalChar &&
      validateEmailDomain domainPart
  | _ => false

/-- Character class [a-zA-Z0-9] used by the username/dirname regexes. -/
def isAlphaNum (c : Char) : Bool :=
  ('a' ≤ c && c ≤ 'z') || ('A' ≤ c && c ≤ 'Z') || ('0' ≤ c && c ≤ '9')

/-- validateUsername: len ≤ 16 and ^[a-zA-Z0-9]+$. -/
def validateUsername (username : String) : Bool :=
  decide (username.utf8ByteSize ≤ 16) &&
    !username.data.isEmpty && username.data.all isAlphaNum

/-- validateDirname: len ≤ 32 and ^[a-zA-Z0-9]+$. -/
def validateDirname (dirname : String) : Bool :=
  decide (dirname.utf8ByteSize ≤ 32) &&
    !dirname.data.isEmpty && dirname.data.all isAlphaNum

/-- validateFilename: len ≤ 18 and ^[a-zA-Z0-9_\-.]+$. -/
def validateFilename (filename : String) : Bool :=
  decide (filename.utf8ByteSize ≤ 18) && !filename.data.isEmpty &&
    filename.data.all fun c => isAlphaNum c || c == '_' || c == '-' || c == '.'

/-- Whitespace class [\s] of RE2: [\t\n\f\r ]. -/
def isRegexSpace (c : Char) : Bool :=
  c == '\t' || c == '\n' || c == '\x0c' || c == '\r' || c == ' '

/-- Punctuation class [(!#$&*+,-.:;?@^_~)] (parentheses are members of the
class; the ,-. range is just the three characters , - .). -/
def isPasswordPunct (c : Char) : Bool :=
  c == '(' || c == '!' || c == '#' || c == '$' || c == '&' || c == '*' ||
    c == '+' || c == ',' || c == '-' || c == '.' || c == ':' || c == ';' ||
    c == '?' || c == '@' || c == '^' || c == '_' || c == '~' || c == ')'

/-- validatePassword from util.go, returning Go's (bool, error) as
(passed, error message). -/
def validatePassword (password : String) : Bool × String :=
  if password.utf8ByteSize < 8 || 24 < password.utf8ByteSize then
    (false, "Passwords must be 8-24 characters")
  else if password.data.any isRegexSpace ||
      password.data.any (fun c => !(isPasswordPunct c || ('0' ≤ c && c ≤ '9') ||
        ('A' ≤ c && c ≤ 'Z') || ('a' ≤ c && c ≤ 'z'))) then
    (false, "Passwords have invalid characters")
  else
    let counter :=
      (if password.data.any (fun c => 'a' ≤ c && c ≤ 'z') then 1 else 0) +
      (if password.data.any (fun c => 'A' ≤ c && c ≤ 'Z') then 1 else 0) +
      (if password.data.any (fun c => '0' ≤ c && c ≤ '9') then 1 else 0) +
      (if password.data.any isPasswordPunct then 1 else 0)
    if 3 ≤ counter then (true, "") else (false, "Password did not meet constraints")

/-- checkIfAbsolutePath from util.go. -/
def checkIfAbsolutePath (path : String) : Bool :=
  if path = "" then false else goHasPrefixStr path "/"

/-- checkIfCurrDirIsInSharedFolder from util.go. -/
def checkIfCurrDirIsInSharedFolder (curr_dir : String) : Bool :=
  goHasPrefixStr curr_dir "/shared/"

/-- getSharedOwner from util.go: strings.Split(curr_dir, "/")[2].  The
precondition guarantees at least three fields; out of range is modelled as
the empty string. -/
def getSharedOwner (curr_dir : String) : String :=
  ⟨(splitOnChar '/' curr_dir.data).getD 2 []⟩

/-! Path canonicalization (directorytable.go). -/

/-- One loop iteration of handleDots: ".." pops back to the previous slash
unless already at root, "." and "" are dropped, anything else is emitted
with a trailing slash. -/
def handleDotsStep (out_path : List Char) (dir : List Char) : List Char :=
  if dir = ['.', '.'] then
    if out_path ≠ ['/'] then
      let remove_last_slash := out_path.dropLast
      out_path.take (lastSlashBound remove_last_slash)
    else out_path
  else if dir ≠ ['.'] && !dir.isEmpty then
    out_path ++ dir ++ ['/']
  else out_path

/-- handleDots from directorytable.go: canonicalize "." and ".." segments,
never escaping the root. -/
def handleDots (path : String) : String :=
  ⟨(splitOnChar '/' path.data).foldl handleDotsStep ['/']⟩

/-- getParentPathAndChildofDirectory: split a trailing-slash directory path
into parent path and child directory name. -/
def getParentPathAndChildofDirectory (path : String) :
    Except String (String × String) :=
  if path = "" then .error "Cannot give empty string as path"
  else if !goHasSuffixStr path "/" then .error "This path is not a directory"
  else if path = "/" then .ok ("", path)
  else
    let chars := path.data
    let k := lastSlashBound chars.dropLast
    .ok (⟨chars.take k⟩, ⟨chars.drop k⟩)

/-- getParentPathAndChildofFile: split an absolute file path into parent
path and file name. -/
def getParentPathAndChildofFile (path : String) :
    Except String (String × String) :=
  if path = "" then .error "Cannot give empty string as path"
  else if goHasSuffixStr path "/" then .error "This path does not direct to a file"
  else
    let chars := path.data
    let k := lastSlashBound chars
    .ok (⟨chars.take k⟩, ⟨chars.drop k⟩)

/-! usertable.go: queries and updates on the users table. -/

/-- getNumUsersWithUsername: SELECT COUNT(*) FROM users WHERE username = ?. -/
def getNumUsersWithUsername (s : ServerState) (username : String) : Nat :=
  s.users.countP fun r => r.username == username

/-- getNumUsersWithEmail: SELECT COUNT(*) FROM users WHERE email = ?. -/
def getNumUsersWithEmail (s : ServerState) (email : String) : Nat :=
  s.users.countP fun r => r.email == email

/-- getNumUsersWithUsernameAndEmail. -/
def getNumUsersWithUsernameAndEmail (s : ServerState) (username email : String) : Nat :=
  s.users.countP fun r => r.username == username && r.email == email

/-- validateUniqueUserByUsername: error unless exactly one row has this
username. -/
def validateUniqueUserByUsername (s : ServerState) (username : String) :
    Except String Unit :=
  if getNumUsersWithUsername s username ≠ 1 then .error "Invalid username"
  else .ok ()

/-- validateUniqueUserByUsernameAndEmail. -/
def validateUniqueUserByUsernameAndEmail (s : ServerState) (username email : String) :
    Except String Unit :=
  if getNumUsersWithUsername s username ≠ 1 then .error "Invalid username"
  else if getNumUsersWithEmail s email ≠ 1 then .error "Invalid email"
  else if getNumUsersWithUsernameAndEmail s username email ≠ 1 then
    .error "Invalid username/email"
  else .ok ()

/-- createNewUserPreEmail: insert the pending row (ver_code and its creation
time set, no session token, curr_dir NULL) after checking username and email
are unused. -/
def createNewUserPreEmail (s : ServerState) (now : Nat) (email username : String)
    (password : String) (salt : String) (verification_code : String) :
    Except String ServerState :=
  if getNumUsersWithUsername s username ≠ 0 then .error "Invalid username"
  else if getNumUsersWithEmail s email ≠ 0 then .error "Invalid email"
  else .ok { s with users := s.users ++
    [{ username := username, email := email, ver_code := some verification_code,
       ver_code_creation_time := some now, password := password, salt := salt,
       session_token := none, session_token_last_access_time := none,
       curr_dir := none }] }

/-- First users row with this username and email (QueryRow). -/
def findUserByUsernameAndEmail (s : ServerState) (username email : String) :
    Option UserRow :=
  s.users.find? fun r => r.username == username && r.email == email

/-- First users row with this username (QueryRow). -/
def findUserByUsername (s : ServerState) (username : String) : Option UserRow :=
  s.users.find? fun r => r.username == username

/-- getUserPasswordByUsernameAndEmail. -/
def getUserPasswordByUsernameAndEmail (s : ServerState) (username email : String) :
    Except String String :=
  match validateUniqueUserByUsernameAndEmail s username email with
  | .error e => .error e
  | .ok () =>
    match findUserByUsernameAndEmail s username email with
    | some r => .ok r.password
    | none => .error "sql: no rows in result set"

/-- getUserPasswordByUsername. -/
def getUserPasswordByUsername (s : ServerState) (username : String) :
    Except String String :=
  match validateUniqueUserByUsername s username with
  | .error e => .error e
  | .ok () =>
    match findUserByUsername s username with
    | some r => .ok r.password
    | none => .error "sql: no rows in result set"

/-- getVerCodeInfoByUsernameAndEmail.  Scanning a NULL
ver_code_creation_time into a Go int is a Scan error; a NULL ver_code scans
into a []byte as nil (modelled as ""). -/
def getVerCodeInfoByUsernameAndEmail (s : ServerState) (username email : String) :
    Except String (String × Nat) :=
  match validateUniqueUserByUsernameAndEmail s username email with
  | .error e => .error e
  | .ok () =>
    match findUserByUsernameAndEmail s username email with
    | some r =>
      match r.ver_code_creation_time with
      | some t => .ok (r.ver_code.getD "", t)
      | none => .error "sql: Scan error converting NULL to int"
    | none => .error "sql: no rows in result set"

/-- removeVerCodeInfoByUsernameAndEmail: UPDATE users SET ver_code = NULL,
ver_code_creation_time = NULL WHERE username = ? AND email = ?. -/
def removeVerCodeInfoByUsernameAndEmail (s : ServerState) (username email : String) :
    Except String ServerState :=
  match validateUniqueUserByUsernameAndEmail s username email with
  | .error e => .error e
  | .ok () => .ok { s with users := s.users.map fun r =>
      if r.username == username && r.email == email then
        { r with ver_code := none, ver_code_creation_time := none }
      else r }

/-- getSaltByUsername. -/
def getSaltByUsername (s : ServerState) (username : String) : Except String String :=
  match validateUniqueUserByUsername s username with
  | .error e => .error e
  | .ok () =>
    match findUserByUsername s username with
    | some r => .ok r.salt
    | none => .error "sql: no rows in result set"

/-- removeUserRowByUsernameAndEmail: DELETE FROM users WHERE username = ?
AND email = ?. -/
def removeUserRowByUsernameAndEmail (s : ServerState) (username email : String) :
    Except String ServerState :=
  match validateUniqueUserByUsernameAndEmail s username email with
  | .error e => .error e
  | .ok () => .ok { s with users := s.users.filter fun r =>
      !(r.username == username && r.email == email) }

/-- removeUserRowByUsername: DELETE FROM users WHERE username = ?. -/
def removeUserRowByUsername (s : ServerState) (username : String) :
    Except String ServerState :=
  match validateUniqueUserByUsername s username with
  | .error e => .error e
  | .ok () => .ok { s with users := s.users.filter fun r =>
      !(r.username == username) }

/-- createSessionTokenByUsername: store the token hash and its creation
time. -/
def createSessionTokenByUsername (s : ServerState) (now : Nat)
    (username : String) (session_token : String) : Except String ServerState :=
  match validateUniqueUserByUsername s username with
  | .error e => .error e
  | .ok () => .ok { s with users := s.users.map fun r =>
      if r.username == username then
        { r with session_token := some session_token,
                 session_token_last_access_time := some now }
      else r }

/-- removeSessionTokenInfoByUsername: UPDATE users SET session_token = NULL,
session_token_last_access_time = NULL WHERE username = ?. -/
def removeSessionTokenInfoByUsername (s : ServerState) (username : String) :
    Except String ServerState :=
  match validateUniqueUserByUsername s username with
  | .error e => .error e
  | .ok () => .ok { s with users := s.users.map fun r =>
      if r.username == username then
        { r with session_token := none, session_token_last_access_time := none }
      else r }

/-- getSessionTokenInfoByUsername.  A NULL last-access time is a Scan error
(NULL into a Go int); a NULL session_token scans into []byte as nil
(modelled as ""). -/
def getSessionTokenInfoByUsername (s : ServerState) (username : String) :
    Except String (String × Nat) :=
  match validateUniqueUserByUsername s username with
  | .error e => .error e
  | .ok () =>
    match findUserByUsername s username with
    | some r =>
      match r.session_token_last_access_time with
      | some t => .ok (r.session_token.getD "", t)
      | none => .error "sql: Scan error converting NULL to int"
    | none => .error "sql: no rows in result set"

/-- updateSessionTokenInfoByUsername: refresh the last-access time to now. -/
def updateSessionTokenInfoByUsername (s : ServerState) (now : Nat)
    (username : String) : Except String ServerState :=
  match validateUniqueUserByUsername s username with
  | .error e => .error e
  | .ok () => .ok { s with users := s.users.map fun r =>
      if r.username == username then
        { r with session_token_last_access_time := some now }
      else r }

/-- getCurrDir.  Scanning a NULL curr_dir into a Go string is a Scan
error. -/
def getCurrDir (s : ServerState) (username : String) : Except String String :=
  match validateUniqueUserByUsername s username with
  | .error e => .error e
  | .ok () =>
    match findUserByUsername s username with
    | some r =>
      match r.curr_dir with
      | some d => .ok d
      | none => .error "sql: Scan error converting NULL to string"
    | none => .error "sql: no rows in result set"

/-- resetCurrDir: set curr_dir to the empty string. -/
def resetCurrDir (s : ServerState) (username : String) : Except String ServerState :=
  match validateUniqueUserByUsername s username with
  | .error e => .error e
  | .ok () => .ok { s with users := s.users.map fun r =>
      if r.username == username then { r with curr_dir := some "" } else r }

/-- overUsersLimit: error once the users table holds 100 or more rows
(pending rows included, COUNT(*) has no filter). -/
def overUsersLimit (s : ServerState) : Except String Unit :=
  if 100 ≤ s.users.length then .error "No more users can be registered"
  else .ok ()

/-! directorytable.go: the directories table. -/

/-- getNumDirectoriesByUsername: COUNT(*) over (username, path, name). -/
def getNumDirectoriesByUsername (s : ServerState) (username parent child : String) :
    Nat :=
  s.directories.countP fun d =>
    d.username == username && d.path == parent && d.name == child

/-- validateDirectoryExistsByUsername. -/
def validateDirectoryExistsByUsername (s : ServerState)
    (username parent child : String) : Except String Unit :=
  if getNumDirectoriesByUsername s username parent child ≠ 1 then
    .error "Directory does not exist"
  else .ok ()

/-- createRootandShared: insert the root ("" / "/") and shared
("/" / "shared/") rows for a newly activated user. -/
def createRootandShared (s : ServerState) (username : String) :
    Except String ServerState :=
  match validateUniqueUserByUsername s username with
  | .error e => .error e
  | .ok () => .ok { s with directories := s.directories ++
      [⟨username, "", "/"⟩, ⟨username, "/", "shared/"⟩] }

/-- removeAllDirectories: DELETE FROM directories WHERE username = ?. -/
def removeAllDirectories (s : ServerState) (username : String) :
    Except String ServerState :=
  match validateUniqueUserByUsername s username with
  | .error e => .error e
  | .ok () => .ok { s with directories := s.directories.filter fun d =>
      !(d.username == username) }

/-- createDirectoryByUsername: insert (username, curr_dir, dirname ++ "/")
unless that exact row already exists. -/
def createDirectoryByUsername (s : ServerState) (username curr_dir dirname : String) :
    Except String ServerState :=
  match validateUniqueUserByUsername s username with
  | .error e => .error e
  | .ok () =>
    let dirname := dirname ++ "/"
    if getNumDirectoriesByUsername s username curr_dir dirname ≠ 0 then
      .error "Directory already exists"
    else .ok { s with directories := s.directories ++ [⟨username, curr_dir, dirname⟩] }

/-- makeSharerDirectoryForSharee: materialize the sharee's
/shared/<sharer>/ entry, a no-op if it already exists. -/
def makeSharerDirectoryForSharee (s : ServerState)
    (sharer_username sharee_username : String) : Except String ServerState :=
  match validateUniqueUserByUsername s sharer_username with
  | .error e => .error e
  | .ok () =>
    match validateUniqueUserByUsername s sharee_username with
    | .error e => .error e
    | .ok () =>
      if sharer_username = sharee_username then
        .error "Sharer and sharee cannot be the same person"
      else
        let dirname := sharer_username ++ "/"
        let path := "/shared/"
        let count_dirs := getNumDirectoriesByUsername s sharee_username path dirname
        if count_dirs = 1 then .ok s
        else if 2 ≤ count_dirs then .error "Shared directory exists more than once"
        else .ok { s with directories :=
          s.directories ++ [⟨sharee_username, path, dirname⟩] }

/-- removeSharerDirectoryForSharee: delete the sharee's /shared/<sharer>/
entry, which must exist exactly once. -/
def removeSharerDirectoryForSharee (s : ServerState)
    (sharer_username sharee_username : String) : Except String ServerState :=
  match validateUniqueUserByUsername s sharer_username with
  | .error e => .error e
  | .ok () =>
    match validateUniqueUserByUsername s sharee_username with
    | .error e => .error e
    | .ok () =>
      if sharer_username = sharee_username then
        .error "Sharer and sharee cannot be the same person"
      else
        let dirname := sharer_username ++ "/"
        let path := "/shared/"
        if getNumDirectoriesByUsername s sharee_username path dirname ≠ 1 then
          .error "Shared directory does not exist"
        else .ok { s with directories := s.directories.filter fun d =>
          !(d.username == sharee_username && d.path == path && d.name == dirname) }

/-- getSubdirectoriesByUsernameAndCurrDir: child directory names ordered by
name (ORDER BY name ASC modelled as insertion sort). -/
def insertSorted (x : String) : List String → List String
  | [] => [x]
  | y :: ys => if x ≤ y then x :: y :: ys else y :: insertSorted x ys

/-- Sort a list of strings ascending (model of ORDER BY ... ASC). -/
def sortStrings (l : List String) : List String := l.foldr insertSorted []

/-- getSubdirectoriesByUsernameAndCurrDir. -/
def getSubdirectoriesByUsernameAndCurrDir (s : ServerState)
    (username curr_dir : String) : Except String (List String) :=
  match validateUniqueUserByUsername s username with
  | .error e => .error e
  | .ok () => .ok (sortStrings ((s.directories.filter fun d =>
      d.username == username && d.path == curr_dir).map fun d => d.name))

/-- checkValidDirectoryPath: canonicalize a directory path (appending a
trailing slash if missing, resolving dots, prepending the current directory
for relative paths) and require the resulting directory to exist. -/
def checkValidDirectoryPath (s : ServerState) (username path : String) :
    Except String String :=
  if path = "" then .error "Cannot give empty string as path"
  else
    let path := if goHasSuffixStr path "/" then path else path ++ "/"
    if goHasPrefixStr path "/" then
      let path := handleDots path
      match getParentPathAndChildofDirectory path with
      | .error e => .error e
      | .ok (parent, child) =>
        match validateDirectoryExistsByUsername s username parent child with
        | .error e => .error e
        | .ok () => .ok path
    else
      match getCurrDir s username with
      | .error e => .error e
      | .ok curr_dir =>
        let path := handleDots (curr_dir ++ path)
        match getParentPathAndChildofDirectory path with
        | .error e => .error e
        | .ok (parent, child) =>
          match validateDirectoryExistsByUsername s username parent child with
          | .error e => .error e
          | .ok () => .ok path

/-- checkValidAbsolutePathWithFile.  The error of
getParentPathAndChildofFile is discarded by the Go code (the variables keep
their zero values ""), mirrored by the getD below; note the function
returns the unresolved parent path new_path, not the dot-resolved one. -/
def checkValidAbsolutePathWithFile (s : ServerState) (username path : String) :
    Except String (String × String) :=
  if path = "" then .error "Cannot give empty string as path"
  else if goHasSuffixStr path "/" then .error "This is not a valid file path"
  else if !goHasPrefixStr path "/" then .error "This is not an absolute path"
  else
    let pair := match getParentPathAndChildofFile path with
      | .ok p => p
      | .error _ => ("", "")
    let new_path := pair.1
    let file_name := pair.2
    let path := handleDots new_path
    match getParentPathAndChildofDirectory path with
    | .error e => .error e
    | .ok (parent, child) =>
      match validateDirectoryExistsByUsername s username parent child with
      | .error e => .error e
      | .ok () => .ok (new_path, file_name)

/-- setCurrDir: canonicalize and validate the path, then store it as the
user's current directory.  Callers never pass the empty string (Go would
panic slicing it). -/
def setCurrDir (s : ServerState) (username path : String) :
    Except String ServerState :=
  let path := if goHasSuffixStr path "/" then path else path ++ "/"
  match validateUniqueUserByUsername s username with
  | .error e => .error e
  | .ok () =>
    match checkValidDirectoryPath s username path with
    | .error e => .error e
    | .ok path => .ok { s with users := s.users.map fun r =>
        if r.username == username then { r with curr_dir := some path } else r }

/-! filetable.go: the files table. -/

/-- countNumFileByChecksum: COUNT(*) FROM files WHERE checksum = ?. -/
def countNumFileByChecksum (s : ServerState) (checksum : String) : Nat :=
  s.files.countP fun r => r.checksum == checksum

/-- countNumFilesByUsernameAndFileInfo. -/
def countNumFilesByUsernameAndFileInfo (s : ServerState)
    (username filename filepath : String) : Except String Nat :=
  match validateUniqueUserByUsername s username with
  | .error e => .error e
  | .ok () => .ok (s.files.countP fun r =>
      r.username == username && r.filename == filename && r.filepath == filepath)

/-- uploadFile: INSERT INTO files. -/
def uploadFile (s : ServerState) (username filename filepath checksum : String) :
    Except String ServerState :=
  match validateUniqueUserByUsername s username with
  | .error e => .error e
  | .ok () => .ok { s with files := s.files ++
      [⟨username, filename, filepath, checksum⟩] }

/-- First files row for (username, filename, filepath) (QueryRow). -/
def findFileRow (s : ServerState) (username filename filepath : String) :
    Option FileRow :=
  s.files.find? fun r =>
    r.username == username && r.filename == filename && r.filepath == filepath

/-- getChecksum. -/
def getChecksum (s : ServerState) (username filename filepath : String) :
    Except String String :=
  match validateUniqueUserByUsername s username with
  | .error e => .error e
  | .ok () =>
    match findFileRow s username filename filepath with
    | some r => .ok r.checksum
    | none => .error "sql: no rows in result set"

/-- getFilesByUsernameAndCurrDir: file names in the directory, ordered. -/
def getFilesByUsernameAndCurrDir (s : ServerState) (username curr_dir : String) :
    Except String (List String) :=
  match validateUniqueUserByUsername s username with
  | .error e => .error e
  | .ok () => .ok (sortStrings ((s.files.filter fun r =>
      r.username == username && r.filepath == curr_dir).map fun r => r.filename))

/-! sharedtable.go: the shared table. -/

/-- getNumSharedFilesByInfo: COUNT(*) over (owner, filename, filepath,
sharee), after user validation. -/
def getNumSharedFilesByInfo (s : ServerState)
    (owner filename filepath sharee : String) : Except String Nat :=
  match validateUniqueUserByUsername s owner with
  | .error e => .error e
  | .ok () =>
    match validateUniqueUserByUsername s sharee with
    | .error e => .error e
    | .ok () =>
      if owner = sharee then .error "Cannot share file with yourself."
      else .ok (s.shared.countP fun r =>
        r.owner == owner && r.filename == filename &&
          r.filepath == filepath && r.sharee == sharee)

/-- shareFileWithSharee: insert the share edge unless it already exists. -/
def shareFileWithSharee (s : ServerState)
    (sharer_username filename filepath checksum sharee_username : String)
    (write_perms : Bool) : Except String ServerState :=
  match validateUniqueUserByUsername s sharer_username with
  | .error e => .error e
  | .ok () =>
    match validateUniqueUserByUsername s sharee_username with
    | .error e => .error e
    | .ok () =>
      if sharer_username = sharee_username then
        .error "Cannot share file with yourself."
      else
        match getNumSharedFilesByInfo s sharer_username filename filepath
            sharee_username with
        | .error e => .error e
        | .ok count_files =>
          if count_files ≠ 0 then
            .error "You have already shared a file with the same name with the given user"
          else .ok { s with shared := s.shared ++
            [⟨sharer_username, filename, filepath, checksum, sharee_username,
              write_perms⟩] }

/-- chmodFileWithSharee: update write_perms of the existing edge. -/
def chmodFileWithSharee (s : ServerState)
    (sharer_username filename filepath checksum sharee_username : String)
    (write_perms : Bool) : Except String ServerState :=
  match validateUniqueUserByUsername s sharer_username with
  | .error e => .error e
  | .ok () =>
    match validateUniqueUserByUsername s sharee_username with
    | .error e => .error e
    | .ok () =>
      if sharer_username = sharee_username then
        .error "Cannot share file with yourself."
      else
        match getNumSharedFilesByInfo s sharer_username filename filepath
            sharee_username with
        | .error e => .error e
        | .ok count_files =>
          if count_files ≠ 1 then
            .error "You have not shared this file with the given user."
          else .ok { s with shared := s.shared.map fun r =>
            if r.owner == sharer_username && r.filename == filename &&
                r.filepath == filepath && r.checksum == checksum &&
                r.sharee == sharee_username then
              { r with write_perms := write_perms }
            else r }

/-- unshareFileFromSharee: delete the edge (matching the checksum too),
which must exist exactly once by (owner, filename, filepath, sharee). -/
def unshareFileFromSharee (s : ServerState)
    (sharer_username filename filepath checksum sharee_username : String) :
    Except String ServerState :=
  match validateUniqueUserByUsername s sharer_username with
  | .error e => .error e
  | .ok () =>
    match validateUniqueUserByUsername s sharee_username with
    | .error e => .error e
    | .ok () =>
      if sharer_username = sharee_username then
        .error "Cannot share file with yourself."
      else
        match getNumSharedFilesByInfo s sharer_username filename filepath
            sharee_username with
        | .error e => .error e
        | .ok count_files =>
          if count_files ≠ 1 then
            .error "You have not shared the selected file with the given user"
          else .ok { s with shared := s.shared.filter fun r =>
            !(r.owner == sharer_username && r.filename == filename &&
              r.filepath == filepath && r.checksum == checksum &&
              r.sharee == sharee_username) }

/-- getNumSharedFilesBySharerAndShareeUsername: COUNT(*) over
(owner, sharee). -/
def getNumSharedFilesBySharerAndShareeUsername (s : ServerState)
    (sharer_username sharee_username : String) : Except String Nat :=
  match validateUniqueUserByUsername s sharer_username with
  | .error e => .error e
  | .ok () =>
    match validateUniqueUserByUsername s sharee_username with
    | .error e => .error e
    | .ok () => .ok (s.shared.countP fun r =>
        r.owner == sharer_username && r.sharee == sharee_username)

/-- updateSharedChecksumsByOwner: UPDATE shared SET checksum = new WHERE
owner, filename, filepath, checksum = old. -/
def updateSharedChecksumsByOwner (s : ServerState)
    (owner owner_path filename old_checksum new_checksum : String) :
    Except String ServerState :=
  match validateUniqueUserByUsername s owner with
  | .error e => .error e
  | .ok () => .ok { s with shared := s.shared.map fun r =>
      if r.owner == owner && r.filename == filename &&
          r.filepath == owner_path && r.checksum == old_checksum then
        { r with checksum := new_checksum }
      else r }

/-- updateSharedChecksumsBySharee: update all shared rows matching
(owner, filename, old checksum) — note: no filepath filter — and the
owner's files row matching (owner, filename, filepath, old checksum). -/
def updateSharedChecksumsBySharee (s : ServerState)
    (owner owner_path filename old_checksum new_checksum : String) :
    Except String ServerState :=
  match validateUniqueUserByUsername s owner with
  | .error e => .error e
  | .ok () => .ok { s with
      shared := s.shared.map fun r =>
        if r.owner == owner && r.filename == filename &&
            r.checksum == old_checksum then
          { r with checksum := new_checksum }
        else r,
      files := s.files.map fun r =>
        if r.username == owner && r.filename == filename &&
            r.filepath == owner_path && r.checksum == old_checksum then
          { r with checksum := new_checksum }
        else r }

/-- hasWritePermissions: write_perms of the first shared row matching
(filename, filepath, sharee, checksum) — the owner is not part of the
query.  A missing row is a QueryRow error (the Go caller ignores it and
sees has_write = false). -/
def hasWritePermissions (s : ServerState)
    (sharee filename filepath checksum : String) : Except String Bool :=
  match validateUniqueUserByUsername s sharee with
  | .error e => .error e
  | .ok () =>
    match s.shared.find? fun r =>
        r.filename == filename && r.filepath == filepath &&
          r.sharee == sharee && r.checksum == checksum with
    | some r => .ok r.write_perms
    | none => .error "sql: no rows in result set"

/-- getSharedFilesByUsernameAndOwner: names of files shared from owner to
username, ordered by filename. -/
def getSharedFilesByUsernameAndOwner (s : ServerState) (username owner : String) :
    Except String (List String) :=
  match validateUniqueUserByUsername s username with
  | .error e => .error e
  | .ok () => .ok (sortStrings ((s.shared.filter fun r =>
      r.sharee == username && r.owner == owner).map fun r => r.filename))

/-- getSharedOwnerPath: filepath of the first shared row matching
(filename, owner, sharee). -/
def getSharedOwnerPath (s : ServerState) (sharee owner filename : String) :
    Except String String :=
  match validateUniqueUserByUsername s sharee with
  | .error e => .error e
  | .ok () =>
    match s.shared.find? fun r =>
        r.filename == filename && r.owner == owner && r.sharee == sharee with
    | some r => .ok r.filepath
    | none => .error "sql: no rows in result set"

/-- deleteAllFilesSharedWithUserByUsername: DELETE FROM shared WHERE
sharee = ?. -/
def deleteAllFilesSharedWithUserByUsername (s : ServerState) (username : String) :
    Except String ServerState :=
  match validateUniqueUserByUsername s username with
  | .error e => .error e
  | .ok () => .ok { s with shared := s.shared.filter fun r =>
      !(r.sharee == username) }

/-- countNumShareesByOwnerAndFileInfo: the owner's file must exist exactly
once; then COUNT(*) of its share edges. -/
def countNumShareesByOwnerAndFileInfo (s : ServerState)
    (owner filename filepath : String) : Except String Nat :=
  match validateUniqueUserByUsername s owner with
  | .error e => .error e
  | .ok () =>
    match countNumFilesByUsernameAndFileInfo s owner filename filepath with
    | .error e => .error e
    | .ok count_files =>
      if count_files ≠ 1 then .error "File does not exist"
      else .ok (s.shared.countP fun r =>
        r.owner == owner && r.filename == filename && r.filepath == filepath)

/-- getShareesByOwnerAndFileInfo: all sharee usernames of the file. -/
def getShareesByOwnerAndFileInfo (s : ServerState)
    (owner filename filepath : String) : Except String (List String) :=
  match validateUniqueUserByUsername s owner with
  | .error e => .error e
  | .ok () =>
    match countNumFilesByUsernameAndFileInfo s owner filename filepath with
    | .error e => .error e
    | .ok count_files =>
      if count_files ≠ 1 then .error "File does not exist"
      else .ok ((s.shared.filter fun r =>
        r.owner == owner && r.filename == filename &&
          r.filepath == filepath).map fun r => r.sharee)

/-- removeFileByUsername: the owner's file must exist exactly once and have
no share edges; delete the row, then return the checksum exactly when no
files row references it any more (so the caller deletes the physical
blob). -/
def removeFileByUsername (s : ServerState) (username filename curr_dir : String) :
    Except String (String × ServerState) :=
  match validateUniqueUserByUsername s username with
  | .error e => .error e
  | .ok () =>
    match countNumFilesByUsernameAndFileInfo s username filename curr_dir with
    | .error e => .error e
    | .ok count_files =>
      if count_files ≠ 1 then .error "File does not exist"
      else
        match getChecksum s username filename curr_dir with
        | .error e => .error e
        | .ok checksum =>
          match countNumShareesByOwnerAndFileInfo s username filename curr_dir with
          | .error e => .error e
          | .ok num_sharees =>
            if num_sharees ≠ 0 then
              .error "You must unshare a file with all users before deleting the file."
            else
              let s1 : ServerState := { s with files := s.files.filter fun r =>
                !(r.username == username && r.filename == filename &&
                  r.filepath == curr_dir) }
              if countNumFileByChecksum s1 checksum = 0 then .ok (checksum, s1)
              else .ok ("", s1)

/-- updateOwnerChecksum: UPDATE files SET checksum = new WHERE username,
filename, filepath, checksum = old (old re-read from the table). -/
def updateOwnerChecksum (s : ServerState)
    (username filename filepath new_checksum : String) : Except String ServerState :=
  match validateUniqueUserByUsername s username with
  | .error e => .error e
  | .ok () =>
    match countNumFilesByUsernameAndFileInfo s username filename filepath with
    | .error e => .error e
    | .ok count_files =>
      if count_files ≠ 1 then .error "File does not exist"
      else
        match getChecksum s username filename filepath with
        | .error e => .error e
        | .ok old_checksum => .ok { s with files := s.files.map fun r =>
            if r.username == username && r.filename == filename &&
                r.filepath == filepath && r.checksum == old_checksum then
              { r with checksum := new_checksum }
            else r }

/-! Blob directory (basedir) operations. -/

/-- First blob stored under this checksum. -/
def findBlob (blobs : List Blob) (checksum : String) : Option Blob :=
  blobs.find? fun b => b.checksum == checksum

/-- os.Remove of the blob file: error when it does not exist. -/
def osRemoveBlob (blobs : List Blob) (checksum : String) :
    Except String (List Blob) :=
  if (findBlob blobs checksum).isSome then
    .ok (blobs.filter fun b => !(b.checksum == checksum))
  else .error "remove: no such file or directory"

/-- ioutil.WriteFile of the blob (overwrites; the Go caller ignores the
error). -/
def writeBlobFile (blobs : List Blob) (checksum : String) (content : List Nat) :
    List Blob :=
  (blobs.filter fun b => !(b.checksum == checksum)) ++ [⟨checksum, content⟩]

/-- ioutil.ReadFile of the blob. -/
def readBlobFile (blobs : List Blob) (checksum : String) :
    Except String (List Nat) :=
  match findBlob blobs checksum with
  | some b => .ok b.content
  | none => .error "open: no such file or directory"

/-- overUserSizeLimit: stat every blob owned by the user (erroring if one
is missing) and reject once the total reaches 28000 bytes. -/
def overUserSizeLimit (s : ServerState) (username : String) :
    Except String Unit :=
  let checksums := (s.files.filter fun r => r.username == username).map
    fun r => r.checksum
  match checksums.foldlM (fun (acc : Nat) c =>
      match findBlob s.blobs c with
      | some b => Except.ok (acc + b.content.length)
      | none => Except.error "open: no such file or directory") 0 with
  | .error e => .error e
  | .ok total_bytes =>
    if 28000 ≤ total_bytes then .error "You cannot upload any more files"
    else .ok ()

/-! util.go: session and password helpers that read the tables. -/

/-- getSaltedPass: the password concatenated with the user's salt. -/
def getSaltedPass (s : ServerState) (username password : String) :
    Except String String :=
  match getSaltByUsername s username with
  | .error e => .error e
  | .ok salt => .ok (password ++ salt)

/-- checkSessionToken: expire (purging the stored token) when the stored
last-access time is more than 5 minutes old, otherwise compare the
presented token with the stored hash and refresh the last-access time on
success.  Returns the mutated state together with the result. -/
def checkSessionToken (s : ServerState) (now : Nat)
    (username session_token : String) : ServerState × Except String Unit :=
  match getSessionTokenInfoByUsername s username with
  | .error e => (s, .error e)
  | .ok (stored_token, stored_last) =>
    if stored_last + 60 * 5 < now then
      match removeSessionTokenInfoByUsername s username with
      | .error e => (s, .error e)
      | .ok s1 => (s1, .error "Session token expired.")
    else if !bcryptCompare stored_token session_token then
      (s, .error "Incorrect password.")
    else
      match updateSessionTokenInfoByUsername s now username with
      | .error e => (s, .error e)
      | .ok s1 => (s1, .ok ())

/-- checkIfFileExistsAndgetChecksum. -/
def checkIfFileExistsAndgetChecksum (s : ServerState)
    (username filename filepath : String) : Except String String :=
  match countNumFilesByUsernameAndFileInfo s username filename filepath with
  | .error e => .error e
  | .ok count =>
    if count ≠ 1 then .error "This file does not exist"
    else getChecksum s username filename filepath

/-- removeDirectoryByUsername: the directory must exist exactly once and
contain no files and no subdirectories; then delete its row. -/
def removeDirectoryByUsername (s : ServerState) (username curr_dir dirname : String) :
    Except String ServerState :=
  match validateUniqueUserByUsername s username with
  | .error e => .error e
  | .ok () =>
    let dirname := dirname ++ "/"
    if getNumDirectoriesByUsername s username curr_dir dirname ≠ 1 then
      .error "Directory does not exist"
    else
      let subdir := curr_dir ++ dirname
      match getFilesByUsernameAndCurrDir s username subdir with
      | .error e => .error e
      | .ok files =>
        if files.length ≠ 0 then .error "Cannot remove directory that has files."
        else
          match getSubdirectoriesByUsernameAndCurrDir s username subdir with
          | .error e => .error e
          | .ok subdirectories =>
            if subdirectories.length ≠ 0 then
              .error "Cannot remove directory that has subdirectories."
            else .ok { s with directories := s.directories.filter fun d =>
              !(d.username == username && d.path == curr_dir && d.name == dirname) }

/-! serverprelogin.go handlers.  Wall-clock time and the randomly generated
strings (salt, verification code, session token) are explicit parameters;
sendEmail is an external side effect with no bearing on the state. -/

/-- emailRegisterHandler: first registration step, creating the pending
users row. -/
def emailRegisterHandler (s : ServerState) (now : Nat) (salt ver : String)
    (email username password : String) : ServerState × RegisterReturn :=
  match overUsersLimit s with
  | .error e => (s, ⟨false, e⟩)
  | .ok () =>
    let email := trimSpace email
    if !validateEmail email then
      (s, ⟨false, "Invalid email address, canceling registration."⟩)
    else
      let username := trimSpace username
      if !validateUsername username then
        (s, ⟨false, "Invalid username, canceling registration."⟩)
      else
        let vp := validatePassword password
        if !vp.1 then (s, ⟨false, vp.2⟩)
        else
          let hashed_pass := bcryptGenerate (password ++ salt)
          let hashed_ver := bcryptGenerate ver
          match createNewUserPreEmail s now email username hashed_pass salt
              hashed_ver with
          | .error e => (s, ⟨false, e⟩)
          | .ok s1 => (s1, ⟨true, ""⟩)

/-- validateRegisterHandler: second registration step.  Mirrors the Go code
exactly, including which failure branches delete the pending row and which
do not (the early validation failures, the getSaltedPass failure and the
wrong-replayed-password branch leave the row in place). -/
def validateRegisterHandler (s : ServerState) (now : Nat)
    (email username password ver_code : String) : ServerState × RegisterReturn :=
  let email := trimSpace email
  let username := trimSpace username
  let password := trimSpace password
  let ver_code := trimSpace ver_code
  if !validateEmail (trimSpace email) then
    (s, ⟨false, "Invalid email address, canceling registration."⟩)
  else if !validateUsername (trimSpace username) then
    (s, ⟨false, "Invalid username, canceling registration."⟩)
  else
    let vp := validatePassword password
    if !vp.1 then (s, ⟨false, vp.2⟩)
    else
      match getUserPasswordByUsernameAndEmail s username email with
      | .error e =>
        (match removeUserRowByUsernameAndEmail s username email with
         | .error re => (s, ⟨false, re⟩)
         | .ok s1 => (s1, ⟨false, e⟩))
      | .ok stored_password =>
        match getSaltedPass s username password with
        | .error e => (s, ⟨false, e⟩)
        | .ok salted_password =>
          if !bcryptCompare stored_password salted_password then
            (s, ⟨false, "Incorrect password."⟩)
          else
            match getVerCodeInfoByUsernameAndEmail s username email with
            | .error e =>
              (match removeUserRowByUsernameAndEmail s username email with
               | .error re => (s, ⟨false, re⟩)
               | .ok s1 => (s1, ⟨false, e⟩))
            | .ok (stored_ver_code, stored_ver_code_creation_time) =>
              match removeVerCodeInfoByUsernameAndEmail s username email with
              | .error e =>
                (match removeUserRowByUsernameAndEmail s username email with
                 | .error re => (s, ⟨false, re⟩)
                 | .ok s1 => (s1, ⟨false, e⟩))
              | .ok s1 =>
                if stored_ver_code_creation_time + 60 * 5 < now then
                  (match removeUserRowByUsernameAndEmail s1 username email with
                   | .error re => (s1, ⟨false, re⟩)
                   | .ok s2 => (s2, ⟨false, "Verification code expired"⟩))
                else if !bcryptCompare stored_ver_code ver_code then
                  (match removeUserRowByUsernameAndEmail s1 username email with
                   | .error re => (s1, ⟨false, re⟩)
                   | .ok s2 => (s2, ⟨false, "Incorrect password."⟩))
                else
                  match createRootandShared s1 username with
                  | .error e =>
                    (match removeUserRowByUsernameAndEmail s1 username email with
                     | .error re => (s1, ⟨false, re⟩)
                     | .ok s2 => (s2, ⟨false, e⟩))
                  | .ok s2 => (s2, ⟨true, ""⟩)

/-- validateLoginHandler: password login; on success stores the hash of the
freshly generated session token and resets the current directory to the
root. -/
def validateLoginHandler (s : ServerState) (now : Nat) (token : String)
    (username password : String) : ServerState × LoginReturn :=
  let username := trimSpace username
  if !validateUsername username then
    (s, ⟨"", "Invalid username, canceling registration."⟩)
  else
    let vp := validatePassword password
    if !vp.1 then (s, ⟨"", vp.2⟩)
    else
      match getUserPasswordByUsername s username with
      | .error e => (s, ⟨"", e⟩)
      | .ok stored_password =>
        match getSaltedPass s username password with
        | .error e => (s, ⟨"", e⟩)
        | .ok salted_password =>
          if !bcryptCompare stored_password salted_password then
            (s, ⟨"", "Incorrect password."⟩)
          else
            match createSessionTokenByUsername s now username
                (bcryptGenerate token) with
            | .error e => (s, ⟨"", e⟩)
            | .ok s1 =>
              match setCurrDir s1 username "/" with
              | .error e => (s1, ⟨"", e⟩)
              | .ok s2 => (s2, ⟨token, ""⟩)

/-! serverpostlogin.go handlers. -/

/-- getWorkingDirectoryHandler. -/
def getWorkingDirectoryHandler (s : ServerState) (now : Nat)
    (username session_token : String) : ServerState × PwdReturn :=
  match checkSessionToken s now username session_token with
  | (s1, .error e) => (s1, ⟨"", e, true⟩)
  | (s1, .ok ()) =>
    match getCurrDir s1 username with
    | .error e => (s1, ⟨"", e, false⟩)
    | .ok curr_dir => (s1, ⟨curr_dir, "", false⟩)

/-- lsHandler: subdirectories and files of the current directory (shared
files when inside the synthetic shared tree). -/
def lsHandler (s : ServerState) (now : Nat) (username session_token : String) :
    ServerState × ListReturn :=
  match checkSessionToken s now username session_token with
  | (s1, .error e) => (s1, ⟨[], [], e, true⟩)
  | (s1, .ok ()) =>
    match getCurrDir s1 username with
    | .error e => (s1, ⟨[], [], e, true⟩)
    | .ok curr_dir =>
      match getSubdirectoriesByUsernameAndCurrDir s1 username curr_dir with
      | .error e => (s1, ⟨[], [], e, false⟩)
      | .ok subdirectories =>
        if !checkIfCurrDirIsInSharedFolder curr_dir then
          match getFilesByUsernameAndCurrDir s1 username curr_dir with
          | .error e => (s1, ⟨[], [], e, false⟩)
          | .ok files => (s1, ⟨subdirectories, files, "", false⟩)
        else
          match getSharedFilesByUsernameAndOwner s1 username
              (getSharedOwner curr_dir) with
          | .error e => (s1, ⟨[], [], e, false⟩)
          | .ok files => (s1, ⟨subdirectories, files, "", false⟩)

/-- cdHandler. -/
def cdHandler (s : ServerState) (now : Nat) (username session_token path : String) :
    ServerState × ErrorReturn :=
  match checkSessionToken s now username session_token with
  | (s1, .error e) => (s1, ⟨e, true⟩)
  | (s1, .ok ()) =>
    match checkValidDirectoryPath s1 username path with
    | .error e => (s1, ⟨e, false⟩)
    | .ok path =>
      if checkIfAbsolutePath path then
        match setCurrDir s1 username path with
        | .error e => (s1, ⟨e, false⟩)
        | .ok s2 => (s2, ⟨"", false⟩)
      else
        match getCurrDir s1 username with
        | .error e => (s1, ⟨e, false⟩)
        | .ok old_path =>
          match setCurrDir s1 username (old_path ++ path) with
          | .error e => (s1, ⟨e, false⟩)
          | .ok s2 => (s2, ⟨"", false⟩)

/-- mkdirHandler. -/
def mkdirHandler (s : ServerState) (now : Nat)
    (username session_token dirname : String) : ServerState × ErrorReturn :=
  match checkSessionToken s now username session_token with
  | (s1, .error e) => (s1, ⟨e, true⟩)
  | (s1, .ok ()) =>
    if !validateDirname dirname then (s1, ⟨"Invalid directory name.", false⟩)
    else
      match getCurrDir s1 username with
      | .error e => (s1, ⟨e, false⟩)
      | .ok curr_dir =>
        if goHasPrefixStr curr_dir "/shared/" then
          (s1, ⟨"Unable to create folder in shared directory.", false⟩)
        else
          match createDirectoryByUsername s1 username curr_dir dirname with
          | .error e => (s1, ⟨e, false⟩)
          | .ok s2 => (s2, ⟨"", false⟩)

/-- rmdirHandler. -/
def rmdirHandler (s : ServerState) (now : Nat)
    (username session_token dirname : String) : ServerState × ErrorReturn :=
  match checkSessionToken s now username session_token with
  | (s1, .error e) => (s1, ⟨e, true⟩)
  | (s1, .ok ()) =>
    if !validateDirname dirname then (s1, ⟨"Invalid directory name.", false⟩)
    else
      match getCurrDir s1 username with
      | .error e => (s1, ⟨e, false⟩)
      | .ok curr_dir =>
        if curr_dir = "/" && dirname = "shared" then
          (s1, ⟨"Unable to delete shared directory.", false⟩)
        else if goHasPrefixStr curr_dir "/shared/" then
          (s1, ⟨"Unable to remove directory in shared directory.", false⟩)
        else
          match removeDirectoryByUsername s1 username curr_dir dirname with
          | .error e => (s1, ⟨e, false⟩)
          | .ok s2 => (s2, ⟨"", false⟩)

/-- Tail of rmfileHandler once the containing directory and file name are
fixed (the Go code reassigns curr_dir/filename in the absolute-path case
and falls through to this common code). -/
def rmfileAfterPath (s1 : ServerState) (username curr_dir filename : String) :
    ServerState × ErrorReturn :=
  if !validateFilename filename then (s1, ⟨"Invalid file name.", false⟩)
  else if goHasPrefixStr curr_dir "/shared/" then
    (s1, ⟨"Unable to remove file in shared directory.", false⟩)
  else
    match removeFileByUsername s1 username filename curr_dir with
    | .error e => (s1, ⟨e, false⟩)
    | .ok (file_checksum, s2) =>
      if file_checksum ≠ "" then
        match osRemoveBlob s2.blobs file_checksum with
        | .error e => (s2, ⟨e, false⟩)
        | .ok blobs => ({ s2 with blobs := blobs }, ⟨"", false⟩)
      else (s2, ⟨"", false⟩)

/-- rmfileHandler. -/
def rmfileHandler (s : ServerState) (now : Nat)
    (username session_token filename : String) : ServerState × ErrorReturn :=
  match checkSessionToken s now username session_token with
  | (s1, .error e) => (s1, ⟨e, true⟩)
  | (s1, .ok ()) =>
    match getCurrDir s1 username with
    | .error e => (s1, ⟨e, false⟩)
    | .ok curr_dir =>
      if checkIfAbsolutePath filename then
        match checkValidAbsolutePathWithFile s1 username filename with
        | .error e => (s1, ⟨e, false⟩)
        | .ok (true_path, file) => rmfileAfterPath s1 username true_path file
      else rmfileAfterPath s1 username curr_dir filename

/-- logoutHandler. -/
def logoutHandler (s : ServerState) (username : String) :
    ServerState × ErrorReturn :=
  match resetCurrDir s username with
  | .error e => (s, ⟨e, true⟩)
  | .ok s1 =>
    match removeSessionTokenInfoByUsername s1 username with
    | .error e => (s1, ⟨e, true⟩)
    | .ok s2 => (s2, ⟨"", false⟩)

/-- Owner-side modify branch of uploadHandler (lines 426-465): update the
owner's files row and the matching shared rows from the old to the new
checksum, then physically remove the old blob when unreferenced.  Except
carries an early handler return. -/
def uploadOwnerModify (s1 : ServerState)
    (username curr_dir dest_filename hexFilename : String) :
    Except (ServerState × ErrorReturn) ServerState :=
  let oldE := getChecksum s1 username dest_filename curr_dir
  let old_checksum := match oldE with | .ok c => c | .error _ => ""
  if old_checksum == hexFilename then
    .error (s1, ⟨"No modifications detected", false⟩)
  else if oldE.isOk = false then
    .error (s1, ⟨"This file does not exist", false⟩)
  else
    match updateOwnerChecksum s1 username dest_filename curr_dir hexFilename with
    | .error _ => .error (s1, ⟨"This file does not exist", false⟩)
    | .ok s2 =>
      match updateSharedChecksumsByOwner s2 username curr_dir dest_filename
          old_checksum hexFilename with
      | .error _ => .error (s2, ⟨"There was an error", false⟩)
      | .ok s3 =>
        if countNumFileByChecksum s3 old_checksum = 0 then
          match osRemoveBlob s3.blobs old_checksum with
          | .error _ => .error (s3, ⟨"There was an error", false⟩)
          | .ok blobs => .ok { s3 with blobs := blobs }
        else .ok s3

/-- Sharee-side modify branch of uploadHandler (lines 469-516): requires
write permission looked up under the old checksum, then updates the owner
and all sharees and reclaims the old blob when unreferenced. -/
def uploadShareeModify (s1 : ServerState)
    (username curr_dir dest_filename hexFilename : String) :
    Except (ServerState × ErrorReturn) ServerState :=
  let owner := getSharedOwner curr_dir
  match getSharedOwnerPath s1 username owner dest_filename with
  | .error _ => .error (s1, ⟨"This file does not exist", false⟩)
  | .ok owner_path =>
    match getChecksum s1 owner dest_filename owner_path with
    | .error _ => .error (s1, ⟨"This file does not exist", false⟩)
    | .ok old_checksum =>
      if old_checksum == hexFilename then
        .error (s1, ⟨"No modifications detected", false⟩)
      else
        let has_write := match hasWritePermissions s1 username dest_filename
            owner_path old_checksum with
          | .ok b => b
          | .error _ => false
        if !has_write then
          .error (s1, ⟨"You do not have write permissions to this shared file.",
            false⟩)
        else
          match updateSharedChecksumsBySharee s1 owner owner_path dest_filename
              old_checksum hexFilename with
          | .error _ => .error (s1, ⟨"This file does not exist", false⟩)
          | .ok s2 =>
            if countNumFileByChecksum s2 old_checksum = 0 then
              match osRemoveBlob s2.blobs old_checksum with
              | .error _ => .error (s2, ⟨"There was an error", false⟩)
              | .ok blobs => .ok { s2 with blobs := blobs }
            else .ok s2

/-- Common tail of uploadHandler: write the blob when no files row already
used the new checksum before the call, then insert the files row when not
modifying. -/
def uploadFinish (s : ServerState)
    (username curr_dir dest_filename hexFilename : String)
    (file_bytes : List Nat) (modify : Bool) (numInstances : Nat) :
    ServerState × ErrorReturn :=
  let s := if numInstances = 0 then
      { s with blobs := writeBlobFile s.blobs hexFilename file_bytes }
    else s
  if !modify then
    match uploadFile s username dest_filename curr_dir hexFilename with
    | .error _ => (s, ⟨"There was an error", false⟩)
    | .ok s2 => (s2, ⟨"", false⟩)
  else (s, ⟨"", false⟩)

/-- Tail of uploadHandler once the destination directory and file name are
fixed. -/
def uploadAfterPath (s1 : ServerState) (username : String)
    (file_bytes : List Nat) (curr_dir dest_filename : String) (modify : Bool) :
    ServerState × ErrorReturn :=
  if !validateFilename dest_filename then (s1, ⟨"Invalid file name.", false⟩)
  else if checkIfCurrDirIsInSharedFolder curr_dir && !modify then
    (s1, ⟨"Unable to create file in shared directory", false⟩)
  else
    let countFilesE : Except String Nat :=
      if !checkIfCurrDirIsInSharedFolder curr_dir then
        countNumFilesByUsernameAndFileInfo s1 username dest_filename curr_dir
      else
        match getSharedOwnerPath s1 username (getSharedOwner curr_dir)
            dest_filename with
        | .error e => .error e
        | .ok owner_path =>
          countNumFilesByUsernameAndFileInfo s1 (getSharedOwner curr_dir)
            dest_filename owner_path
    match countFilesE with
    | .error _ => (s1, ⟨"This file does not exist", false⟩)
    | .ok countFiles =>
      if countFiles ≠ 0 && !modify then
        (s1, ⟨"Unable to create file, file already exists", false⟩)
      else if countFiles ≠ 1 && modify then
        (s1, ⟨"File to modify does not exist on server", false⟩)
      else
        let hexFilename := makeFileChecksumHex file_bytes
        let numInstances := countNumFileByChecksum s1 hexFilename
        if modify && !checkIfCurrDirIsInSharedFolder curr_dir then
          match uploadOwnerModify s1 username curr_dir dest_filename hexFilename with
          | .error r => r
          | .ok s4 => uploadFinish s4 username curr_dir dest_filename hexFilename
              file_bytes modify numInstances
        else if modify && checkIfCurrDirIsInSharedFolder curr_dir then
          match uploadShareeModify s1 username curr_dir dest_filename hexFilename with
          | .error r => r
          | .ok s4 => uploadFinish s4 username curr_dir dest_filename hexFilename
              file_bytes modify numInstances
        else uploadFinish s1 username curr_dir dest_filename hexFilename
          file_bytes modify numInstances

/-- uploadHandler: the 5600-byte ceiling is checked before the session
token; then quota, path resolution, create-vs-modify dispatch. -/
def uploadHandler (s : ServerState) (now : Nat) (username session_token : String)
    (file_bytes : List Nat) (dest_filename : String) (modify : Bool) :
    ServerState × ErrorReturn :=
  if 5600 ≤ file_bytes.length then (s, ⟨"This file is too big", false⟩)
  else
    match checkSessionToken s now username session_token with
    | (s1, .error e) => (s1, ⟨e, true⟩)
    | (s1, .ok ()) =>
      match overUserSizeLimit s1 username with
      | .error e => (s1, ⟨e, false⟩)
      | .ok () =>
        match getCurrDir s1 username with
        | .error e => (s1, ⟨e, false⟩)
        | .ok curr_dir =>
          if checkIfAbsolutePath dest_filename then
            match checkValidAbsolutePathWithFile s1 username dest_filename with
            | .error e => (s1, ⟨e, false⟩)
            | .ok (true_path, file_name) =>
              uploadAfterPath s1 username file_bytes true_path file_name modify
          else uploadAfterPath s1 username file_bytes curr_dir dest_filename modify

/-- Tail of catHandler once directory and file name are fixed. -/
def catAfterPath (s1 : ServerState) (username curr_dir file : String) :
    ServerState × DownloadReturn :=
  if !validateFilename file then (s1, ⟨[], "Invalid file name.", false⟩)
  else
    let checksumE : Except String String :=
      if !checkIfCurrDirIsInSharedFolder curr_dir then
        checkIfFileExistsAndgetChecksum s1 username file curr_dir
      else
        let owner := getSharedOwner curr_dir
        let owner_path := match getSharedOwnerPath s1 username owner file with
          | .ok p => p
          | .error _ => ""
        checkIfFileExistsAndgetChecksum s1 owner file owner_path
    match checksumE with
    | .error e => (s1, ⟨[], e, false⟩)
    | .ok checksum =>
      match readBlobFile s1.blobs checksum with
      | .error e => (s1, ⟨[], e, false⟩)
      | .ok file_bytes => (s1, ⟨file_bytes, "", false⟩)

/-- catHandler. -/
def catHandler (s : ServerState) (now : Nat)
    (username session_token file : String) : ServerState × DownloadReturn :=
  match checkSessionToken s now username session_token with
  | (s1, .error e) => (s1, ⟨[], e, true⟩)
  | (s1, .ok ()) =>
    match getCurrDir s1 username with
    | .error e => (s1, ⟨[], e, false⟩)
    | .ok curr_dir =>
      if checkIfAbsolutePath file then
        match checkValidAbsolutePathWithFile s1 username file with
        | .error e => (s1, ⟨[], e, false⟩)
        | .ok (true_path, file_name) => catAfterPath s1 username true_path file_name
      else catAfterPath s1 username curr_dir file

/-- sharefileHandler: validate everything, create the sharee's synthetic
directory if needed, then insert the share edge with the owner's current
checksum. -/
def sharefileHandler (s : ServerState) (now : Nat)
    (sharer_username session_token filename sharee_username : String)
    (write_perms : Bool) : ServerState × ErrorReturn :=
  match checkSessionToken s now sharer_username session_token with
  | (s1, .error e) => (s1, ⟨e, true⟩)
  | (s1, .ok ()) =>
    if !validateFilename filename then (s1, ⟨"Invalid filename", false⟩)
    else if !validateUsername sharer_username then
      (s1, ⟨"Invalid username", false⟩)
    else if !validateUsername sharee_username then
      (s1, ⟨"Invalid sharee username", false⟩)
    else if sharer_username = sharee_username then
      (s1, ⟨"Cannot share file with yourself", false⟩)
    else
      match getCurrDir s1 sharer_username with
      | .error e => (s1, ⟨e, false⟩)
      | .ok curr_dir =>
        if goHasPrefixStr curr_dir "/shared/" then
          (s1, ⟨"Unable to share file that has been shared with you", false⟩)
        else
          match countNumFilesByUsernameAndFileInfo s1 sharer_username filename
              curr_dir with
          | .error e => (s1, ⟨e, false⟩)
          | .ok count_files =>
            if count_files ≠ 1 then (s1, ⟨"File does not exist", false⟩)
            else
              match getChecksum s1 sharer_username filename curr_dir with
              | .error e => (s1, ⟨e, false⟩)
              | .ok checksum =>
                if getNumUsersWithUsername s1 sharee_username ≠ 1 then
                  (s1, ⟨"Sharee does not exist", false⟩)
                else
                  match makeSharerDirectoryForSharee s1 sharer_username
                      sharee_username with
                  | .error e => (s1, ⟨e, false⟩)
                  | .ok s2 =>
                    match shareFileWithSharee s2 sharer_username filename curr_dir
                        checksum sharee_username write_perms with
                    | .error e => (s2, ⟨e, false⟩)
                    | .ok s3 => (s3, ⟨"", false⟩)

/-- unsharefileHandler: delete the share edge and, when it was the last
file shared from this owner to this sharee, the sharee's synthetic
directory.  The invalid-filename branch executes err.Error() on the nil
error left by the successful session check, a nil-pointer dereference;
that Go panic is modelled as none. -/
def unsharefileHandler (s : ServerState) (now : Nat)
    (sharer_username session_token filename sharee_username : String) :
    Option (ServerState × ErrorReturn) :=
  match checkSessionToken s now sharer_username session_token with
  | (s1, .error e) => some (s1, ⟨e, true⟩)
  | (s1, .ok ()) =>
    if !validateFilename filename then none
    else if !validateUsername sharer_username then
      some (s1, ⟨"Invalid username", false⟩)
    else if !validateUsername sharee_username then
      some (s1, ⟨"Invalid sharee username", false⟩)
    else if sharer_username = sharee_username then
      some (s1, ⟨"Cannot share file with yourself", false⟩)
    else
      match getCurrDir s1 sharer_username with
      | .error e => some (s1, ⟨e, false⟩)
      | .ok curr_dir =>
        if goHasPrefixStr curr_dir "/shared/" then
          some (s1, ⟨"Unable to share file that has been shared with you", false⟩)
        else
          match countNumFilesByUsernameAndFileInfo s1 sharer_username filename
              curr_dir with
          | .error e => some (s1, ⟨e, false⟩)
          | .ok count_files =>
            if count_files ≠ 1 then some (s1, ⟨"File does not exist", false⟩)
            else
              match getChecksum s1 sharer_username filename curr_dir with
              | .error e => some (s1, ⟨e, false⟩)
              | .ok checksum =>
                if getNumUsersWithUsername s1 sharee_username ≠ 1 then
                  some (s1, ⟨"Sharee does not exist", false⟩)
                else
                  match unshareFileFromSharee s1 sharer_username filename curr_dir
                      checksum sharee_username with
                  | .error e => some (s1, ⟨e, false⟩)
                  | .ok s2 =>
                    match getNumSharedFilesBySharerAndShareeUsername s2
                        sharer_username sharee_username with
                    | .error e => some (s2, ⟨e, false⟩)
                    | .ok num_files =>
                      if num_files = 0 then
                        match removeSharerDirectoryForSharee s2 sharer_username
                            sharee_username with
                        | .error e => some (s2, ⟨e, false⟩)
                        | .ok s3 => some (s3, ⟨"", false⟩)
                      else some (s2, ⟨"", false⟩)

/-- deleteacctHandler. -/
def deleteacctHandler (s : ServerState) (now : Nat)
    (username session_token : String) : ServerState × ErrorReturn :=
  match checkSessionToken s now username session_token with
  | (s1, .error e) => (s1, ⟨e, true⟩)
  | (s1, .ok ()) =>
    if !validateUsername username then (s1, ⟨"Invalid username", false⟩)
    else
      match getCurrDir s1 username with
      | .error e => (s1, ⟨e, false⟩)
      | .ok curr_dir =>
        if curr_dir ≠ "/" then
          (s1, ⟨"Can only delete account form home (/) directory", false⟩)
        else
          match getFilesByUsernameAndCurrDir s1 username curr_dir with
          | .error e => (s1, ⟨e, false⟩)
          | .ok files =>
            if files.length ≠ 0 then
              (s1, ⟨"To be deleted, account must have no owned files", false⟩)
            else
              match getSubdirectoriesByUsernameAndCurrDir s1 username curr_dir with
              | .error e => (s1, ⟨e, false⟩)
              | .ok subdirectories =>
                if subdirectories.length = 0 then
                  (s1, ⟨"Unable to delete account", false⟩)
                else if subdirectories.length ≠ 1 then
                  (s1, ⟨"To be deleted, account must have no owned directories other than /shared/", false⟩)
                else if subdirectories.getD 0 "" ≠ "shared/" then
                  (s1, ⟨"Unable to delete account, account has directory other than shared/", false⟩)
                else
                  match deleteAllFilesSharedWithUserByUsername s1 username with
                  | .error e => (s1, ⟨e, false⟩)
                  | .ok s2 =>
                    match removeAllDirectories s2 username with
                    | .error e => (s2, ⟨e, false⟩)
                    | .ok s3 =>
                      match removeUserRowByUsername s3 username with
                      | .error e => (s3, ⟨e, false⟩)
                      | .ok s4 => (s4, ⟨"", true⟩)

/-- listshareesHandler. -/
def listshareesHandler (s : ServerState) (now : Nat)
    (username session_token filename : String) : ServerState × ShareesReturn :=
  match checkSessionToken s now username session_token with
  | (s1, .error e) => (s1, ⟨[], e, true⟩)
  | (s1, .ok ()) =>
    if !validateUsername username then (s1, ⟨[], "Invalid username", false⟩)
    else if !validateFilename filename then (s1, ⟨[], "Invalid filename", false⟩)
    else
      match getCurrDir s1 username with
      | .error e => (s1, ⟨[], e, false⟩)
      | .ok curr_dir =>
        match getShareesByOwnerAndFileInfo s1 username filename curr_dir with
        | .error e => (s1, ⟨[], e, false⟩)
        | .ok sharees => (s1, ⟨sharees, "", false⟩)

/-- chmodfileHandler. -/
def chmodfileHandler (s : ServerState) (now : Nat)
    (sharer_username session_token filename sharee_username : String)
    (write_perms : Bool) : ServerState × ErrorReturn :=
  match checkSessionToken s now sharer_username session_token with
  | (s1, .error e) => (s1, ⟨e, true⟩)
  | (s1, .ok ()) =>
    if !validateFilename filename then (s1, ⟨"Invalid filename", false⟩)
    else if !validateUsername sharer_username then
      (s1, ⟨"Invalid username", false⟩)
    else if !validateUsername sharee_username then
      (s1, ⟨"Invalid sharee username", false⟩)
    else if sharer_username = sharee_username then
      (s1, ⟨"Cannot chmod file with yourself", false⟩)
    else
      match getCurrDir s1 sharer_username with
      | .error e => (s1, ⟨e, false⟩)
      | .ok curr_dir =>
        if goHasPrefixStr curr_dir "/shared/" then
          (s1, ⟨"Unable to chmod file that has been shared with you", false⟩)
        else
          match countNumFilesByUsernameAndFileInfo s1 sharer_username filename
              curr_dir with
          | .error e => (s1, ⟨e, false⟩)
          | .ok count_files =>
            if count_files ≠ 1 then (s1, ⟨"File does not exist", false⟩)
            else
              match getChecksum s1 sharer_username filename curr_dir with
              | .error e => (s1, ⟨e, false⟩)
              | .ok checksum =>
                if getNumUsersWithUsername s1 sharee_username ≠ 1 then
                  (s1, ⟨"Sharee does not exist", false⟩)
                else
                  match chmodFileWithSharee s1 sharer_username filename curr_dir
                      checksum sharee_username write_perms with
                  | .error e => (s1, ⟨e, false⟩)
                  | .ok s2 => (s2, ⟨"", false⟩)

/-! Concrete states used by witnesses and counterexamples. -/

/-- Pending (unverified) registration row for alice as created by a
successful emailregister with salt "salty" and verification code
"Code99". -/
def alicePendingRow : UserRow :=
  { username := "alice", email := "a@x.com", ver_code := some "Code99",
    ver_code_creation_time := some 10,
    password := bcryptGenerate ("Abc123!@" ++ "salty"), salt := "salty",
    session_token := none, session_token_last_access_time := none,
    curr_dir := none }

/-- State holding exactly the pending alice row. -/
def pendingAliceState : ServerState := { initState with users := [alicePendingRow] }

/-- Activated alice with a live session (token hash "tok", last access at
time 100) sitting in her root directory. -/
def aliceActiveRow : UserRow :=
  { username := "alice", email := "a@x.com", ver_code := none,
    ver_code_creation_time := none, password := "pw", salt := "s",
    session_token := some "tok", session_token_last_access_time := some 100,
    curr_dir := some "/" }

/-- State with the logged-in alice and her root and shared directories. -/
def aliceLoggedInState : ServerState :=
  { users := [aliceActiveRow],
    directories := [⟨"alice", "", "/"⟩, ⟨"alice", "/", "shared/"⟩],
    files := [], shared := [], blobs := [] }

/-- State whose users table already holds 100 pending rows. -/
def cap100State : ServerState :=
  { initState with users := List.replicate 100 alicePendingRow }

/-- Activated bob (no live session). -/
def bobActiveRow : UserRow :=
  { username := "bob", email := "b@x.com", ver_code := none,
    ver_code_creation_time := none, password := "pw2", salt := "s2",
    session_token := none, session_token_last_access_time := none,
    curr_dir := some "/" }

/-- State where alice owns /f.txt (checksum "#1.2") and shares it
read-only with bob, whose synthetic /shared/alice/ directory exists. -/
def shareDemoState : ServerState :=
  { users := [aliceActiveRow, bobActiveRow],
    directories := [⟨"alice", "", "/"⟩, ⟨"alice", "/", "shared/"⟩,
      ⟨"bob", "", "/"⟩, ⟨"bob", "/", "shared/"⟩,
      ⟨"bob", "/shared/", "alice/"⟩],
    files := [⟨"alice", "f.txt", "/", "#1.2"⟩],
    shared := [⟨"alice", "f.txt", "/", "#1.2", "bob", false⟩],
    blobs := [⟨"#1.2", [1, 2]⟩] }

/-- shareDemoState with a second owned file g.txt that is not yet
shared. -/
def shareDemoState2 : ServerState :=
  { shareDemoState with files := [⟨"alice", "f.txt", "/", "#1.2"⟩,
      ⟨"alice", "g.txt", "/", "#3.4"⟩] }

/-- The state produced by sharefile(alice, g.txt, bob) on shareDemoState2:
only the share edge is appended (bob's /shared/alice/ entry already
exists). -/
def postShareState : ServerState :=
  { shareDemoState2 with shared := [⟨"alice", "f.txt", "/", "#1.2", "bob", false⟩,
      ⟨"alice", "g.txt", "/", "#3.4", "bob", false⟩] }

/-- The state produced by unsharefile(alice, f.txt, bob) on shareDemoState:
the last edge and bob's /shared/alice/ entry are gone. -/
def postUnshareState : ServerState :=
  { users := [aliceActiveRow, bobActiveRow],
    directories := [⟨"alice", "", "/"⟩, ⟨"alice", "/", "shared/"⟩,
      ⟨"bob", "", "/"⟩, ⟨"bob", "/", "shared/"⟩],
    files := [⟨"alice", "f.txt", "/", "#1.2"⟩],
    shared := [], blobs := [⟨"#1.2", [1, 2]⟩] }

/-! The transition system of the server (claim C6).  One step is a call to
any exposed handler; the nondeterministic inputs (wall-clock time, the
generated salt / verification code / session token, request fields) are
arbitrary. -/

/-- Number of Directory Entries giving the sharee a /shared/<owner>/
entry. -/
def dirCount (s : ServerState) (owner sharee : String) : Nat :=
  s.directories.countP fun d =>
    d.username == sharee && d.path == "/shared/" && d.name == owner ++ "/"

/-- Number of live Share Entries from owner to sharee across all files. -/
def edgeCount (s : ServerState) (owner sharee : String) : Nat :=
  s.shared.countP fun r => r.owner == owner && r.sharee == sharee

/-- The /shared/<owner>/ directory of a sharee exists iff at least one live
Share Entry from that owner to that sharee exists. -/
def SharedDirInv (s : ServerState) : Prop :=
  ∀ owner sharee, 0 < dirCount s owner sharee ↔ 0 < edgeCount s owner sharee

/-- Each /shared/<owner>/ entry is stored at most once (the strengthening
that makes the invariant inductive through unsharefile, whose directory
removal requires the row to exist exactly once). -/
def SharedDirUnique (s : ServerState) : Prop :=
  ∀ owner sharee, dirCount s owner sharee ≤ 1

/-- The combined inductive invariant for claim C6. -/
def DirInvAux (s : ServerState) : Prop := SharedDirInv s ∧ SharedDirUnique s

/-- One server step: some handler runs with some inputs.  The
unsharefile handler can panic (modelled as none), in which case no new
state is produced. -/
inductive Step : ServerState → ServerState → Prop where
  | emailRegister (s : ServerState) (now : Nat)
      (salt ver email username password : String) :
      Step s (emailRegisterHandler s now salt ver email username password).1
  | validateRegister (s : ServerState) (now : Nat)
      (email username password ver_code : String) :
      Step s (validateRegisterHandler s now email username password ver_code).1
  | validateLogin (s : ServerState) (now : Nat)
      (token username password : String) :
      Step s (validateLoginHandler s now token username password).1
  | getWorkingDirectory (s : ServerState) (now : Nat)
      (username session_token : String) :
      Step s (getWorkingDirectoryHandler s now username session_token).1
  | ls (s : ServerState) (now : Nat) (username session_token : String) :
      Step s (lsHandler s now username session_token).1
  | cd (s : ServerState) (now : Nat) (username session_token path : String) :
      Step s (cdHandler s now username session_token path).1
  | mkdir (s : ServerState) (now : Nat)
      (username session_token dirname : String) :
      Step s (mkdirHandler s now username session_token dirname).1
  | rmdir (s : ServerState) (now : Nat)
      (username session_token dirname : String) :
      Step s (rmdirHandler s now username session_token dirname).1
  | rmfile (s : ServerState) (now : Nat)
      (username session_token filename : String) :
      Step s (rmfileHandler s now username session_token filename).1
  | logout (s : ServerState) (username : String) :
      Step s (logoutHandler s username).1
  | upload (s : ServerState) (now : Nat) (username session_token : String)
      (file_bytes : List Nat) (dest_filename : String) (modify : Bool) :
      Step s (uploadHandler s now username session_token file_bytes
        dest_filename modify).1
  | cat (s : ServerState) (now : Nat) (username session_token file : String) :
      Step s (catHandler s now username session_token file).1
  | sharefile (s : ServerState) (now : Nat)
      (sharer_username session_token filename sharee_username : String)
      (write_perms : Bool) :
      Step s (sharefileHandler s now sharer_username session_token filename
        sharee_username write_perms).1
  | unsharefile (s s' : ServerState) (now : Nat)
      (sharer_username session_token filename sharee_username : String)
      (r : ErrorReturn)
      (h : unsharefileHandler s now sharer_username session_token filename
        sharee_username = some (s', r)) :
      Step s s'
  | deleteacct (s : ServerState) (now : Nat) (username session_token : String) :
      Step s (deleteacctHandler s now username session_token).1
  | listsharees (s : ServerState) (now : Nat)
      (username session_token filename : String) :
      Step s (listshareesHandler s now username session_token filename).1
  | chmodfile (s : ServerState) (now : Nat)
      (sharer_username session_token filename sharee_username : String)
      (write_perms : Bool) :
      Step s (chmodfileHandler s now sharer_username session_token filename
        sharee_username write_perms).1

/-- A state is reachable when a finite sequence of handler calls produces
it from the empty initial state. -/
def Reachable (s : ServerState) : Prop :=
  Relation.ReflTransGen Step initState s

end BoxDrop

namespace BoxDrop

/-! Lemmas about path canonicalization (claim C2). -/

theorem lastIdxOf_isSome_of_mem {c : Char} {l : List Char} (h : c ∈ l) :
    (lastIdxOf c l).isSome := by
  induction l with
  | nil => simp at h
  | cons a as ih =>
    rcases h' : lastIdxOf c as with _ | j
    · rcases List.mem_cons.mp h with h1 | h2
      · subst h1
        simp [lastIdxOf, h']
      · exact absurd (ih h2) (by rw [h']; simp)
    · simp [lastIdxOf, h']

theorem lastSlashBound_pos {l : List Char} (h : '/' ∈ l) :
    0 < lastSlashBound l := by
  unfold lastSlashBound
  rcases h' : lastIdxOf '/' l with _ | j
  · exact absurd (lastIdxOf_isSome_of_mem h) (by rw [h']; simp)
  · simp

theorem head?_take_of_pos {α : Type} (a : α) (t : List α) {k : Nat}
    (hk : 0 < k) : ((a :: t).take k).head? = some a := by
  cases k with
  | zero => exact absurd hk (lt_irrefl 0)
  | succ n => rfl

theorem handleDotsStep_head {out : List Char} (dir : List Char)
    (h : out.head? = some '/') : (handleDotsStep out dir).head? = some '/' := by
  cases out with
  | nil => simp at h
  | cons a t =>
    have ha : a = '/' := by simpa using h
    subst ha
    unfold handleDotsStep
    split
    · split
      · rename_i hne
        cases t with
        | nil => exact absurd rfl hne
        | cons b t' =>
          exact head?_take_of_pos '/' _
            (lastSlashBound_pos (List.mem_cons_self '/' _))
      · exact h
    · split
      · rfl
      · exact h

theorem handleDots_foldl_head (dirs : List (List Char)) (out : List Char)
    (h : out.head? = some '/') :
    (dirs.foldl handleDotsStep out).head? = some '/' := by
  induction dirs generalizing out with
  | nil => exact h
  | cons d ds ih => exact ih _ (handleDotsStep_head d h)

theorem handleDots_head (path : String) :
    (handleDots path).data.head? = some '/' := by
  unfold handleDots
  exact handleDots_foldl_head _ _ rfl

theorem checkValidDirectoryPath_head (s : ServerState)
    (username path result : String)
    (h : checkValidDirectoryPath s username path = Except.ok result) :
    result.data.head? = some '/' := by
  simp only [checkValidDirectoryPath] at h
  repeat' split at h
  all_goals try exact Except.noConfusion h
  all_goals rw [Except.ok.injEq] at h; subst h; exact handleDots_head _

/-- C2: path canonicalization drops "." segments, makes ".." pop the last
emitted segment, and never escapes the root: resolving the relative path
"../b/" against current directory "/a/" yields "/b/", resolving "../../"
against "/" yields "/", and for every input string the canonicalized
result is an absolute path beginning with "/" — both for handleDots itself
and for every path accepted by checkValidDirectoryPath. -/
theorem handleDots_canonicalization :
    handleDots ("/a/" ++ "../b/") = "/b/" ∧
    handleDots ("/" ++ "../../") = "/" ∧
    (∀ path : String, (handleDots path).data.head? = some '/') ∧
    (∀ (s : ServerState) (username path result : String),
      checkValidDirectoryPath s username path = Except.ok result →
      result.data.head? = some '/') :=
  ⟨by decide, by decide, handleDots_head, checkValidDirectoryPath_head⟩

/-- Witness for C2: the universally quantified parts applied to a concrete
resolution, discharging the hypothesis by evaluation. -/
theorem handleDots_canonicalization_witness :
    ("/shared/" : String).data.head? = some '/' :=
  handleDots_canonicalization.2.2.2 aliceLoggedInState "alice" "shared" "/shared/"
    (by decide)

/-- Any upload below the 5600-byte ceiling by the logged-in alice into her
empty root directory is stored successfully, whatever the bytes are. -/
theorem upload_small_succeeds (bytes : List Nat) (h : bytes.length < 5600) :
    (uploadHandler aliceLoggedInState 100 "alice" "tok" bytes "f.txt" false).2.Err
      = "" := by
  unfold uploadHandler
  rw [if_neg (by omega)]
  have hsess : checkSessionToken aliceLoggedInState 100 "alice" "tok"
      = (aliceLoggedInState, Except.ok ()) := by decide
  rw [hsess]
  rfl

/-- C9: the per-call upload byte ceiling is 5600: every call whose
file_bytes has length at least 5600 is rejected with "This file is too
big", logout = false, and an unchanged state, before the session token is
even looked at (the rejection holds for every state and every token);
a 5599-byte upload passes the check and is stored. -/
theorem uploadHandler_size_cap :
    (∀ (s : ServerState) (now : Nat) (username session_token : String)
      (file_bytes : List Nat) (dest_filename : String) (modify : Bool),
      5600 ≤ file_bytes.length →
      uploadHandler s now username session_token file_bytes dest_filename modify
        = (s, ⟨"This file is too big", false⟩)) ∧
    (uploadHandler aliceLoggedInState 100 "alice" "tok"
      (List.replicate 5599 0) "f.txt" false).2.Err = "" := by
  constructor
  · intro s now u tok bytes dest modify h
    unfold uploadHandler
    rw [if_pos h]
  · exact upload_small_succeeds _ (by rw [List.length_replicate]; omega)

/-- Witness for C9: the ceiling applied at a concrete 5600-byte input. -/
theorem uploadHandler_size_cap_witness :
    uploadHandler initState 0 "alice" "tok" (List.replicate 5600 0) "f.txt" false
      = (initState, ⟨"This file is too big", false⟩) :=
  uploadHandler_size_cap.1 _ _ _ _ _ _ _
    (by rw [List.length_replicate])

/-- emailRegisterHandler inserts at most one users row. -/
theorem emailRegister_users_le (s : ServerState) (now : Nat)
    (salt ver email username password : String) :
    (emailRegisterHandler s now salt ver email username password).1.users.length
      ≤ s.users.length + 1 := by
  simp only [emailRegisterHandler]
  repeat' split
  all_goals try exact Nat.le_succ _
  all_goals rename_i heq
  all_goals simp only [createNewUserPreEmail] at heq
  all_goals repeat' split at heq
  all_goals first
    | exact Except.noConfusion heq
    | (rw [Except.ok.injEq] at heq; subst heq; simp)

/-- C10: the global registered-user cap is 100 and counts pending rows:
emailregister is refused (with an unchanged state) whenever the users
table already holds 100 or more rows — the COUNT(*) includes unverified
rows — and consequently registration never pushes the table above
100 rows. -/
theorem emailRegister_user_cap :
    ∀ (s : ServerState) (now : Nat) (salt ver email username password : String),
    (100 ≤ s.users.length →
      emailRegisterHandler s now salt ver email username password
        = (s, ⟨false, "No more users can be registered"⟩)) ∧
    (emailRegisterHandler s now salt ver email username password).1.users.length
      ≤ max s.users.length 100 := by
  intro s now salt ver email username password
  have hcap : 100 ≤ s.users.length →
      emailRegisterHandler s now salt ver email username password
        = (s, ⟨false, "No more users can be registered"⟩) := by
    intro h
    unfold emailRegisterHandler overUsersLimit
    rw [if_pos h]
  refine ⟨hcap, ?_⟩
  by_cases h : 100 ≤ s.users.length
  · rw [hcap h]
    exact le_max_left _ _
  · have hle := emailRegister_users_le s now salt ver email username password
    exact le_max_of_le_right (by omega)

/-- Witness for C10: at a state with exactly 100 pending rows, the next
emailregister is refused and the table stays at 100 rows. -/
theorem emailRegister_user_cap_witness :
    emailRegisterHandler cap100State 0 "salty" "Code99" "c@x.com" "carol"
        "Abc123!@"
      = (cap100State, ⟨false, "No more users can be registered"⟩) :=
  (emailRegister_user_cap cap100State 0 "salty" "Code99" "c@x.com" "carol"
      "Abc123!@").1
    (by rw [show cap100State.users = List.replicate 100 alicePendingRow from rfl,
          List.length_replicate])

/-- C1 (code bug): a pending registration challenged with the wrong
replayed password fails with "Incorrect password." but leaves the pending
users row for (alice, a@x.com) fully intact — the wrong-password branch of
validateRegisterHandler returns without calling
removeUserRowByUsernameAndEmail, although the function's own documentation
says failures at any point remove the row. -/
theorem validateRegister_wrong_password_keeps_pending_row :
    validateRegisterHandler pendingAliceState 20 "a@x.com" "alice" "Wrong123!"
        "Code99"
      = (pendingAliceState, ⟨false, "Incorrect password."⟩) ∧
    pendingAliceState.users = [alicePendingRow] :=
  ⟨by decide, rfl⟩

/-- C3: for every owned file (its row present exactly once): when at least
one live share edge exists, removeFileByUsername is rejected with an error
and, being Except-valued, changes nothing; with zero share edges the files
row is deleted and the returned string is the file's checksum exactly when
no files row anywhere still references that checksum, and the empty string
otherwise — so rmfileHandler physically removes the blob only when it is
unreferenced. -/
theorem removeFileByUsername_share_guard (s : ServerState)
    (username filename curr_dir : String) (row : FileRow)
    (hu : getNumUsersWithUsername s username = 1)
    (hc : (s.files.countP fun r => r.username == username &&
        r.filename == filename && r.filepath == curr_dir) = 1)
    (hrow : findFileRow s username filename curr_dir = some row) :
    ((s.shared.countP fun r => r.owner == username && r.filename == filename &&
        r.filepath == curr_dir) ≠ 0 →
      removeFileByUsername s username filename curr_dir
        = .error "You must unshare a file with all users before deleting the file.") ∧
    ((s.shared.countP fun r => r.owner == username && r.filename == filename &&
        r.filepath == curr_dir) = 0 →
      removeFileByUsername s username filename curr_dir
        = .ok
          (if countNumFileByChecksum
              { s with files := s.files.filter fun r =>
                !(r.username == username && r.filename == filename &&
                  r.filepath == curr_dir) } row.checksum = 0
            then row.checksum else "",
           { s with files := s.files.filter fun r =>
              !(r.username == username && r.filename == filename &&
                r.filepath == curr_dir) })) := by
  have hval : validateUniqueUserByUsername s username = Except.ok () := by
    unfold validateUniqueUserByUsername
    rw [hu]
    simp
  have hcount : countNumFilesByUsernameAndFileInfo s username filename curr_dir
      = Except.ok 1 := by
    unfold countNumFilesByUsernameAndFileInfo
    rw [hval, hc]
  have hchk : getChecksum s username filename curr_dir = Except.ok row.checksum := by
    unfold getChecksum
    rw [hval, hrow]
  have hsharees : countNumShareesByOwnerAndFileInfo s username filename curr_dir
      = Except.ok (s.shared.countP fun r => r.owner == username &&
          r.filename == filename && r.filepath == curr_dir) := by
    unfold countNumShareesByOwnerAndFileInfo
    rw [hval, hcount]
    simp
  constructor
  · intro hne
    simp only [removeFileByUsername, hval, hcount, hchk, hsharees]
    simp [hne]
  · intro h0
    simp only [removeFileByUsername, hval, hcount, hchk, hsharees]
    simp [h0]
    split <;> rename_i hif <;> simp [hif]

/-- Witness for C3: alice owns f.txt (checksum "#1.2", shared with bob),
the delete is rejected; the same theorem applied to the edge-free carol
file would return the checksum. -/
theorem removeFileByUsername_share_guard_witness :
    removeFileByUsername shareDemoState "alice" "f.txt" "/"
      = .error "You must unshare a file with all users before deleting the file." :=
  (removeFileByUsername_share_guard shareDemoState "alice" "f.txt" "/"
      ⟨"alice", "f.txt", "/", "#1.2"⟩ (by decide) (by decide) (by decide)).1
    (by decide)

/-- C8: for every authenticated post-login call: when the stored
last-access time is more than 5 minutes (300 seconds) before the current
time, the stored session token hash and its last-access time are purged
(set NULL), the call is rejected, and the response carries logout = true
(shown on lsHandler, whose session gate is the same checkSessionToken);
when the presented token matches the stored hash within the TTL, the
last-access time is refreshed to the current time and the gate passes. -/
theorem checkSessionToken_ttl (s : ServerState) (now : Nat)
    (username token : String) (row : UserRow) (hash : String) (t : Nat)
    (hu : getNumUsersWithUsername s username = 1)
    (hrow : findUserByUsername s username = some row)
    (htok : row.session_token = some hash)
    (ht : row.session_token_last_access_time = some t) :
    (t + 300 < now →
      checkSessionToken s now username token
        = ({ s with users := s.users.map fun r =>
              if r.username == username then
                { r with session_token := none,
                         session_token_last_access_time := none }
              else r },
           Except.error "Session token expired.") ∧
      (lsHandler s now username token).2.Err = "Session token expired." ∧
      (lsHandler s now username token).2.Logout = true) ∧
    (¬ t + 300 < now → bcryptCompare hash token = true →
      checkSessionToken s now username token
        = ({ s with users := s.users.map fun r =>
              if r.username == username then
                { r with session_token_last_access_time := some now }
              else r },
           Except.ok ())) := by
  have hval : validateUniqueUserByUsername s username = Except.ok () := by
    unfold validateUniqueUserByUsername
    rw [hu]
    simp
  have hinfo : getSessionTokenInfoByUsername s username = Except.ok (hash, t) := by
    unfold getSessionTokenInfoByUsername
    rw [hval, hrow]
    simp [ht, htok]
  have hrem : removeSessionTokenInfoByUsername s username
      = Except.ok { s with users := s.users.map fun r =>
          if r.username == username then
            { r with session_token := none,
                     session_token_last_access_time := none }
          else r } := by
    unfold removeSessionTokenInfoByUsername
    rw [hval]
  have hupd : updateSessionTokenInfoByUsername s now username
      = Except.ok { s with users := s.users.map fun r =>
          if r.username == username then
            { r with session_token_last_access_time := some now }
          else r } := by
    unfold updateSessionTokenInfoByUsername
    rw [hval]
  constructor
  · intro hexp
    have hc : checkSessionToken s now username token
        = ({ s with users := s.users.map fun r =>
              if r.username == username then
                { r with session_token := none,
                         session_token_last_access_time := none }
              else r },
           Except.error "Session token expired.") := by
      unfold checkSessionToken
      simp only [hinfo]
      rw [if_pos (show t + 60 * 5 < now by omega)]
      simp only [hrem]
    refine ⟨hc, ?_, ?_⟩ <;> (unfold lsHandler; rw [hc])
  · intro hexp hcmp
    unfold checkSessionToken
    simp only [hinfo]
    rw [if_neg (show ¬ t + 60 * 5 < now by omega), hcmp]
    simp only [Bool.not_true, Bool.false_eq_true, if_false, hupd]

/-- Witness for C8: alice's session (last access 100) is expired at time
401, yielding a purged token and logout = true, while at time 400 the
matching token refreshes the last-access time. -/
theorem checkSessionToken_ttl_witness :
    (lsHandler aliceLoggedInState 401 "alice" "tok").2.Logout = true ∧
    checkSessionToken aliceLoggedInState 400 "alice" "tok"
      = ({ aliceLoggedInState with users := aliceLoggedInState.users.map fun r =>
            if r.username == "alice" then
              { r with session_token_last_access_time := some 400 }
            else r },
         Except.ok ()) :=
  ⟨((checkSessionToken_ttl aliceLoggedInState 401 "alice" "tok" aliceActiveRow
      "tok" 100 (by decide) (by decide) rfl rfl).1 (by omega)).2.2,
   (checkSessionToken_ttl aliceLoggedInState 400 "alice" "tok" aliceActiveRow
      "tok" 100 (by decide) (by decide) rfl rfl).2 (by omega) (by decide)⟩

/-- checkSessionToken only touches the users table: the directories,
files, shared and blob components pass through unchanged. -/
theorem checkSessionToken_frame (s : ServerState) (now : Nat) (u tok : String) :
    ((checkSessionToken s now u tok).1).directories = s.directories ∧
    ((checkSessionToken s now u tok).1).files = s.files ∧
    ((checkSessionToken s now u tok).1).shared = s.shared ∧
    ((checkSessionToken s now u tok).1).blobs = s.blobs := by
  unfold checkSessionToken
  repeat' split
  all_goals try exact ⟨rfl, rfl, rfl, rfl⟩
  all_goals rename_i heq
  all_goals simp only [removeSessionTokenInfoByUsername,
    updateSessionTokenInfoByUsername] at heq
  all_goals repeat' split at heq
  all_goals first
    | exact Except.noConfusion heq
    | (rw [Except.ok.injEq] at heq; subst heq; exact ⟨rfl, rfl, rfl, rfl⟩)

/-- C5: when an owner uploads with modify = true from a non-shared
directory: if the new content's checksum equals the stored one the call is
rejected with "No modifications detected" and the files, shared and blob
state is unchanged; otherwise the owner's File Entry and every Share Entry
for that (owner, file, path) are updated from the old to the new checksum,
and the old blob is physically deleted exactly when no File Entry still
references the old checksum (the new blob being written when it did not
exist before the call). -/
theorem uploadHandler_owner_modify (s s1 : ServerState) (now : Nat)
    (username token : String) (file_bytes : List Nat)
    (dest_filename curr_dir : String) (row : FileRow)
    (hsess : checkSessionToken s now username token = (s1, Except.ok ()))
    (hlen : file_bytes.length < 5600)
    (hquota : overUserSizeLimit s1 username = Except.ok ())
    (hcd : getCurrDir s1 username = Except.ok curr_dir)
    (habs : checkIfAbsolutePath dest_filename = false)
    (hfn : validateFilename dest_filename = true)
    (hsh : checkIfCurrDirIsInSharedFolder curr_dir = false)
    (hu : getNumUsersWithUsername s1 username = 1)
    (hcount : (s1.files.countP fun r => r.username == username &&
        r.filename == dest_filename && r.filepath == curr_dir) = 1)
    (hrow : findFileRow s1 username dest_filename curr_dir = some row)
    (hblob : (findBlob s1.blobs row.checksum).isSome = true) :
    (row.checksum = makeFileChecksumHex file_bytes →
      uploadHandler s now username token file_bytes dest_filename true
        = (s1, ⟨"No modifications detected", false⟩) ∧
      s1.files = s.files ∧ s1.shared = s.shared ∧ s1.blobs = s.blobs) ∧
    (row.checksum ≠ makeFileChecksumHex file_bytes →
      (uploadHandler s now username token file_bytes dest_filename true).2
        = ⟨"", false⟩ ∧
      (uploadHandler s now username token file_bytes dest_filename true).1.files
        = (s1.files.map fun r =>
            if r.username == username && r.filename == dest_filename &&
                r.filepath == curr_dir && r.checksum == row.checksum then
              { r with checksum := makeFileChecksumHex file_bytes }
            else r) ∧
      (uploadHandler s now username token file_bytes dest_filename true).1.shared
        = (s1.shared.map fun r =>
            if r.owner == username && r.filename == dest_filename &&
                r.filepath == curr_dir && r.checksum == row.checksum then
              { r with checksum := makeFileChecksumHex file_bytes }
            else r) ∧
      (uploadHandler s now username token file_bytes dest_filename true).1.blobs
        = (let blobs2 :=
            if ((s1.files.map fun r =>
                if r.username == username && r.filename == dest_filename &&
                    r.filepath == curr_dir && r.checksum == row.checksum then
                  { r with checksum := makeFileChecksumHex file_bytes }
                else r).countP fun r => r.checksum == row.checksum) = 0 then
              s1.blobs.filter fun b => !(b.checksum == row.checksum)
            else s1.blobs
           if countNumFileByChecksum s1 (makeFileChecksumHex file_bytes) = 0 then
             writeBlobFile blobs2 (makeFileChecksumHex file_bytes) file_bytes
           else blobs2) ∧
      s1.files = s.files ∧ s1.shared = s.shared ∧ s1.blobs = s.blobs) := by
  have hfr := checkSessionToken_frame s now username token
  rw [hsess] at hfr
  have hval1 : validateUniqueUserByUsername s1 username = Except.ok () := by
    unfold validateUniqueUserByUsername
    rw [hu]
    simp
  have hcountE : countNumFilesByUsernameAndFileInfo s1 username dest_filename
      curr_dir = Except.ok 1 := by
    unfold countNumFilesByUsernameAndFileInfo
    rw [hval1, hcount]
  have hchk : getChecksum s1 username dest_filename curr_dir
      = Except.ok row.checksum := by
    unfold getChecksum
    rw [hval1, hrow]
  have hupd : updateOwnerChecksum s1 username dest_filename curr_dir
      (makeFileChecksumHex file_bytes)
      = Except.ok { s1 with files := s1.files.map fun r =>
          if r.username == username && r.filename == dest_filename &&
              r.filepath == curr_dir && r.checksum == row.checksum then
            { r with checksum := makeFileChecksumHex file_bytes }
          else r } := by
    unfold updateOwnerChecksum
    rw [hval1, hcountE]
    simp only [hchk]
    rw [if_neg (show ¬(1 ≠ 1) from fun h => h rfl)]
  have hgoal : uploadHandler s now username token file_bytes dest_filename true
      = (match uploadOwnerModify s1 username curr_dir dest_filename
            (makeFileChecksumHex file_bytes) with
         | .error r => r
         | .ok s4 => uploadFinish s4 username curr_dir dest_filename
             (makeFileChecksumHex file_bytes) file_bytes true
             (countNumFileByChecksum s1 (makeFileChecksumHex file_bytes))) := by
    unfold uploadHandler
    rw [if_neg (by omega)]
    simp only [hsess, hquota, hcd, habs, Bool.false_eq_true, if_false]
    unfold uploadAfterPath
    simp only [hfn, hsh, Bool.not_true, Bool.false_eq_true, if_false,
      Bool.false_and, Bool.and_false, Bool.not_false, Bool.true_and,
      Bool.and_true, hcountE]
    simp
  rw [hgoal]
  constructor
  · intro hEq
    refine ⟨?_, hfr.2.1, hfr.2.2.1, hfr.2.2.2⟩
    simp [uploadOwnerModify, hchk, hEq]
  · intro hne
    have hbeq : (row.checksum == makeFileChecksumHex file_bytes) = false := by
      simp [hne]
    have hval2 : validateUniqueUserByUsername
        { users := s1.users, directories := s1.directories,
          files := s1.files.map fun r =>
            if r.username == username && r.filename == dest_filename &&
                r.filepath == curr_dir && r.checksum == row.checksum then
              { r with checksum := makeFileChecksumHex file_bytes }
            else r,
          shared := s1.shared, blobs := s1.blobs } username
        = Except.ok () := hval1
    have hshupd : updateSharedChecksumsByOwner
        { users := s1.users, directories := s1.directories,
          files := s1.files.map fun r =>
            if r.username == username && r.filename == dest_filename &&
                r.filepath == curr_dir && r.checksum == row.checksum then
              { r with checksum := makeFileChecksumHex file_bytes }
            else r,
          shared := s1.shared, blobs := s1.blobs }
        username curr_dir dest_filename row.checksum (makeFileChecksumHex file_bytes)
        = Except.ok
          { users := s1.users, directories := s1.directories,
            files := s1.files.map fun r =>
              if r.username == username && r.filename == dest_filename &&
                  r.filepath == curr_dir && r.checksum == row.checksum then
                { r with checksum := makeFileChecksumHex file_bytes }
              else r,
            shared := s1.shared.map fun r =>
              if r.owner == username && r.filename == dest_filename &&
                  r.filepath == curr_dir && r.checksum == row.checksum then
                { r with checksum := makeFileChecksumHex file_bytes }
              else r,
            blobs := s1.blobs } := by
      unfold updateSharedChecksumsByOwner
      rw [hval2]
    have hrm : osRemoveBlob s1.blobs row.checksum
        = Except.ok (s1.blobs.filter fun b => !(b.checksum == row.checksum)) := by
      unfold osRemoveBlob
      rw [hblob]
      simp
    simp only [uploadOwnerModify, hchk, hbeq, Bool.false_eq_true, if_false,
      Except.isOk, Except.toBool, hupd, hshupd, countNumFileByChecksum,
      uploadFinish]
    by_cases h0 : (List.countP (fun r => r.checksum == row.checksum)
        (s1.files.map fun r =>
          if r.username == username && r.filename == dest_filename &&
              r.filepath == curr_dir && r.checksum == row.checksum then
            { r with checksum := makeFileChecksumHex file_bytes }
          else r)) = 0
    · rw [if_pos h0]
      simp only [hrm]
      by_cases h1 : (List.countP
          (fun r => r.checksum == makeFileChecksumHex file_bytes) s1.files) = 0
      · simp only [h0, h1, if_pos rfl]
        refine ⟨?_, ?_, ?_, ?_, hfr.2.1, hfr.2.2.1, hfr.2.2.2⟩ <;> simp
      · simp only [h0, h1, if_pos rfl, if_neg h1]
        refine ⟨?_, ?_, ?_, ?_, hfr.2.1, hfr.2.2.1, hfr.2.2.2⟩ <;> simp
    · rw [if_neg h0]
      by_cases h1 : (List.countP
          (fun r => r.checksum == makeFileChecksumHex file_bytes) s1.files) = 0
      · simp only [h0, h1, if_pos rfl, if_neg h0]
        refine ⟨?_, ?_, ?_, ?_, hfr.2.1, hfr.2.2.1, hfr.2.2.2⟩ <;> simp
      · simp only [if_neg h0, if_neg h1]
        refine ⟨?_, ?_, ?_, ?_, hfr.2.1, hfr.2.2.1, hfr.2.2.2⟩ <;> simp

/-- Witness for C5: alice rewrites /f.txt (checksum "#1.2", shared with
bob) with bytes whose checksum is "#9.9"; the modify succeeds. -/
theorem uploadHandler_owner_modify_witness :
    (uploadHandler shareDemoState 100 "alice" "tok" [9, 9] "f.txt" true).2
      = ⟨"", false⟩ :=
  ((uploadHandler_owner_modify shareDemoState shareDemoState 100 "alice" "tok"
      [9, 9] "f.txt" "/" ⟨"alice", "f.txt", "/", "#1.2"⟩
      (by decide) (by decide) (by decide) (by decide) (by decide) (by decide)
      (by decide) (by decide) (by decide) (by decide) (by decide)).2
    (by decide)).1

/-- The only error of validateUniqueUserByUsername. -/
theorem validateUnique_error_eq {s : ServerState} {u e : String}
    (h : validateUniqueUserByUsername s u = Except.error e) :
    e = "Invalid username" := by
  unfold validateUniqueUserByUsername at h
  split at h
  · exact ((Except.error.injEq _ _).mp h).symm
  · exact Except.noConfusion h

/-- Every error produced by getCurrDir is a nonempty message. -/
theorem getCurrDir_error_ne {s : ServerState} {u e : String}
    (h : getCurrDir s u = Except.error e) : e ≠ "" := by
  unfold getCurrDir at h
  repeat' split at h
  all_goals first
    | exact Except.noConfusion h
    | (rw [Except.error.injEq] at h; subst h; decide)
    | (rw [Except.error.injEq] at h; subst h; rename_i heq;
       rw [validateUnique_error_eq heq]; decide)

/-- Every error produced by countNumFilesByUsernameAndFileInfo is a
nonempty message. -/
theorem countNumFiles_error_ne {s : ServerState} {u f p e : String}
    (h : countNumFilesByUsernameAndFileInfo s u f p = Except.error e) :
    e ≠ "" := by
  unfold countNumFilesByUsernameAndFileInfo at h
  repeat' split at h
  all_goals first
    | exact Except.noConfusion h
    | (rw [Except.error.injEq] at h; subst h; decide)
    | (rw [Except.error.injEq] at h; subst h; rename_i heq;
       rw [validateUnique_error_eq heq]; decide)

/-- Every error produced by getChecksum is a nonempty message. -/
theorem getChecksum_error_ne {s : ServerState} {u f p e : String}
    (h : getChecksum s u f p = Except.error e) : e ≠ "" := by
  unfold getChecksum at h
  repeat' split at h
  all_goals first
    | exact Except.noConfusion h
    | (rw [Except.error.injEq] at h; subst h; decide)
    | (rw [Except.error.injEq] at h; subst h; rename_i heq;
       rw [validateUnique_error_eq heq]; decide)

/-- Every error produced by getNumSharedFilesByInfo is a nonempty
message. -/
theorem getNumSharedFilesByInfo_error_ne {s : ServerState}
    {o f p b e : String}
    (h : getNumSharedFilesByInfo s o f p b = Except.error e) : e ≠ "" := by
  unfold getNumSharedFilesByInfo at h
  repeat' split at h
  all_goals first
    | exact Except.noConfusion h
    | (rw [Except.error.injEq] at h; subst h; decide)
    | (rw [Except.error.injEq] at h; subst h; rename_i heq;
       rw [validateUnique_error_eq heq]; decide)

/-- Every error produced by makeSharerDirectoryForSharee is a nonempty
message. -/
theorem makeSharerDirectory_error_ne {s : ServerState} {a b e : String}
    (h : makeSharerDirectoryForSharee s a b = Except.error e) : e ≠ "" := by
  unfold makeSharerDirectoryForSharee at h
  repeat' first
    | split at h
    | dsimp only at h
  all_goals first
    | exact Except.noConfusion h
    | (rw [Except.error.injEq] at h; subst h; decide)
    | (rw [Except.error.injEq] at h; subst h; rename_i heq;
       rw [validateUnique_error_eq heq]; decide)

/-- Every error produced by shareFileWithSharee is a nonempty message. -/
theorem shareFileWithSharee_error_ne {s : ServerState}
    {a f p c b e : String} {wp : Bool}
    (h : shareFileWithSharee s a f p c b wp = Except.error e) : e ≠ "" := by
  unfold shareFileWithSharee at h
  repeat' split at h
  all_goals first
    | exact Except.noConfusion h
    | (rw [Except.error.injEq] at h; subst h; decide)
    | (rw [Except.error.injEq] at h; subst h; rename_i heq;
       rw [validateUnique_error_eq heq]; decide)
    | (rw [Except.error.injEq] at h; subst h; rename_i heq;
       exact getNumSharedFilesByInfo_error_ne heq)

/-- A successful getCurrDir implies the username is unique. -/
theorem getCurrDir_ok_unique {s : ServerState} {u d : String}
    (h : getCurrDir s u = Except.ok d) : getNumUsersWithUsername s u = 1 := by
  unfold getCurrDir at h
  cases hv : validateUniqueUserByUsername s u with
  | error e => rw [hv] at h; exact Except.noConfusion h
  | ok u' =>
    unfold validateUniqueUserByUsername at hv
    split at hv
    · exact Except.noConfusion hv
    · rename_i hcond
      exact Decidable.not_not.mp hcond

/-- A unique username makes validateUniqueUserByUsername succeed. -/
theorem validateUnique_ok {s : ServerState} {u : String}
    (h : getNumUsersWithUsername s u = 1) :
    validateUniqueUserByUsername s u = Except.ok () := by
  unfold validateUniqueUserByUsername
  rw [h]
  simp

/-- A successful countNumFilesByUsernameAndFileInfo returns the row
count. -/
theorem countNumFiles_ok_eq {s : ServerState} {u f p : String} {n : Nat}
    (h : countNumFilesByUsernameAndFileInfo s u f p = Except.ok n) :
    (s.files.countP fun r => r.username == u && r.filename == f &&
      r.filepath == p) = n := by
  unfold countNumFilesByUsernameAndFileInfo at h
  split at h
  · exact Except.noConfusion h
  · exact (Except.ok.injEq _ _).mp h

/-- A successful getNumSharedFilesByInfo returns the edge count. -/
theorem getNumSharedFilesByInfo_ok_eq {s : ServerState} {o f p b : String}
    {n : Nat} (h : getNumSharedFilesByInfo s o f p b = Except.ok n) :
    (s.shared.countP fun r => r.owner == o && r.filename == f &&
      r.filepath == p && r.sharee == b) = n := by
  unfold getNumSharedFilesByInfo at h
  repeat' split at h
  all_goals first
    | exact Except.noConfusion h
    | exact (Except.ok.injEq _ _).mp h

/-- Characterization of a successful makeSharerDirectoryForSharee: only
the directories change, and the synthetic /shared/<sharer>/ entry is
appended exactly when it was absent. -/
theorem makeSharerDirectory_ok {s s2 : ServerState} {a b : String}
    (h : makeSharerDirectoryForSharee s a b = Except.ok s2) :
    s2.users = s.users ∧ s2.files = s.files ∧ s2.shared = s.shared ∧
    s2.blobs = s.blobs ∧
    s2.directories =
      (if getNumDirectoriesByUsername s b "/shared/" (a ++ "/") = 0
       then s.directories ++ [⟨b, "/shared/", a ++ "/"⟩]
       else s.directories) := by
  unfold makeSharerDirectoryForSharee at h
  repeat' first
    | split at h
    | dsimp only at h
  all_goals try exact Except.noConfusion h
  all_goals rw [Except.ok.injEq] at h
  all_goals subst h
  · rename_i hc
    refine ⟨rfl, rfl, rfl, rfl, ?_⟩
    rw [if_neg (by omega)]
  · rename_i hc1 hc2
    refine ⟨rfl, rfl, rfl, rfl, ?_⟩
    rw [if_pos (by omega)]

/-- Characterization of a successful shareFileWithSharee: the edge did not
exist and is appended with the given checksum. -/
theorem shareFileWithSharee_ok {s s3 : ServerState}
    {a f p c b : String} {wp : Bool}
    (h : shareFileWithSharee s a f p c b wp = Except.ok s3) :
    (s.shared.countP fun r => r.owner == a && r.filename == f &&
      r.filepath == p && r.sharee == b) = 0 ∧
    s3 = { s with shared := s.shared ++ [⟨a, f, p, c, b, wp⟩] } := by
  unfold shareFileWithSharee at h
  repeat' split at h
  all_goals try exact Except.noConfusion h
  rename_i count heq hcz
  rw [Except.ok.injEq] at h
  subst h
  exact ⟨by rw [getNumSharedFilesByInfo_ok_eq heq]; omega, rfl⟩

/-- C7: sharefile succeeds only when owner and sharee differ and both
exist, the owner owns the file in their current non-shared directory, and
no share edge for the (owner, file, path, sharee) tuple exists yet; on
success the edge is appended carrying the owner's current checksum and the
sharee's /shared/<owner>/ directory is created only if absent; an already
existing edge is rejected as a conflict with the shared table unchanged
(the conflict direction is stated under the explicit validation
hypotheses). -/
theorem sharefileHandler_spec (s s1 : ServerState) (now : Nat)
    (sharer tok filename sharee : String) (wp : Bool)
    (s' : ServerState) (r : ErrorReturn)
    (hsess : checkSessionToken s now sharer tok = (s1, Except.ok ()))
    (h : sharefileHandler s now sharer tok filename sharee wp = (s', r)) :
    (r.Err = "" →
      sharer ≠ sharee ∧
      getNumUsersWithUsername s1 sharer = 1 ∧
      getNumUsersWithUsername s1 sharee = 1 ∧
      ∃ curr_dir checksum,
        getCurrDir s1 sharer = Except.ok curr_dir ∧
        goHasPrefixStr curr_dir "/shared/" = false ∧
        (s1.files.countP fun fr => fr.username == sharer &&
          fr.filename == filename && fr.filepath == curr_dir) = 1 ∧
        getChecksum s1 sharer filename curr_dir = Except.ok checksum ∧
        (s1.shared.countP fun eg => eg.owner == sharer &&
          eg.filename == filename && eg.filepath == curr_dir &&
          eg.sharee == sharee) = 0 ∧
        s'.shared = s1.shared ++
          [⟨sharer, filename, curr_dir, checksum, sharee, wp⟩] ∧
        s'.directories =
          (if getNumDirectoriesByUsername s1 sharee "/shared/" (sharer ++ "/") = 0
           then s1.directories ++ [⟨sharee, "/shared/", sharer ++ "/"⟩]
           else s1.directories)) ∧
    (∀ curr_dir checksum,
      getCurrDir s1 sharer = Except.ok curr_dir →
      validateFilename filename = true →
      validateUsername sharer = true →
      validateUsername sharee = true →
      sharer ≠ sharee →
      goHasPrefixStr curr_dir "/shared/" = false →
      (s1.files.countP fun fr => fr.username == sharer &&
        fr.filename == filename && fr.filepath == curr_dir) = 1 →
      getChecksum s1 sharer filename curr_dir = Except.ok checksum →
      getNumUsersWithUsername s1 sharer = 1 →
      getNumUsersWithUsername s1 sharee = 1 →
      getNumDirectoriesByUsername s1 sharee "/shared/" (sharer ++ "/") ≤ 1 →
      (s1.shared.countP fun eg => eg.owner == sharer &&
        eg.filename == filename && eg.filepath == curr_dir &&
        eg.sharee == sharee) ≠ 0 →
      r = ⟨"You have already shared a file with the same name with the given user",
        false⟩ ∧
      s'.shared = s1.shared) := by
  constructor
  · intro hsucc
    simp only [sharefileHandler, hsess] at h
    cases hfn : validateFilename filename with
    | false =>
      rw [hfn] at h
      have h2 : (⟨"Invalid filename", false⟩ : ErrorReturn) = r :=
        congrArg Prod.snd h
      rw [← h2] at hsucc
      exact absurd hsucc (by decide)
    | true =>
    rw [hfn] at h
    cases husr : validateUsername sharer with
    | false =>
      rw [husr] at h
      have h2 : (⟨"Invalid username", false⟩ : ErrorReturn) = r :=
        congrArg Prod.snd h
      rw [← h2] at hsucc
      exact absurd hsucc (by decide)
    | true =>
    rw [husr] at h
    cases hush : validateUsername sharee with
    | false =>
      rw [hush] at h
      have h2 : (⟨"Invalid sharee username", false⟩ : ErrorReturn) = r :=
        congrArg Prod.snd h
      rw [← h2] at hsucc
      exact absurd hsucc (by decide)
    | true =>
    rw [hush] at h
    by_cases hss : sharer = sharee
    · rw [if_pos hss] at h
      have h2 : (⟨"Cannot share file with yourself", false⟩ : ErrorReturn) = r :=
        congrArg Prod.snd h
      rw [← h2] at hsucc
      exact absurd hsucc (by decide)
    · rw [if_neg hss] at h
      cases hcd : getCurrDir s1 sharer with
      | error e =>
        rw [hcd] at h
        have h2 : (⟨e, false⟩ : ErrorReturn) = r := congrArg Prod.snd h
        rw [← h2] at hsucc
        exact absurd hsucc (getCurrDir_error_ne hcd)
      | ok curr_dir =>
      rw [hcd] at h
      dsimp only at h
      cases hpre : goHasPrefixStr curr_dir "/shared/" with
      | true =>
        rw [hpre] at h
        have h2 : (⟨"Unable to share file that has been shared with you", false⟩ :
            ErrorReturn) = r := congrArg Prod.snd h
        rw [← h2] at hsucc
        exact absurd hsucc (by decide)
      | false =>
      rw [hpre] at h
      cases hcf : countNumFilesByUsernameAndFileInfo s1 sharer filename curr_dir with
      | error e =>
        rw [hcf] at h
        have h2 : (⟨e, false⟩ : ErrorReturn) = r := congrArg Prod.snd h
        rw [← h2] at hsucc
        exact absurd hsucc (countNumFiles_error_ne hcf)
      | ok n =>
      rw [hcf] at h
      dsimp only at h
      by_cases hn : n ≠ 1
      · rw [if_pos hn] at h
        have h2 : (⟨"File does not exist", false⟩ : ErrorReturn) = r :=
          congrArg Prod.snd h
        rw [← h2] at hsucc
        exact absurd hsucc (by decide)
      · rw [if_neg hn] at h
        have hn1 : n = 1 := Decidable.not_not.mp hn
        cases hchk : getChecksum s1 sharer filename curr_dir with
        | error e =>
          rw [hchk] at h
          have h2 : (⟨e, false⟩ : ErrorReturn) = r := congrArg Prod.snd h
          rw [← h2] at hsucc
          exact absurd hsucc (getChecksum_error_ne hchk)
        | ok checksum =>
        rw [hchk] at h
        dsimp only at h
        by_cases hnum : getNumUsersWithUsername s1 sharee ≠ 1
        · rw [if_pos hnum] at h
          have h2 : (⟨"Sharee does not exist", false⟩ : ErrorReturn) = r :=
            congrArg Prod.snd h
          rw [← h2] at hsucc
          exact absurd hsucc (by decide)
        · rw [if_neg hnum] at h
          cases hmk : makeSharerDirectoryForSharee s1 sharer sharee with
          | error e =>
            rw [hmk] at h
            have h2 : (⟨e, false⟩ : ErrorReturn) = r := congrArg Prod.snd h
            rw [← h2] at hsucc
            exact absurd hsucc (makeSharerDirectory_error_ne hmk)
          | ok s2 =>
          rw [hmk] at h
          dsimp only at h
          cases hsf : shareFileWithSharee s2 sharer filename curr_dir checksum
              sharee wp with
          | error e =>
            rw [hsf] at h
            have h2 : (⟨e, false⟩ : ErrorReturn) = r := congrArg Prod.snd h
            rw [← h2] at hsucc
            exact absurd hsucc (shareFileWithSharee_error_ne hsf)
          | ok s3 =>
          rw [hsf] at h
          dsimp only at h
          have hs3 : s3 = s' := congrArg Prod.fst h
          obtain ⟨hmku, hmkf, hmksh, hmkb, hmkd⟩ := makeSharerDirectory_ok hmk
          obtain ⟨hedge, hs3eq⟩ := shareFileWithSharee_ok hsf
          subst hs3
          refine ⟨hss, getCurrDir_ok_unique hcd, Decidable.not_not.mp hnum,
            curr_dir, checksum, rfl, hpre, ?_, hchk, ?_, ?_, ?_⟩
          · rw [countNumFiles_ok_eq hcf]
            exact hn1
          · rw [hmksh] at hedge
            exact hedge
          · rw [hs3eq]
            show s2.shared ++ _ = _
            rw [hmksh]
          · rw [hs3eq]
            show s2.directories = _
            exact hmkd
  · intro curr_dir checksum hcd hfn husr hush hss hpre hcf hchk hu1 hu2
      hdle hedge
    simp only [sharefileHandler, hsess] at h
    rw [hfn, husr, hush, if_neg hss, hcd] at h
    dsimp only at h
    rw [hpre] at h
    have hcfE : countNumFilesByUsernameAndFileInfo s1 sharer filename curr_dir
        = Except.ok 1 := by
      unfold countNumFilesByUsernameAndFileInfo
      rw [validateUnique_ok hu1, hcf]
    rw [hcfE] at h
    dsimp only at h
    rw [if_neg (show ¬(1 ≠ 1) from fun hh => hh rfl), hchk] at h
    dsimp only at h
    rw [if_neg (show ¬(getNumUsersWithUsername s1 sharee ≠ 1) from
        fun hh => hh hu2)] at h
    have hd01 : getNumDirectoriesByUsername s1 sharee "/shared/" (sharer ++ "/")
        = 0 ∨
        getNumDirectoriesByUsername s1 sharee "/shared/" (sharer ++ "/") = 1 := by
      omega
    rcases hd01 with hd0 | hd1
    · have hmk : makeSharerDirectoryForSharee s1 sharer sharee = Except.ok
          { s1 with directories :=
            s1.directories ++ [⟨sharee, "/shared/", sharer ++ "/"⟩] } := by
        unfold makeSharerDirectoryForSharee
        rw [validateUnique_ok hu1, validateUnique_ok hu2, if_neg hss]
        dsimp only
        rw [hd0, if_neg (by omega), if_neg (by omega)]
      rw [hmk] at h
      dsimp only at h
      have hv1 : validateUniqueUserByUsername
          { s1 with directories :=
            s1.directories ++ [⟨sharee, "/shared/", sharer ++ "/"⟩] } sharer
          = Except.ok () := validateUnique_ok hu1
      have hv2 : validateUniqueUserByUsername
          { s1 with directories :=
            s1.directories ++ [⟨sharee, "/shared/", sharer ++ "/"⟩] } sharee
          = Except.ok () := validateUnique_ok hu2
      have hns : getNumSharedFilesByInfo
          { s1 with directories :=
            s1.directories ++ [⟨sharee, "/shared/", sharer ++ "/"⟩] }
          sharer filename curr_dir sharee
          = Except.ok (s1.shared.countP fun eg => eg.owner == sharer &&
              eg.filename == filename && eg.filepath == curr_dir &&
              eg.sharee == sharee) := by
        unfold getNumSharedFilesByInfo
        rw [hv1, hv2, if_neg hss]
      have hsfE : shareFileWithSharee
          { s1 with directories :=
            s1.directories ++ [⟨sharee, "/shared/", sharer ++ "/"⟩] }
          sharer filename curr_dir checksum sharee wp
          = Except.error
            "You have already shared a file with the same name with the given user" := by
        unfold shareFileWithSharee
        rw [hv1, hv2, if_neg hss, hns]
        dsimp only
        rw [if_pos hedge]
      rw [hsfE] at h
      have h2 : (⟨"You have already shared a file with the same name with the given user",
          false⟩ : ErrorReturn) = r := congrArg Prod.snd h
      have h3 : s1.shared = s'.shared :=
        congrArg (fun q => (Prod.fst q).shared) h
      exact ⟨h2.symm, h3.symm⟩
    · have hmk : makeSharerDirectoryForSharee s1 sharer sharee
          = Except.ok s1 := by
        unfold makeSharerDirectoryForSharee
        rw [validateUnique_ok hu1, validateUnique_ok hu2, if_neg hss]
        dsimp only
        rw [hd1, if_pos rfl]
      rw [hmk] at h
      dsimp only at h
      have hns : getNumSharedFilesByInfo s1 sharer filename curr_dir sharee
          = Except.ok (s1.shared.countP fun eg => eg.owner == sharer &&
              eg.filename == filename && eg.filepath == curr_dir &&
              eg.sharee == sharee) := by
        unfold getNumSharedFilesByInfo
        rw [validateUnique_ok hu1, validateUnique_ok hu2, if_neg hss]
      have hsfE : shareFileWithSharee s1 sharer filename curr_dir checksum
          sharee wp
          = Except.error
            "You have already shared a file with the same name with the given user" := by
        unfold shareFileWithSharee
        rw [validateUnique_ok hu1, validateUnique_ok hu2, if_neg hss, hns]
        dsimp only
        rw [if_pos hedge]
      rw [hsfE] at h
      have h2 : (⟨"You have already shared a file with the same name with the given user",
          false⟩ : ErrorReturn) = r := congrArg Prod.snd h
      have h3 : s1.shared = s'.shared :=
        congrArg (fun q => (Prod.fst q).shared) h
      exact ⟨h2.symm, h3.symm⟩

/-- Witness for C7: alice re-sharing the already shared /f.txt with bob is
rejected as a conflict. -/
theorem sharefileHandler_spec_witness :
    (sharefileHandler shareDemoState 100 "alice" "tok" "f.txt" "bob" true).2
      = ⟨"You have already shared a file with the same name with the given user",
         false⟩ :=
  ((sharefileHandler_spec shareDemoState shareDemoState 100 "alice" "tok"
      "f.txt" "bob" true
      (sharefileHandler shareDemoState 100 "alice" "tok" "f.txt" "bob" true).1
      (sharefileHandler shareDemoState 100 "alice" "tok" "f.txt" "bob" true).2
      (by decide) rfl).2 "/" "#1.2" (by decide) (by decide) (by decide)
      (by decide) (by decide) (by decide) (by decide) (by decide) (by decide)
      (by decide) (by decide) (by decide)).1

/-- C4 (code bug): unsharefile called with a valid, unexpired session token
and a malformed filename does not return a structured validation error:
the invalid-filename branch evaluates err.Error() on the nil error of the
successful session check, a nil-pointer dereference that crashes the call
(modelled as none). -/
theorem unsharefile_malformed_filename_panics :
    unsharefileHandler aliceLoggedInState 100 "alice" "tok" "bad name" "bob"
      = none ∧
    (checkSessionToken aliceLoggedInState 100 "alice" "tok").2 = Except.ok () ∧
    validateFilename "bad name" = false := by
  decide

/-! Counting and framing helpers for the C6 preservation argument. -/

/-- dirCount only reads the directories table. -/
theorem dirCount_congr {s t : ServerState} (h : t.directories = s.directories) :
    ∀ owner sharee, dirCount t owner sharee = dirCount s owner sharee := by
  intro o sh
  unfold dirCount
  rw [h]

/-- edgeCount only reads the shared table. -/
theorem edgeCount_congr {s t : ServerState} (h : t.shared = s.shared) :
    ∀ owner sharee, edgeCount t owner sharee = edgeCount s owner sharee := by
  intro o sh
  unfold edgeCount
  rw [h]

/-- The combined invariant transports along any state change leaving both
counts untouched. -/
theorem dirInvAux_transport {s t : ServerState}
    (hd : ∀ owner sharee, dirCount t owner sharee = dirCount s owner sharee)
    (he : ∀ owner sharee, edgeCount t owner sharee = edgeCount s owner sharee)
    (h : DirInvAux s) : DirInvAux t :=
  ⟨fun o sh => by rw [hd, he]; exact h.1 o sh,
   fun o sh => by rw [hd]; exact h.2 o sh⟩

/-- The combined invariant transports along equality of the two tables it
reads. -/
theorem dirInvAux_of_eq {s t : ServerState}
    (hdir : t.directories = s.directories) (hsh : t.shared = s.shared)
    (h : DirInvAux s) : DirInvAux t :=
  dirInvAux_transport (dirCount_congr hdir) (edgeCount_congr hsh) h

/-- Filtering away rows that p never matches leaves countP p unchanged. -/
theorem countP_filter_of_imp {α : Type} (l : List α) (p q : α → Bool)
    (h : ∀ x, p x = true → q x = true) :
    List.countP p (l.filter q) = List.countP p l := by
  rw [List.countP_filter]
  refine List.countP_congr fun a _ => ?_
  cases hp : p a
  · simp [hp]
  · simp [hp, h a hp]

/-- Mapping by a function that does not change p leaves countP p
unchanged. -/
theorem countP_map_of {α : Type} (l : List α) (f : α → α) (p : α → Bool)
    (h : ∀ x, p (f x) = p x) :
    List.countP p (l.map f) = List.countP p l := by
  rw [List.countP_map]
  refine List.countP_congr fun a _ => ?_
  rw [Function.comp_apply, h a]

/-- A users-table insert touches no other table. -/
theorem createNewUserPreEmail_dirsh {s s' : ServerState} {now : Nat}
    {a b c d e : String}
    (h : createNewUserPreEmail s now a b c d e = Except.ok s') :
    s'.directories = s.directories ∧ s'.shared = s.shared := by
  unfold createNewUserPreEmail at h
  repeat' split at h
  all_goals first
    | exact Except.noConfusion h
    | (rw [Except.ok.injEq] at h; subst h; exact ⟨rfl, rfl⟩)

/-- A ver-code purge touches no other table. -/
theorem removeVerCodeInfo_dirsh {s s' : ServerState} {a b : String}
    (h : removeVerCodeInfoByUsernameAndEmail s a b = Except.ok s') :
    s'.directories = s.directories ∧ s'.shared = s.shared := by
  unfold removeVerCodeInfoByUsernameAndEmail at h
  repeat' split at h
  all_goals first
    | exact Except.noConfusion h
    | (rw [Except.ok.injEq] at h; subst h; exact ⟨rfl, rfl⟩)

/-- A users-row delete by username and email touches no other table. -/
theorem removeUserRowByUsernameAndEmail_dirsh {s s' : ServerState}
    {a b : String} (h : removeUserRowByUsernameAndEmail s a b = Except.ok s') :
    s'.directories = s.directories ∧ s'.shared = s.shared := by
  unfold removeUserRowByUsernameAndEmail at h
  repeat' split at h
  all_goals first
    | exact Except.noConfusion h
    | (rw [Except.ok.injEq] at h; subst h; exact ⟨rfl, rfl⟩)

/-- A users-row delete by username touches no other table. -/
theorem removeUserRowByUsername_dirsh {s s' : ServerState} {a : String}
    (h : removeUserRowByUsername s a = Except.ok s') :
    s'.directories = s.directories ∧ s'.shared = s.shared := by
  unfold removeUserRowByUsername at h
  repeat' split at h
  all_goals first
    | exact Except.noConfusion h
    | (rw [Except.ok.injEq] at h; subst h; exact ⟨rfl, rfl⟩)

/-- Storing a session token touches no other table. -/
theorem createSessionToken_dirsh {s s' : ServerState} {now : Nat}
    {a t : String} (h : createSessionTokenByUsername s now a t = Except.ok s') :
    s'.directories = s.directories ∧ s'.shared = s.shared := by
  unfold createSessionTokenByUsername at h
  repeat' split at h
  all_goals first
    | exact Except.noConfusion h
    | (rw [Except.ok.injEq] at h; subst h; exact ⟨rfl, rfl⟩)

/-- Purging a session token touches no other table. -/
theorem removeSessionTokenInfo_dirsh {s s' : ServerState} {a : String}
    (h : removeSessionTokenInfoByUsername s a = Except.ok s') :
    s'.directories = s.directories ∧ s'.shared = s.shared := by
  unfold removeSessionTokenInfoByUsername at h
  repeat' split at h
  all_goals first
    | exact Except.noConfusion h
    | (rw [Except.ok.injEq] at h; subst h; exact ⟨rfl, rfl⟩)

/-- Resetting curr_dir touches no other table. -/
theorem resetCurrDir_dirsh {s s' : ServerState} {a : String}
    (h : resetCurrDir s a = Except.ok s') :
    s'.directories = s.directories ∧ s'.shared = s.shared := by
  unfold resetCurrDir at h
  repeat' split at h
  all_goals first
    | exact Except.noConfusion h
    | (rw [Except.ok.injEq] at h; subst h; exact ⟨rfl, rfl⟩)

/-- Setting curr_dir touches no other table. -/
theorem setCurrDir_dirsh {s s' : ServerState} {a p : String}
    (h : setCurrDir s a p = Except.ok s') :
    s'.directories = s.directories ∧ s'.shared = s.shared := by
  unfold setCurrDir at h
  repeat' first
    | split at h
    | dsimp only at h
  all_goals first
    | exact Except.noConfusion h
    | (rw [Except.ok.injEq] at h; subst h; exact ⟨rfl, rfl⟩)

/-- A files-table insert touches neither directories nor shared. -/
theorem uploadFile_dirsh {s s' : ServerState} {a f p c : String}
    (h : uploadFile s a f p c = Except.ok s') :
    s'.directories = s.directories ∧ s'.shared = s.shared := by
  unfold uploadFile at h
  repeat' split at h
  all_goals first
    | exact Except.noConfusion h
    | (rw [Except.ok.injEq] at h; subst h; exact ⟨rfl, rfl⟩)

/-- A files-table checksum update touches neither directories nor
shared. -/
theorem updateOwnerChecksum_dirsh {s s' : ServerState} {a f p c : String}
    (h : updateOwnerChecksum s a f p c = Except.ok s') :
    s'.directories = s.directories ∧ s'.shared = s.shared := by
  unfold updateOwnerChecksum at h
  repeat' split at h
  all_goals first
    | exact Except.noConfusion h
    | (rw [Except.ok.injEq] at h; subst h; exact ⟨rfl, rfl⟩)

/-- The session check mutates only the users table: the pair-counts of the
resulting state agree with the input state. -/
theorem checkSessionToken_pairCounts (s : ServerState) (now : Nat)
    (u tok : String) :
    (∀ owner sharee, dirCount (checkSessionToken s now u tok).1 owner sharee
        = dirCount s owner sharee) ∧
    (∀ owner sharee, edgeCount (checkSessionToken s now u tok).1 owner sharee
        = edgeCount s owner sharee) :=
  ⟨dirCount_congr (checkSessionToken_frame s now u tok).1,
   edgeCount_congr (checkSessionToken_frame s now u tok).2.2.1⟩

/-- Appending the same character cancels on the right of a string
append. -/
theorem append_slash_cancel {a b : String} (h : a ++ "/" = b ++ "/") :
    a = b := by
  have hd := congrArg String.data h
  simp only [String.data_append] at hd
  exact String.ext (List.append_cancel_right hd)

/-- Unfolding the /shared/ directory-row predicate. -/
theorem dirRow_pred_iff {o sh : String} {d : DirRow} :
    (d.username == sh && d.path == "/shared/" && d.name == o ++ "/") = true ↔
    d.username = sh ∧ d.path = "/shared/" ∧ d.name = o ++ "/" := by
  simp [Bool.and_eq_true, beq_iff_eq, and_assoc]

/-- A directory row cannot match the /shared/ predicates of two different
(owner, sharee) pairs. -/
theorem dirRow_pred_pair_unique {o sh o' sh' : String} {d : DirRow}
    (h1 : (d.username == sh && d.path == "/shared/" && d.name == o ++ "/") = true)
    (h2 : (d.username == sh' && d.path == "/shared/" && d.name == o' ++ "/") = true) :
    o = o' ∧ sh = sh' := by
  obtain ⟨hu, -, hn⟩ := dirRow_pred_iff.mp h1
  obtain ⟨hu', -, hn'⟩ := dirRow_pred_iff.mp h2
  exact ⟨append_slash_cancel (hn.symm.trans hn'), hu.symm.trans hu'⟩

/-- dirCount coincides with the directory-existence count queried by the
table code. -/
theorem dirCount_eq_getNum (s : ServerState) (o sh : String) :
    dirCount s o sh = getNumDirectoriesByUsername s sh "/shared/" (o ++ "/") :=
  rfl

/-- Appending directory rows that do not live under /shared/ changes no
dirCount. -/
theorem dirCount_append_rows (s : ServerState) (rows : List DirRow)
    (hrows : ∀ r ∈ rows, r.path ≠ "/shared/") :
    ∀ o sh, dirCount { s with directories := s.directories ++ rows } o sh
      = dirCount s o sh := by
  intro o sh
  unfold dirCount
  dsimp only
  rw [List.countP_append]
  have hz : List.countP (fun d =>
      d.username == sh && d.path == "/shared/" && d.name == o ++ "/") rows = 0 := by
    refine List.countP_eq_zero.mpr fun r hr hp => ?_
    exact hrows r hr (dirRow_pred_iff.mp hp).2.1
  omega

/-- Filtering with a predicate that keeps every /shared/ row changes no
dirCount. -/
theorem dirCount_filter_keep (s : ServerState) (q : DirRow → Bool)
    (hq : ∀ d, d.path = "/shared/" → q d = true) :
    ∀ o sh, dirCount { s with directories := s.directories.filter q } o sh
      = dirCount s o sh := by
  intro o sh
  unfold dirCount
  dsimp only
  exact countP_filter_of_imp _ _ _ fun d hd => hq d (dirRow_pred_iff.mp hd).2.1

/-- A current directory that does not start with /shared/ is not the
/shared/ directory itself. -/
theorem ne_shared_of_unprefixed {cd : String}
    (h : ¬(goHasPrefixStr cd "/shared/" = true)) : cd ≠ "/shared/" := by
  intro he
  subst he
  exact h (by decide)

/-- createRootandShared appends exactly the root and shared rows. -/
theorem createRootandShared_ok {s s' : ServerState} {u : String}
    (h : createRootandShared s u = Except.ok s') :
    s'.shared = s.shared ∧
    s'.directories = s.directories ++ [⟨u, "", "/"⟩, ⟨u, "/", "shared/"⟩] := by
  unfold createRootandShared at h
  repeat' split at h
  all_goals first
    | exact Except.noConfusion h
    | (rw [Except.ok.injEq] at h; subst h; exact ⟨rfl, rfl⟩)

/-- createDirectoryByUsername appends exactly the new row. -/
theorem createDirectoryByUsername_ok {s s' : ServerState} {u cd dn : String}
    (h : createDirectoryByUsername s u cd dn = Except.ok s') :
    s'.shared = s.shared ∧
    s'.directories = s.directories ++ [⟨u, cd, dn ++ "/"⟩] := by
  unfold createDirectoryByUsername at h
  repeat' first
    | split at h
    | dsimp only at h
  all_goals first
    | exact Except.noConfusion h
    | (rw [Except.ok.injEq] at h; subst h; exact ⟨rfl, rfl⟩)

/-- removeDirectoryByUsername deletes exactly the named row. -/
theorem removeDirectoryByUsername_ok {s s' : ServerState} {u cd dn : String}
    (h : removeDirectoryByUsername s u cd dn = Except.ok s') :
    s'.shared = s.shared ∧
    s'.directories = s.directories.filter fun d =>
      !(d.username == u && d.path == cd && d.name == dn ++ "/") := by
  unfold removeDirectoryByUsername at h
  repeat' first
    | split at h
    | dsimp only at h
  all_goals first
    | exact Except.noConfusion h
    | (rw [Except.ok.injEq] at h; subst h; exact ⟨rfl, rfl⟩)

/-- A successful removeSharerDirectoryForSharee requires the entry to exist
exactly once and deletes exactly the matching rows. -/
theorem removeSharerDirectory_ok {s s' : ServerState} {a b : String}
    (h : removeSharerDirectoryForSharee s a b = Except.ok s') :
    getNumDirectoriesByUsername s b "/shared/" (a ++ "/") = 1 ∧
    s'.shared = s.shared ∧
    s'.directories = s.directories.filter fun d =>
      !(d.username == b && d.path == "/shared/" && d.name == a ++ "/") := by
  unfold removeSharerDirectoryForSharee at h
  repeat' first
    | split at h
    | dsimp only at h
  all_goals try exact Except.noConfusion h
  rw [Except.ok.injEq] at h
  subst h
  rename_i hcnt
  exact ⟨Decidable.not_not.mp hcnt, rfl, rfl⟩

/-- A failing removeSharerDirectoryForSharee whose user validations hold
means the entry count was not one. -/
theorem removeSharerDirectory_error_cases {s : ServerState} {a b e : String}
    (hva : validateUniqueUserByUsername s a = Except.ok ())
    (hvb : validateUniqueUserByUsername s b = Except.ok ())
    (hab : ¬ a = b)
    (h : removeSharerDirectoryForSharee s a b = Except.error e) :
    getNumDirectoriesByUsername s b "/shared/" (a ++ "/") ≠ 1 := by
  unfold removeSharerDirectoryForSharee at h
  rw [hva] at h
  try dsimp only at h
  rw [hvb] at h
  try dsimp only at h
  rw [if_neg hab] at h
  try dsimp only at h
  split at h
  · assumption
  · exact Except.noConfusion h

/-- A successful unshareFileFromSharee requires the edge to exist exactly
once and deletes exactly the matching rows, touching no directory. -/
theorem unshareFileFromSharee_ok {s s' : ServerState} {a f p c b : String}
    (h : unshareFileFromSharee s a f p c b = Except.ok s') :
    (s.shared.countP fun r => r.owner == a && r.filename == f &&
      r.filepath == p && r.sharee == b) = 1 ∧
    s'.users = s.users ∧
    s'.directories = s.directories ∧
    s'.shared = s.shared.filter fun r =>
      !(r.owner == a && r.filename == f && r.filepath == p &&
        r.checksum == c && r.sharee == b) := by
  unfold unshareFileFromSharee at h
  repeat' split at h
  all_goals try exact Except.noConfusion h
  rename_i count heq hcz
  rw [Except.ok.injEq] at h
  subst h
  refine ⟨?_, rfl, rfl, rfl⟩
  rw [getNumSharedFilesByInfo_ok_eq heq]
  omega

/-- A successful unshareFileFromSharee implies both user validations and
distinctness. -/
theorem unshareFileFromSharee_ok_users {s s' : ServerState} {a f p c b : String}
    (h : unshareFileFromSharee s a f p c b = Except.ok s') :
    validateUniqueUserByUsername s a = Except.ok () ∧
    validateUniqueUserByUsername s b = Except.ok () ∧ ¬ a = b := by
  unfold unshareFileFromSharee at h
  repeat' split at h
  all_goals first
    | exact Except.noConfusion h
    | exact ⟨by assumption, by assumption, by assumption⟩

/-- A successful makeSharerDirectoryForSharee implies both user
validations and distinctness. -/
theorem makeSharerDirectory_ok_users {s s' : ServerState} {a b : String}
    (h : makeSharerDirectoryForSharee s a b = Except.ok s') :
    validateUniqueUserByUsername s a = Except.ok () ∧
    validateUniqueUserByUsername s b = Except.ok () ∧ ¬ a = b := by
  unfold makeSharerDirectoryForSharee at h
  repeat' first
    | split at h
    | dsimp only at h
  all_goals first
    | exact Except.noConfusion h
    | exact ⟨by assumption, by assumption, by assumption⟩

/-- validateUniqueUserByUsername reads only the users table. -/
theorem validateUnique_users_congr {s t : ServerState} (h : t.users = s.users)
    (u : String) :
    validateUniqueUserByUsername t u = validateUniqueUserByUsername s u := by
  unfold validateUniqueUserByUsername getNumUsersWithUsername
  rw [h]

/-- A failing shareFileWithSharee whose user validations hold means the
edge already existed. -/
theorem shareFileWithSharee_error_cases {s : ServerState}
    {a f p c b e : String} {wp : Bool}
    (hva : validateUniqueUserByUsername s a = Except.ok ())
    (hvb : validateUniqueUserByUsername s b = Except.ok ())
    (hab : ¬ a = b)
    (h : shareFileWithSharee s a f p c b wp = Except.error e) :
    (s.shared.countP fun r => r.owner == a && r.filename == f &&
      r.filepath == p && r.sharee == b) ≠ 0 := by
  unfold shareFileWithSharee getNumSharedFilesByInfo at h
  rw [hva] at h
  try dsimp only at h
  rw [hvb] at h
  try dsimp only at h
  rw [if_neg hab] at h
  try dsimp only at h
  rw [if_neg hab] at h
  try dsimp only at h
  split at h
  · assumption
  · exact Except.noConfusion h

/-- A failing getNumSharedFilesBySharerAndShareeUsername contradicts the
user validations. -/
theorem getNumSharedBySharerSharee_error_cases {s : ServerState}
    {a b e : String}
    (hva : validateUniqueUserByUsername s a = Except.ok ())
    (hvb : validateUniqueUserByUsername s b = Except.ok ())
    (h : getNumSharedFilesBySharerAndShareeUsername s a b = Except.error e) :
    False := by
  unfold getNumSharedFilesBySharerAndShareeUsername at h
  rw [hva] at h
  dsimp only at h
  rw [hvb] at h
  dsimp only at h
  exact Except.noConfusion h

/-- A successful getNumSharedFilesBySharerAndShareeUsername returns
edgeCount. -/
theorem getNumSharedBySharerSharee_ok_eq {s : ServerState} {a b : String}
    {n : Nat}
    (h : getNumSharedFilesBySharerAndShareeUsername s a b = Except.ok n) :
    edgeCount s a b = n := by
  unfold getNumSharedFilesBySharerAndShareeUsername at h
  repeat' split at h
  all_goals first
    | exact Except.noConfusion h
    | exact (Except.ok.injEq _ _).mp h

/-- chmodFileWithSharee rewrites checksums in place: directories untouched
and all edge counts preserved. -/
theorem chmodFileWithSharee_pairCounts {s s' : ServerState}
    {a f p c b : String} {wp : Bool}
    (h : chmodFileWithSharee s a f p c b wp = Except.ok s') :
    s'.directories = s.directories ∧
    ∀ o sh, edgeCount s' o sh = edgeCount s o sh := by
  unfold chmodFileWithSharee at h
  repeat' split at h
  all_goals try exact Except.noConfusion h
  rw [Except.ok.injEq] at h
  subst h
  refine ⟨rfl, fun o sh => ?_⟩
  unfold edgeCount
  dsimp only
  refine countP_map_of _ _ _ fun r => ?_
  split
  · rfl
  · rfl

/-- updateSharedChecksumsByOwner preserves directories and all edge
counts. -/
theorem updateSharedByOwner_pairCounts {s s' : ServerState}
    {o p f oc nc : String}
    (h : updateSharedChecksumsByOwner s o p f oc nc = Except.ok s') :
    s'.directories = s.directories ∧
    ∀ ow sh, edgeCount s' ow sh = edgeCount s ow sh := by
  unfold updateSharedChecksumsByOwner at h
  repeat' split at h
  all_goals try exact Except.noConfusion h
  rw [Except.ok.injEq] at h
  subst h
  refine ⟨rfl, fun ow sh => ?_⟩
  unfold edgeCount
  dsimp only
  refine countP_map_of _ _ _ fun r => ?_
  split
  · rfl
  · rfl

/-- updateSharedChecksumsBySharee preserves directories and all edge
counts. -/
theorem updateSharedBySharee_pairCounts {s s' : ServerState}
    {o p f oc nc : String}
    (h : updateSharedChecksumsBySharee s o p f oc nc = Except.ok s') :
    s'.directories = s.directories ∧
    ∀ ow sh, edgeCount s' ow sh = edgeCount s ow sh := by
  unfold updateSharedChecksumsBySharee at h
  repeat' split at h
  all_goals try exact Except.noConfusion h
  rw [Except.ok.injEq] at h
  subst h
  refine ⟨rfl, fun ow sh => ?_⟩
  unfold edgeCount
  dsimp only
  refine countP_map_of _ _ _ fun r => ?_
  split
  · rfl
  · rfl

/-- deleteAllFilesSharedWithUserByUsername filters exactly the sharee's
edges. -/
theorem deleteAllFilesShared_ok {s s' : ServerState} {u : String}
    (h : deleteAllFilesSharedWithUserByUsername s u = Except.ok s') :
    s'.users = s.users ∧
    s'.directories = s.directories ∧
    s'.shared = s.shared.filter fun r => !(r.sharee == u) := by
  unfold deleteAllFilesSharedWithUserByUsername at h
  repeat' split at h
  all_goals first
    | exact Except.noConfusion h
    | (rw [Except.ok.injEq] at h; subst h; exact ⟨rfl, rfl, rfl⟩)

/-- A successful deleteAllFilesSharedWithUserByUsername implies the user
validation. -/
theorem deleteAllFilesShared_ok_user {s s' : ServerState} {u : String}
    (h : deleteAllFilesSharedWithUserByUsername s u = Except.ok s') :
    validateUniqueUserByUsername s u = Except.ok () := by
  unfold deleteAllFilesSharedWithUserByUsername at h
  split at h
  all_goals first
    | exact Except.noConfusion h
    | assumption

/-- removeAllDirectories filters exactly the user's directory rows. -/
theorem removeAllDirectories_ok {s s' : ServerState} {u : String}
    (h : removeAllDirectories s u = Except.ok s') :
    s'.users = s.users ∧
    s'.shared = s.shared ∧
    s'.directories = s.directories.filter fun d => !(d.username == u) := by
  unfold removeAllDirectories at h
  repeat' split at h
  all_goals first
    | exact Except.noConfusion h
    | (rw [Except.ok.injEq] at h; subst h; exact ⟨rfl, rfl, rfl⟩)

/-- removeAllDirectories cannot fail once the user validation holds. -/
theorem removeAllDirectories_error_cases {s : ServerState} {u e : String}
    (hv : validateUniqueUserByUsername s u = Except.ok ())
    (h : removeAllDirectories s u = Except.error e) : False := by
  unfold removeAllDirectories at h
  rw [hv] at h
  exact Except.noConfusion h

/-- removeUserRowByUsername cannot fail once the user validation holds. -/
theorem removeUserRowByUsername_error_cases {s : ServerState} {u e : String}
    (hv : validateUniqueUserByUsername s u = Except.ok ())
    (h : removeUserRowByUsername s u = Except.error e) : False := by
  unfold removeUserRowByUsername at h
  rw [hv] at h
  exact Except.noConfusion h

/-- Unfolding the (owner, sharee) share-edge predicate. -/
theorem sharedRow_pred2_iff {o sh : String} {r : SharedRow} :
    (r.owner == o && r.sharee == sh) = true ↔ r.owner = o ∧ r.sharee = sh := by
  simp [Bool.and_eq_true, beq_iff_eq]

/-- Unfolding the (owner, filename, filepath, sharee) share-edge
predicate. -/
theorem sharedRow_pred4_iff {a f p b : String} {r : SharedRow} :
    (r.owner == a && r.filename == f && r.filepath == p &&
      r.sharee == b) = true ↔
    r.owner = a ∧ r.filename = f ∧ r.filepath = p ∧ r.sharee = b := by
  simp [Bool.and_eq_true, beq_iff_eq, and_assoc]

/-- Unfolding the five-field share-edge predicate used by the unshare
delete. -/
theorem sharedRow_pred5_iff {a f p c b : String} {r : SharedRow} :
    (r.owner == a && r.filename == f && r.filepath == p &&
      r.checksum == c && r.sharee == b) = true ↔
    r.owner = a ∧ r.filename = f ∧ r.filepath = p ∧ r.checksum = c ∧
      r.sharee = b := by
  simp [Bool.and_eq_true, beq_iff_eq, and_assoc]

/-- A nonempty count of (owner, filename, filepath, sharee) edges gives a
nonempty (owner, sharee) edge count. -/
theorem edgeCount_pos_of_pred4 {s : ServerState} {a f p b : String}
    (h : 0 < s.shared.countP fun r => r.owner == a && r.filename == f &&
      r.filepath == p && r.sharee == b) : 0 < edgeCount s a b := by
  have hle := List.countP_mono_left (l := s.shared)
    (p := fun r => r.owner == a && r.filename == f && r.filepath == p &&
      r.sharee == b)
    (q := fun r => r.owner == a && r.sharee == b)
    (fun r _ hp => by
      obtain ⟨h1, -, -, h4⟩ := sharedRow_pred4_iff.mp hp
      exact sharedRow_pred2_iff.mpr ⟨h1, h4⟩)
  unfold edgeCount
  omega

/-- Appending directory rows outside /shared/ preserves every dirCount
(state-equation form). -/
theorem dirCount_append_eq {s1 t : ServerState} {rows : List DirRow}
    (ht : t.directories = s1.directories ++ rows)
    (hrows : ∀ r ∈ rows, r.path ≠ "/shared/") :
    ∀ o sh, dirCount t o sh = dirCount s1 o sh := by
  intro o sh
  unfold dirCount
  rw [ht, List.countP_append]
  have hz : List.countP (fun d =>
      d.username == sh && d.path == "/shared/" && d.name == o ++ "/") rows = 0 := by
    refine List.countP_eq_zero.mpr fun r hr hp => ?_
    exact hrows r hr (dirRow_pred_iff.mp hp).2.1
  omega

/-- Filtering with a predicate that keeps every /shared/ row preserves
every dirCount (state-equation form). -/
theorem dirCount_filter_keep_eq {s1 t : ServerState} {q : DirRow → Bool}
    (ht : t.directories = s1.directories.filter q)
    (hq : ∀ d, d.path = "/shared/" → q d = true) :
    ∀ o sh, dirCount t o sh = dirCount s1 o sh := by
  intro o sh
  unfold dirCount
  rw [ht]
  exact countP_filter_of_imp _ _ _ fun d hd => hq d (dirRow_pred_iff.mp hd).2.1

/-- Deleting the /shared/<a>/ rows of sharee b zeroes that pair's
dirCount. -/
theorem dirCount_filter_self {s2 t : ServerState} {a b : String}
    (ht : t.directories = s2.directories.filter fun d =>
      !(d.username == b && d.path == "/shared/" && d.name == a ++ "/")) :
    dirCount t a b = 0 := by
  unfold dirCount
  rw [ht]
  refine List.countP_eq_zero.mpr fun d hd hp => ?_
  simp only [List.mem_filter] at hd
  have hpp : (d.username == b && d.path == "/shared/" &&
      d.name == a ++ "/") = true := hp
  have hneg := hd.2
  rw [hpp] at hneg
  simp at hneg

/-- Deleting the /shared/<a>/ rows of sharee b leaves every other pair's
dirCount unchanged. -/
theorem dirCount_filter_pair_other {s2 t : ServerState} {a b : String}
    (ht : t.directories = s2.directories.filter fun d =>
      !(d.username == b && d.path == "/shared/" && d.name == a ++ "/")) :
    ∀ o sh, ¬(o = a ∧ sh = b) → dirCount t o sh = dirCount s2 o sh := by
  intro o sh hne
  unfold dirCount
  rw [ht]
  refine countP_filter_of_imp _ _ _ fun d hp => ?_
  cases hab : (d.username == b && d.path == "/shared/" && d.name == a ++ "/") with
  | true => exact absurd (dirRow_pred_pair_unique hp hab) hne
  | false => rfl

/-- Deleting one file's share edges leaves every other (owner, sharee)
pair's edge count unchanged. -/
theorem edgeCount_filter_edge {s1 t : ServerState} {a f p c b : String}
    (ht : t.shared = s1.shared.filter fun r =>
      !(r.owner == a && r.filename == f && r.filepath == p &&
        r.checksum == c && r.sharee == b)) :
    ∀ o sh, ¬(o = a ∧ sh = b) → edgeCount t o sh = edgeCount s1 o sh := by
  intro o sh hne
  unfold edgeCount
  rw [ht]
  refine countP_filter_of_imp _ _ _ fun r hp => ?_
  obtain ⟨ho, hs⟩ := sharedRow_pred2_iff.mp hp
  cases h5 : (r.owner == a && r.filename == f && r.filepath == p &&
      r.checksum == c && r.sharee == b) with
  | true =>
    obtain ⟨ha', -, -, -, hb'⟩ := sharedRow_pred5_iff.mp h5
    exact absurd ⟨ho.symm.trans ha', hs.symm.trans hb'⟩ hne
  | false => rfl

/-- Appending one share edge bumps exactly its own pair's edge count. -/
theorem edgeCount_append_edge {s2 t : ServerState} {row : SharedRow}
    (ht : t.shared = s2.shared ++ [row]) :
    (∀ o sh, ¬(o = row.owner ∧ sh = row.sharee) →
      edgeCount t o sh = edgeCount s2 o sh) ∧
    edgeCount t row.owner row.sharee
      = edgeCount s2 row.owner row.sharee + 1 := by
  constructor
  · intro o sh hne
    unfold edgeCount
    rw [ht, List.countP_append]
    have hz : List.countP (fun r => r.owner == o && r.sharee == sh) [row]
        = 0 := by
      refine List.countP_eq_zero.mpr fun r hr hp => ?_
      rw [List.mem_singleton] at hr
      subst hr
      obtain ⟨ho, hs⟩ := sharedRow_pred2_iff.mp hp
      exact hne ⟨ho.symm, hs.symm⟩
    omega
  · unfold edgeCount
    rw [ht, List.countP_append]
    have hone : List.countP (fun r => r.owner == row.owner &&
        r.sharee == row.sharee) [row] = 1 := by
      simp [List.countP_cons]
    omega

/-- The session check preserves the combined invariant. -/
theorem dirInvAux_session {s s1 : ServerState} {now : Nat} {u tok : String}
    {x : Except String Unit}
    (heq : checkSessionToken s now u tok = (s1, x))
    (h : DirInvAux s) : DirInvAux s1 := by
  have hf := checkSessionToken_frame s now u tok
  rw [heq] at hf
  exact dirInvAux_of_eq hf.1 hf.2.2.1 h

/-- After a successful makeSharerDirectoryForSharee, any state keeping its
directories whose edge counts agree with the pre-state except that the
(sharer, sharee) pair now has an edge satisfies the combined invariant. -/
theorem dirInvAux_after_makeSharer {s1 s2 t : ServerState} {a b : String}
    (heqm : makeSharerDirectoryForSharee s1 a b = Except.ok s2)
    (hdir : t.directories = s2.directories)
    (hedge_other : ∀ o sh, ¬(o = a ∧ sh = b) →
      edgeCount t o sh = edgeCount s1 o sh)
    (hedge_ab : 0 < edgeCount t a b)
    (h1 : DirInvAux s1) : DirInvAux t := by
  obtain ⟨-, -, -, -, hd2⟩ := makeSharerDirectory_ok heqm
  have hds : t.directories =
      (if getNumDirectoriesByUsername s1 b "/shared/" (a ++ "/") = 0
       then s1.directories ++ [⟨b, "/shared/", a ++ "/"⟩]
       else s1.directories) := hdir.trans hd2
  have hab_pos : 0 < dirCount t a b ∧ dirCount t a b ≤ 1 := by
    unfold dirCount
    rw [hds]
    split
    · rename_i hcz
      rw [List.countP_append]
      have hone : List.countP (fun d => d.username == b &&
          d.path == "/shared/" && d.name == a ++ "/")
          ([⟨b, "/shared/", a ++ "/"⟩] : List DirRow) = 1 := by
        simp [List.countP_cons]
      have hgn := dirCount_eq_getNum s1 a b
      unfold dirCount at hgn
      omega
    · rename_i hcnz
      have hle := h1.2 a b
      have hgn := dirCount_eq_getNum s1 a b
      unfold dirCount at hle hgn
      omega
  have hother : ∀ o sh, ¬(o = a ∧ sh = b) →
      dirCount t o sh = dirCount s1 o sh := by
    intro o sh hne
    unfold dirCount
    rw [hds]
    split
    · rw [List.countP_append]
      have hz : List.countP (fun d => d.username == sh &&
          d.path == "/shared/" && d.name == o ++ "/")
          ([⟨b, "/shared/", a ++ "/"⟩] : List DirRow) = 0 := by
        refine List.countP_eq_zero.mpr fun d hd hp => ?_
        rw [List.mem_singleton] at hd
        subst hd
        obtain ⟨hu, -, hn⟩ := dirRow_pred_iff.mp hp
        exact hne ⟨(append_slash_cancel hn).symm, hu.symm⟩
      omega
    · rfl
  constructor
  · intro o sh
    by_cases hos : o = a ∧ sh = b
    · obtain ⟨ho, hs⟩ := hos
      subst ho
      subst hs
      exact iff_of_true hab_pos.1 hedge_ab
    · rw [hother o sh hos, hedge_other o sh hos]
      exact h1.1 o sh
  · intro o sh
    by_cases hos : o = a ∧ sh = b
    · obtain ⟨ho, hs⟩ := hos
      subst ho
      subst hs
      exact hab_pos.2
    · rw [hother o sh hos]
      exact h1.2 o sh

/-- Deleting every share edge towards a user and every directory row of
that user preserves the combined invariant. -/
theorem dirInvAux_deleteacct_core {s t : ServerState} (u : String)
    (hd : t.directories = s.directories.filter fun d => !(d.username == u))
    (he : t.shared = s.shared.filter fun r => !(r.sharee == u))
    (h : DirInvAux s) : DirInvAux t := by
  have hdc : ∀ o sh, sh ≠ u → dirCount t o sh = dirCount s o sh := by
    intro o sh hsh
    unfold dirCount
    rw [hd]
    refine countP_filter_of_imp _ _ _ fun d hp => ?_
    obtain ⟨hu', -, -⟩ := dirRow_pred_iff.mp hp
    simp [hu', hsh]
  have hdc0 : ∀ o, dirCount t o u = 0 := by
    intro o
    unfold dirCount
    rw [hd]
    refine List.countP_eq_zero.mpr fun d hd' hp => ?_
    simp only [List.mem_filter] at hd'
    obtain ⟨hu', -, -⟩ := dirRow_pred_iff.mp hp
    rw [hu'] at hd'
    simp at hd'
  have hec : ∀ o sh, sh ≠ u → edgeCount t o sh = edgeCount s o sh := by
    intro o sh hsh
    unfold edgeCount
    rw [he]
    refine countP_filter_of_imp _ _ _ fun r hp => ?_
    obtain ⟨-, hsr⟩ := sharedRow_pred2_iff.mp hp
    simp [hsr, hsh]
  have hec0 : ∀ o, edgeCount t o u = 0 := by
    intro o
    unfold edgeCount
    rw [he]
    refine List.countP_eq_zero.mpr fun r hr hp => ?_
    simp only [List.mem_filter] at hr
    obtain ⟨-, hsr⟩ := sharedRow_pred2_iff.mp hp
    rw [hsr] at hr
    simp at hr
  constructor
  · intro o sh
    by_cases hsh : sh = u
    · subst hsh
      rw [hdc0, hec0]
    · rw [hdc o sh hsh, hec o sh hsh]
      exact h.1 o sh
  · intro o sh
    by_cases hsh : sh = u
    · subst hsh
      rw [hdc0]
      omega
    · rw [hdc o sh hsh]
      exact h.2 o sh

/-- removeFileByUsername touches neither directories nor shared. -/
theorem removeFileByUsername_dirsh {s s2 : ServerState} {c u f cd : String}
    (h : removeFileByUsername s u f cd = Except.ok (c, s2)) :
    s2.directories = s.directories ∧ s2.shared = s.shared := by
  unfold removeFileByUsername at h
  repeat' first
    | split at h
    | dsimp only at h
  all_goals first
    | exact Except.noConfusion h
    | (rw [Except.ok.injEq, Prod.mk.injEq] at h; cases h.2; exact ⟨rfl, rfl⟩)

/-! Per-handler preservation of the combined invariant (claim C6). -/

/-- getWorkingDirectory preserves the invariant. -/
theorem getWorkingDirectoryHandler_inv (s : ServerState) (now : Nat)
    (u tok : String) (h : DirInvAux s) :
    DirInvAux (getWorkingDirectoryHandler s now u tok).1 := by
  unfold getWorkingDirectoryHandler
  split
  all_goals rename_i heq
  · exact dirInvAux_session heq h
  · repeat' split
    all_goals exact dirInvAux_session heq h

/-- ls preserves the invariant. -/
theorem lsHandler_inv (s : ServerState) (now : Nat) (u tok : String)
    (h : DirInvAux s) : DirInvAux (lsHandler s now u tok).1 := by
  unfold lsHandler
  split
  all_goals rename_i heq
  · exact dirInvAux_session heq h
  · repeat' split
    all_goals exact dirInvAux_session heq h

/-- cat preserves the invariant. -/
theorem catHandler_inv (s : ServerState) (now : Nat) (u tok file : String)
    (h : DirInvAux s) : DirInvAux (catHandler s now u tok file).1 := by
  unfold catHandler catAfterPath
  split
  all_goals rename_i heq
  · exact dirInvAux_session heq h
  · repeat' first
      | split
      | dsimp only
    all_goals exact dirInvAux_session heq h

/-- listsharees preserves the invariant. -/
theorem listshareesHandler_inv (s : ServerState) (now : Nat)
    (u tok filename : String) (h : DirInvAux s) :
    DirInvAux (listshareesHandler s now u tok filename).1 := by
  unfold listshareesHandler
  split
  all_goals rename_i heq
  · exact dirInvAux_session heq h
  · repeat' split
    all_goals exact dirInvAux_session heq h

/-- cd preserves the invariant. -/
theorem cdHandler_inv (s : ServerState) (now : Nat) (u tok path : String)
    (h : DirInvAux s) : DirInvAux (cdHandler s now u tok path).1 := by
  unfold cdHandler
  split
  all_goals rename_i heq
  · exact dirInvAux_session heq h
  · have h1 := dirInvAux_session heq h
    repeat' split
    all_goals first
      | exact h1
      | (rename_i heq2
         obtain ⟨hd2, hs2⟩ := setCurrDir_dirsh heq2
         exact dirInvAux_of_eq hd2 hs2 h1)

/-- mkdir preserves the invariant: the created row lives in the user's
current directory, which the handler requires to be outside /shared/. -/
theorem mkdirHandler_inv (s : ServerState) (now : Nat) (u tok dn : String)
    (h : DirInvAux s) : DirInvAux (mkdirHandler s now u tok dn).1 := by
  unfold mkdirHandler
  split
  all_goals rename_i heq
  · exact dirInvAux_session heq h
  · have h1 := dirInvAux_session heq h
    repeat' split
    all_goals first
      | exact h1
      | (rename_i hpre x s2 heq2
         obtain ⟨hs2, hd2⟩ := createDirectoryByUsername_ok heq2
         refine dirInvAux_transport (dirCount_append_eq hd2 ?_)
           (edgeCount_congr hs2) h1
         intro r hr
         rw [List.mem_singleton] at hr
         subst hr
         exact ne_shared_of_unprefixed hpre)

/-- rmdir preserves the invariant: the removed row lives in the user's
current directory, which the handler requires to be outside /shared/. -/
theorem rmdirHandler_inv (s : ServerState) (now : Nat) (u tok dn : String)
    (h : DirInvAux s) : DirInvAux (rmdirHandler s now u tok dn).1 := by
  unfold rmdirHandler
  split
  all_goals rename_i heq
  · exact dirInvAux_session heq h
  · have h1 := dirInvAux_session heq h
    repeat' split
    all_goals first
      | exact h1
      | (rename_i curr_dir heqGC hsg hpre x2 s2 heq2
         obtain ⟨hs2, hd2⟩ := removeDirectoryByUsername_ok heq2
         refine dirInvAux_transport (dirCount_filter_keep_eq hd2 ?_)
           (edgeCount_congr hs2) h1
         intro d hdp
         have hf : (d.path == curr_dir) = false := by
           rw [hdp]
           exact beq_eq_false_iff_ne.mpr (Ne.symm (ne_shared_of_unprefixed hpre))
         simp [hf])

/-- rmfile preserves the invariant. -/
theorem rmfileHandler_inv (s : ServerState) (now : Nat)
    (u tok filename : String) (h : DirInvAux s) :
    DirInvAux (rmfileHandler s now u tok filename).1 := by
  unfold rmfileHandler rmfileAfterPath
  split
  all_goals rename_i heq
  · exact dirInvAux_session heq h
  · have h1 := dirInvAux_session heq h
    repeat' split
    all_goals first
      | exact h1
      | (obtain ⟨hd2, hs2⟩ := removeFileByUsername_dirsh (by assumption)
         exact dirInvAux_of_eq hd2 hs2 h1)

/-- chmodfile preserves the invariant. -/
theorem chmodfileHandler_inv (s : ServerState) (now : Nat)
    (a tok filename b : String) (wp : Bool) (h : DirInvAux s) :
    DirInvAux (chmodfileHandler s now a tok filename b wp).1 := by
  unfold chmodfileHandler
  split
  all_goals rename_i heq
  · exact dirInvAux_session heq h
  · have h1 := dirInvAux_session heq h
    repeat' split
    all_goals first
      | exact h1
      | (rename_i s2 heq2
         obtain ⟨hd2, he2⟩ := chmodFileWithSharee_pairCounts heq2
         exact dirInvAux_transport (dirCount_congr hd2) he2 h1)

/-- logout preserves the invariant. -/
theorem logoutHandler_inv (s : ServerState) (u : String) (h : DirInvAux s) :
    DirInvAux (logoutHandler s u).1 := by
  unfold logoutHandler
  split
  · exact h
  · rename_i s1 heq1
    obtain ⟨hd1, hs1⟩ := resetCurrDir_dirsh heq1
    have h1 := dirInvAux_of_eq hd1 hs1 h
    split
    · exact h1
    · rename_i s2 heq2
      obtain ⟨hd2, hs2⟩ := removeSessionTokenInfo_dirsh heq2
      exact dirInvAux_of_eq hd2 hs2 h1

/-- emailregister preserves the invariant: only the users table can
change. -/
theorem emailRegisterHandler_inv (s : ServerState) (now : Nat)
    (salt ver email username password : String) (h : DirInvAux s) :
    DirInvAux (emailRegisterHandler s now salt ver email username password).1 := by
  unfold emailRegisterHandler
  repeat' first
    | split
    | dsimp only
  all_goals first
    | exact h
    | (rename_i s1 heq1
       obtain ⟨hd1, hs1⟩ := createNewUserPreEmail_dirsh heq1
       exact dirInvAux_of_eq hd1 hs1 h)

/-- login preserves the invariant: only the users table can change. -/
theorem validateLoginHandler_inv (s : ServerState) (now : Nat)
    (token username password : String) (h : DirInvAux s) :
    DirInvAux (validateLoginHandler s now token username password).1 := by
  unfold validateLoginHandler
  repeat' first
    | split
    | dsimp only
  all_goals first
    | exact h
    | (rename_i x1 s1x heq1 x2 e2 heq2x
       obtain ⟨hd1, hs1⟩ := createSessionToken_dirsh heq1
       exact dirInvAux_of_eq hd1 hs1 h)
    | (rename_i x1 s1x heq1 x2 s2x heq2
       obtain ⟨hd1, hs1⟩ := createSessionToken_dirsh heq1
       obtain ⟨hd2, hs2⟩ := setCurrDir_dirsh heq2
       exact dirInvAux_of_eq (hd2.trans hd1) (hs2.trans hs1) h)

/-- validateregister preserves the invariant: apart from the users table,
only createRootandShared appends directory rows, and they live outside
/shared/. -/
theorem validateRegisterHandler_inv (s : ServerState) (now : Nat)
    (email username password ver_code : String) (h : DirInvAux s) :
    DirInvAux (validateRegisterHandler s now email username password
      ver_code).1 := by
  unfold validateRegisterHandler
  dsimp only
  split
  next hv1 => exact h
  next hv1 =>
    split
    next hv2 => exact h
    next hv2 =>
      split
      next hv3 => exact h
      next hv3 =>
        split
        next e heqGP =>
          split
          next re heqRU => exact h
          next s1 heqRU =>
            obtain ⟨hd1, hs1⟩ := removeUserRowByUsernameAndEmail_dirsh heqRU
            exact dirInvAux_of_eq hd1 hs1 h
        next sp heqGP =>
          split
          next e heqSP => exact h
          next salted heqSP =>
            split
            next hbc => exact h
            next hbc =>
              split
              next e heqVCI =>
                split
                next re heqRU => exact h
                next s1 heqRU =>
                  obtain ⟨hd1, hs1⟩ :=
                    removeUserRowByUsernameAndEmail_dirsh heqRU
                  exact dirInvAux_of_eq hd1 hs1 h
              next svc stime heqVCI =>
                split
                next e heqRVC =>
                  split
                  next re heqRU => exact h
                  next s1 heqRU =>
                    obtain ⟨hd1, hs1⟩ :=
                      removeUserRowByUsernameAndEmail_dirsh heqRU
                    exact dirInvAux_of_eq hd1 hs1 h
                next s1 heqRVC =>
                  obtain ⟨hdv, hsv⟩ := removeVerCodeInfo_dirsh heqRVC
                  have h1 := dirInvAux_of_eq hdv hsv h
                  split
                  next hexp =>
                    split
                    next re heqRU => exact h1
                    next s2 heqRU =>
                      obtain ⟨hd2, hs2⟩ :=
                        removeUserRowByUsernameAndEmail_dirsh heqRU
                      exact dirInvAux_of_eq hd2 hs2 h1
                  next hexp =>
                    split
                    next hcode =>
                      split
                      next re heqRU => exact h1
                      next s2 heqRU =>
                        obtain ⟨hd2, hs2⟩ :=
                          removeUserRowByUsernameAndEmail_dirsh heqRU
                        exact dirInvAux_of_eq hd2 hs2 h1
                    next hcode =>
                      split
                      next e heqCR =>
                        split
                        next re heqRU => exact h1
                        next s2 heqRU =>
                          obtain ⟨hd2, hs2⟩ :=
                            removeUserRowByUsernameAndEmail_dirsh heqRU
                          exact dirInvAux_of_eq hd2 hs2 h1
                      next s2 heqCR =>
                        obtain ⟨hsCR, hdCR⟩ := createRootandShared_ok heqCR
                        have hrows : ∀ r ∈ ([⟨trimSpace username, "", "/"⟩,
                            ⟨trimSpace username, "/", "shared/"⟩] :
                            List DirRow), r.path ≠ "/shared/" := by
                          intro r hr
                          rw [List.mem_cons, List.mem_singleton] at hr
                          rcases hr with rfl | rfl
                          · show ("" : String) ≠ "/shared/"
                            decide
                          · show ("/" : String) ≠ "/shared/"
                            decide
                        exact dirInvAux_transport
                          (fun o sh =>
                            (dirCount_append_eq hdCR hrows o sh).trans
                              (dirCount_congr hdv o sh))
                          (fun o sh =>
                            (edgeCount_congr hsCR o sh).trans
                              (edgeCount_congr hsv o sh))
                          h

/-- deleteacct preserves the invariant: it removes every share edge toward
the user together with all of the user's directory rows (in particular all
of their /shared/<owner>/ entries). -/
theorem deleteacctHandler_inv (s : ServerState) (now : Nat)
    (u tok : String) (h : DirInvAux s) :
    DirInvAux (deleteacctHandler s now u tok).1 := by
  unfold deleteacctHandler
  split
  all_goals rename_i heq
  · exact dirInvAux_session heq h
  · have h1 := dirInvAux_session heq h
    repeat' split
    all_goals first
      | exact h1
      | (obtain ⟨huD, hdD, hsD⟩ := deleteAllFilesShared_ok (by assumption)
         have hv1 := deleteAllFilesShared_ok_user (by assumption)
         exact (removeAllDirectories_error_cases
           ((validateUnique_users_congr huD u).trans hv1) (by assumption)).elim)
      | (obtain ⟨huD, hdD, hsD⟩ := deleteAllFilesShared_ok (by assumption)
         obtain ⟨huR, hsR, hdR⟩ := removeAllDirectories_ok (by assumption)
         have hv1 := deleteAllFilesShared_ok_user (by assumption)
         exact (removeUserRowByUsername_error_cases
           ((validateUnique_users_congr (huR.trans huD) u).trans hv1)
           (by assumption)).elim)
      | (obtain ⟨huD, hdD, hsD⟩ := deleteAllFilesShared_ok (by assumption)
         obtain ⟨huR, hsR, hdR⟩ := removeAllDirectories_ok (by assumption)
         obtain ⟨hdU, hsU⟩ := removeUserRowByUsername_dirsh (by assumption)
         refine dirInvAux_deleteacct_core u ?_ ?_ h1
         · exact hdU.trans (hdR.trans (by rw [hdD]))
         · exact hsU.trans (hsR.trans hsD))

/-- The early-return states of the owner-side modify branch keep the
directories and all edge counts of the post-session state. -/
theorem uploadOwnerModify_error_pairCounts {s1 st : ServerState}
    {r : ErrorReturn} {u cd f hex : String}
    (h : uploadOwnerModify s1 u cd f hex = Except.error (st, r)) :
    st.directories = s1.directories ∧
    ∀ o sh, edgeCount st o sh = edgeCount s1 o sh := by
  unfold uploadOwnerModify at h
  dsimp only at h
  split at h
  next hsame =>
    rw [Except.error.injEq, Prod.mk.injEq] at h
    obtain ⟨h1, -⟩ := h
    subst h1
    exact ⟨rfl, fun o sh => rfl⟩
  next hsame =>
    split at h
    next hnok =>
      rw [Except.error.injEq, Prod.mk.injEq] at h
      obtain ⟨h1, -⟩ := h
      subst h1
      exact ⟨rfl, fun o sh => rfl⟩
    next hnok =>
      split at h
      next e2 heq2 =>
        rw [Except.error.injEq, Prod.mk.injEq] at h
        obtain ⟨h1, -⟩ := h
        subst h1
        exact ⟨rfl, fun o sh => rfl⟩
      next s2 heq2 =>
        split at h
        next e3 heq3 =>
          rw [Except.error.injEq, Prod.mk.injEq] at h
          obtain ⟨h1, -⟩ := h
          subst h1
          obtain ⟨hd2, hs2⟩ := updateOwnerChecksum_dirsh heq2
          exact ⟨hd2, fun o sh => edgeCount_congr hs2 o sh⟩
        next s3 heq3 =>
          split at h
          next hcz =>
            split at h
            next e4 heq4 =>
              rw [Except.error.injEq, Prod.mk.injEq] at h
              obtain ⟨h1, -⟩ := h
              subst h1
              obtain ⟨hd2, hs2⟩ := updateOwnerChecksum_dirsh heq2
              obtain ⟨hd3, he3⟩ := updateSharedByOwner_pairCounts heq3
              exact ⟨hd3.trans hd2, fun o sh =>
                (he3 o sh).trans (edgeCount_congr hs2 o sh)⟩
            next bl heq4 => exact Except.noConfusion h
          next hcz => exact Except.noConfusion h

/-- The success state of the owner-side modify branch keeps the
directories and all edge counts of the post-session state. -/
theorem uploadOwnerModify_ok_pairCounts {s1 st : ServerState}
    {u cd f hex : String}
    (h : uploadOwnerModify s1 u cd f hex = Except.ok st) :
    st.directories = s1.directories ∧
    ∀ o sh, edgeCount st o sh = edgeCount s1 o sh := by
  unfold uploadOwnerModify at h
  dsimp only at h
  split at h
  next hsame => exact Except.noConfusion h
  next hsame =>
    split at h
    next hnok => exact Except.noConfusion h
    next hnok =>
      split at h
      next e2 heq2 => exact Except.noConfusion h
      next s2 heq2 =>
        split at h
        next e3 heq3 => exact Except.noConfusion h
        next s3 heq3 =>
          obtain ⟨hd2, hs2⟩ := updateOwnerChecksum_dirsh heq2
          obtain ⟨hd3, he3⟩ := updateSharedByOwner_pairCounts heq3
          split at h
          next hcz =>
            split at h
            next e4 heq4 => exact Except.noConfusion h
            next bl heq4 =>
              rw [Except.ok.injEq] at h
              subst h
              exact ⟨hd3.trans hd2, fun o sh =>
                (he3 o sh).trans (edgeCount_congr hs2 o sh)⟩
          next hcz =>
            rw [Except.ok.injEq] at h
            subst h
            exact ⟨hd3.trans hd2, fun o sh =>
              (he3 o sh).trans (edgeCount_congr hs2 o sh)⟩

/-- The early-return states of the sharee-side modify branch keep the
directories and all edge counts of the post-session state. -/
theorem uploadShareeModify_error_pairCounts {s1 st : ServerState}
    {r : ErrorReturn} {u cd f hex : String}
    (h : uploadShareeModify s1 u cd f hex = Except.error (st, r)) :
    st.directories = s1.directories ∧
    ∀ o sh, edgeCount st o sh = edgeCount s1 o sh := by
  unfold uploadShareeModify at h
  dsimp only at h
  split at h
  next e1 heq1 =>
    rw [Except.error.injEq, Prod.mk.injEq] at h
    obtain ⟨h1, -⟩ := h
    subst h1
    exact ⟨rfl, fun o sh => rfl⟩
  next op heq1 =>
    split at h
    next e2 heq2 =>
      rw [Except.error.injEq, Prod.mk.injEq] at h
      obtain ⟨h1, -⟩ := h
      subst h1
      exact ⟨rfl, fun o sh => rfl⟩
    next oldc heq2 =>
      split at h
      next hsame =>
        rw [Except.error.injEq, Prod.mk.injEq] at h
        obtain ⟨h1, -⟩ := h
        subst h1
        exact ⟨rfl, fun o sh => rfl⟩
      next hsame =>
        split at h
        next hnw =>
          rw [Except.error.injEq, Prod.mk.injEq] at h
          obtain ⟨h1, -⟩ := h
          subst h1
          exact ⟨rfl, fun o sh => rfl⟩
        next hnw =>
          split at h
          next e3 heq3 =>
            rw [Except.error.injEq, Prod.mk.injEq] at h
            obtain ⟨h1, -⟩ := h
            subst h1
            exact ⟨rfl, fun o sh => rfl⟩
          next s2 heq3 =>
            split at h
            next hcz =>
              split at h
              next e4 heq4 =>
                rw [Except.error.injEq, Prod.mk.injEq] at h
                obtain ⟨h1, -⟩ := h
                subst h1
                obtain ⟨hd2, he2⟩ := updateSharedBySharee_pairCounts heq3
                exact ⟨hd2, he2⟩
              next bl heq4 => exact Except.noConfusion h
            next hcz => exact Except.noConfusion h

/-- The success state of the sharee-side modify branch keeps the
directories and all edge counts of the post-session state. -/
theorem uploadShareeModify_ok_pairCounts {s1 st : ServerState}
    {u cd f hex : String}
    (h : uploadShareeModify s1 u cd f hex = Except.ok st) :
    st.directories = s1.directories ∧
    ∀ o sh, edgeCount st o sh = edgeCount s1 o sh := by
  unfold uploadShareeModify at h
  dsimp only at h
  split at h
  next e1 heq1 => exact Except.noConfusion h
  next op heq1 =>
    split at h
    next e2 heq2 => exact Except.noConfusion h
    next oldc heq2 =>
      split at h
      next hsame => exact Except.noConfusion h
      next hsame =>
        split at h
        next hnw => exact Except.noConfusion h
        next hnw =>
          split at h
          next e3 heq3 => exact Except.noConfusion h
          next s2 heq3 =>
            obtain ⟨hd2, he2⟩ := updateSharedBySharee_pairCounts heq3
            split at h
            next hcz =>
              split at h
              next e4 heq4 => exact Except.noConfusion h
              next bl heq4 =>
                rw [Except.ok.injEq] at h
                subst h
                exact ⟨hd2, he2⟩
            next hcz =>
              rw [Except.ok.injEq] at h
              subst h
              exact ⟨hd2, he2⟩

/-- The common upload tail keeps the directories and all edge counts. -/
theorem uploadFinish_pairCounts (s : ServerState) (u cd f hex : String)
    (fb : List Nat) (m : Bool) (n : Nat) :
    (uploadFinish s u cd f hex fb m n).1.directories = s.directories ∧
    ∀ o sh, edgeCount (uploadFinish s u cd f hex fb m n).1 o sh
      = edgeCount s o sh := by
  unfold uploadFinish
  dsimp only
  have hifd : (if n = 0 then
      { s with blobs := writeBlobFile s.blobs hex fb } else s).directories
      = s.directories := by
    split
    · rfl
    · rfl
  have hifsh : (if n = 0 then
      { s with blobs := writeBlobFile s.blobs hex fb } else s).shared
      = s.shared := by
    split
    · rfl
    · rfl
  split
  · split
    next e hqU => exact ⟨hifd, fun o sh => edgeCount_congr hifsh o sh⟩
    next s2 hqU =>
      obtain ⟨hd2, hs2⟩ := uploadFile_dirsh hqU
      exact ⟨hd2.trans hifd, fun o sh =>
        (edgeCount_congr hs2 o sh).trans (edgeCount_congr hifsh o sh)⟩
  · exact ⟨hifd, fun o sh => edgeCount_congr hifsh o sh⟩

/-- The upload tail after path resolution preserves the invariant. -/
theorem uploadAfterPath_inv (s1 : ServerState) (u : String) (fb : List Nat)
    (cd df : String) (m : Bool) (h1 : DirInvAux s1) :
    DirInvAux (uploadAfterPath s1 u fb cd df m).1 := by
  unfold uploadAfterPath
  dsimp only
  repeat' split
  all_goals first
    | exact h1
    | (have hF := uploadFinish_pairCounts s1 u cd df (makeFileChecksumHex fb)
         fb m (countNumFileByChecksum s1 (makeFileChecksumHex fb))
       exact dirInvAux_transport (dirCount_congr hF.1) hF.2 h1)
    | (rename_i s4 heqM
       exact dirInvAux_transport
         (fun o sh => (dirCount_congr (uploadFinish_pairCounts s4 u cd df
             (makeFileChecksumHex fb) fb m (countNumFileByChecksum s1
               (makeFileChecksumHex fb))).1 o sh).trans
           (dirCount_congr (uploadOwnerModify_ok_pairCounts heqM).1 o sh))
         (fun o sh => ((uploadFinish_pairCounts s4 u cd df
             (makeFileChecksumHex fb) fb m (countNumFileByChecksum s1
               (makeFileChecksumHex fb))).2 o sh).trans
           ((uploadOwnerModify_ok_pairCounts heqM).2 o sh))
         h1)
    | (rename_i s4 heqM
       exact dirInvAux_transport
         (fun o sh => (dirCount_congr (uploadFinish_pairCounts s4 u cd df
             (makeFileChecksumHex fb) fb m (countNumFileByChecksum s1
               (makeFileChecksumHex fb))).1 o sh).trans
           (dirCount_congr (uploadShareeModify_ok_pairCounts heqM).1 o sh))
         (fun o sh => ((uploadFinish_pairCounts s4 u cd df
             (makeFileChecksumHex fb) fb m (countNumFileByChecksum s1
               (makeFileChecksumHex fb))).2 o sh).trans
           ((uploadShareeModify_ok_pairCounts heqM).2 o sh))
         h1)
    | (rename_i r heqM
       obtain ⟨st, rr⟩ := r
       exact dirInvAux_transport
         (dirCount_congr (uploadOwnerModify_error_pairCounts heqM).1)
         (uploadOwnerModify_error_pairCounts heqM).2 h1)
    | (rename_i r heqM
       obtain ⟨st, rr⟩ := r
       exact dirInvAux_transport
         (dirCount_congr (uploadShareeModify_error_pairCounts heqM).1)
         (uploadShareeModify_error_pairCounts heqM).2 h1)

/-- upload preserves the invariant. -/
theorem uploadHandler_inv (s : ServerState) (now : Nat) (u tok : String)
    (fb : List Nat) (df : String) (m : Bool) (h : DirInvAux s) :
    DirInvAux (uploadHandler s now u tok fb df m).1 := by
  unfold uploadHandler
  split
  · exact h
  · split
    all_goals rename_i heq
    · exact dirInvAux_session heq h
    · have h1 := dirInvAux_session heq h
      repeat' split
      all_goals first
        | exact h1
        | exact uploadAfterPath_inv _ u fb _ _ m h1

/-- sharefile preserves the invariant: the synthetic directory is created
only together with a share edge, and a conflict rejection happens only
when an edge for the pair already exists. -/
theorem sharefileHandler_inv (s : ServerState) (now : Nat)
    (a tok filename b : String) (wp : Bool) (h : DirInvAux s) :
    DirInvAux (sharefileHandler s now a tok filename b wp).1 := by
  unfold sharefileHandler
  split
  all_goals rename_i heq
  · exact dirInvAux_session heq h
  · have h1 := dirInvAux_session heq h
    split
    next hvf => exact h1
    next hvf =>
      split
      next hvu => exact h1
      next hvu =>
        split
        next hvb => exact h1
        next hvb =>
          split
          next hab => exact h1
          next hab =>
            split
            next e heqCD => exact h1
            next curr_dir heqCD =>
              split
              next hpre => exact h1
              next hpre =>
                split
                next e heqCF => exact h1
                next cf heqCF =>
                  split
                  next hcf1 => exact h1
                  next hcf1 =>
                    split
                    next e heqCK => exact h1
                    next ck heqCK =>
                      split
                      next hnum => exact h1
                      next hnum =>
                        split
                        next e heqMS => exact h1
                        next s2 heqMS =>
                          obtain ⟨hu2, hf2, hsh2, hb2, hd2⟩ :=
                            makeSharerDirectory_ok heqMS
                          obtain ⟨hva', hvb', hab'⟩ :=
                            makeSharerDirectory_ok_users heqMS
                          split
                          next e heqSF =>
                            have hcnt := shareFileWithSharee_error_cases
                              ((validateUnique_users_congr hu2 a).trans hva')
                              ((validateUnique_users_congr hu2 b).trans hvb')
                              hab' heqSF
                            refine dirInvAux_after_makeSharer heqMS rfl
                              (fun o sh hne => edgeCount_congr hsh2 o sh) ?_ h1
                            exact edgeCount_pos_of_pred4 (f := filename)
                              (p := curr_dir) (Nat.pos_of_ne_zero hcnt)
                          next s3 heqSF =>
                            obtain ⟨hcnt0, hs3⟩ := shareFileWithSharee_ok heqSF
                            subst hs3
                            have happ := edgeCount_append_edge
                              (show ({ s2 with shared := s2.shared ++
                                  [⟨a, filename, curr_dir, ck, b, wp⟩] } :
                                  ServerState).shared
                                = s2.shared ++
                                  [⟨a, filename, curr_dir, ck, b, wp⟩] from rfl)
                            refine dirInvAux_after_makeSharer heqMS rfl ?_ ?_ h1
                            · intro o sh hne
                              exact (happ.1 o sh hne).trans
                                (edgeCount_congr hsh2 o sh)
                            · show 0 < edgeCount ({ s2 with shared :=
                                s2.shared ++ [⟨a, filename, curr_dir, ck, b,
                                  wp⟩] } : ServerState) a b
                              have h2 : edgeCount ({ s2 with shared :=
                                  s2.shared ++ [⟨a, filename, curr_dir, ck, b,
                                    wp⟩] } : ServerState) a b
                                  = edgeCount s2 a b + 1 := happ.2
                              omega

/-- unsharefile preserves the invariant: the synthetic directory is
removed exactly when the deleted edge was the last one for the pair, and
the at-most-once property of the directory row makes that removal
succeed. -/
theorem unsharefileHandler_inv {s s' : ServerState} {now : Nat}
    {a tok f b : String} {r : ErrorReturn}
    (hstep : unsharefileHandler s now a tok f b = some (s', r))
    (h : DirInvAux s) : DirInvAux s' := by
  unfold unsharefileHandler at hstep
  split at hstep
  next s1 e heq =>
    rw [Option.some.injEq, Prod.mk.injEq] at hstep
    obtain ⟨h1', -⟩ := hstep
    subst h1'
    exact dirInvAux_session heq h
  next s1 heq =>
    have h1 := dirInvAux_session heq h
    split at hstep
    next hvf => exact Option.noConfusion hstep
    next hvf =>
      split at hstep
      next hva =>
        rw [Option.some.injEq, Prod.mk.injEq] at hstep
        obtain ⟨h1', -⟩ := hstep
        subst h1'
        exact h1
      next hva =>
        split at hstep
        next hvb =>
          rw [Option.some.injEq, Prod.mk.injEq] at hstep
          obtain ⟨h1', -⟩ := hstep
          subst h1'
          exact h1
        next hvb =>
          split at hstep
          next hab =>
            rw [Option.some.injEq, Prod.mk.injEq] at hstep
            obtain ⟨h1', -⟩ := hstep
            subst h1'
            exact h1
          next hab =>
            split at hstep
            next e heqCD =>
              rw [Option.some.injEq, Prod.mk.injEq] at hstep
              obtain ⟨h1', -⟩ := hstep
              subst h1'
              exact h1
            next curr_dir heqCD =>
              split at hstep
              next hpre =>
                rw [Option.some.injEq, Prod.mk.injEq] at hstep
                obtain ⟨h1', -⟩ := hstep
                subst h1'
                exact h1
              next hpre =>
                split at hstep
                next e heqCF =>
                  rw [Option.some.injEq, Prod.mk.injEq] at hstep
                  obtain ⟨h1', -⟩ := hstep
                  subst h1'
                  exact h1
                next cf heqCF =>
                  split at hstep
                  next hcf1 =>
                    rw [Option.some.injEq, Prod.mk.injEq] at hstep
                    obtain ⟨h1', -⟩ := hstep
                    subst h1'
                    exact h1
                  next hcf1 =>
                    split at hstep
                    next e heqCK =>
                      rw [Option.some.injEq, Prod.mk.injEq] at hstep
                      obtain ⟨h1', -⟩ := hstep
                      subst h1'
                      exact h1
                    next ck heqCK =>
                      split at hstep
                      next hnb =>
                        rw [Option.some.injEq, Prod.mk.injEq] at hstep
                        obtain ⟨h1', -⟩ := hstep
                        subst h1'
                        exact h1
                      next hnb =>
                        split at hstep
                        next e heqUS =>
                          rw [Option.some.injEq, Prod.mk.injEq] at hstep
                          obtain ⟨h1', -⟩ := hstep
                          subst h1'
                          exact h1
                        next s2 heqUS =>
                          obtain ⟨hcnt1, hu2, hd2, hs2f⟩ :=
                            unshareFileFromSharee_ok heqUS
                          obtain ⟨hva', hvb', hab'⟩ :=
                            unshareFileFromSharee_ok_users heqUS
                          have hva2 := (validateUnique_users_congr hu2 a).trans hva'
                          have hvb2 := (validateUnique_users_congr hu2 b).trans hvb'
                          have hedgeS1 : 0 < edgeCount s1 a b :=
                            edgeCount_pos_of_pred4 (f := f) (p := curr_dir)
                              (by omega)
                          have hEother := edgeCount_filter_edge hs2f
                          split at hstep
                          next e heqNum =>
                            exact (getNumSharedBySharerSharee_error_cases
                              hva2 hvb2 heqNum).elim
                          next num heqNum =>
                            have hnum : edgeCount s2 a b = num :=
                              getNumSharedBySharerSharee_ok_eq heqNum
                            split at hstep
                            next hz =>
                              split at hstep
                              next e heqRS =>
                                exfalso
                                have hdir1 : 0 < dirCount s1 a b :=
                                  (h1.1 a b).mpr hedgeS1
                                have hle1 : dirCount s1 a b ≤ 1 := h1.2 a b
                                have hdc2 : dirCount s2 a b = dirCount s1 a b :=
                                  dirCount_congr hd2 a b
                                have hne1 := removeSharerDirectory_error_cases
                                  hva2 hvb2 hab' heqRS
                                rw [← dirCount_eq_getNum] at hne1
                                omega
                              next s3 heqRS =>
                                rw [Option.some.injEq, Prod.mk.injEq] at hstep
                                obtain ⟨h1', -⟩ := hstep
                                subst h1'
                                obtain ⟨hcnt, hs3sh, hd3⟩ :=
                                  removeSharerDirectory_ok heqRS
                                constructor
                                · intro o sh
                                  by_cases hos : o = a ∧ sh = b
                                  · obtain ⟨ho, hsx⟩ := hos
                                    subst ho
                                    subst hsx
                                    have hdz : dirCount s3 o sh = 0 :=
                                      dirCount_filter_self hd3
                                    have hez : edgeCount s3 o sh = 0 := by
                                      rw [edgeCount_congr hs3sh o sh, hnum]
                                      omega
                                    rw [hdz, hez]
                                  · have hdo := (dirCount_filter_pair_other hd3
                                        o sh hos).trans (dirCount_congr hd2 o sh)
                                    have heo := (edgeCount_congr hs3sh o sh).trans
                                      (hEother o sh hos)
                                    rw [hdo, heo]
                                    exact h1.1 o sh
                                · intro o sh
                                  by_cases hos : o = a ∧ sh = b
                                  · obtain ⟨ho, hsx⟩ := hos
                                    subst ho
                                    subst hsx
                                    rw [dirCount_filter_self hd3]
                                    omega
                                  · rw [(dirCount_filter_pair_other hd3 o sh
                                      hos).trans (dirCount_congr hd2 o sh)]
                                    exact h1.2 o sh
                            next hz =>
                              rw [Option.some.injEq, Prod.mk.injEq] at hstep
                              obtain ⟨h1', -⟩ := hstep
                              subst h1'
                              constructor
                              · intro o sh
                                by_cases hos : o = a ∧ sh = b
                                · obtain ⟨ho, hsx⟩ := hos
                                  subst ho
                                  subst hsx
                                  have hd2' : dirCount s2 o sh = dirCount s1 o sh :=
                                    dirCount_congr hd2 o sh
                                  have hpos1 : 0 < dirCount s1 o sh :=
                                    (h1.1 o sh).mpr hedgeS1
                                  refine iff_of_true ?_ ?_
                                  · omega
                                  · omega
                                · rw [dirCount_congr hd2 o sh, hEother o sh hos]
                                  exact h1.1 o sh
                              · intro o sh
                                rw [dirCount_congr hd2 o sh]
                                exact h1.2 o sh

/-- Every error produced by getSessionTokenInfoByUsername is a nonempty
message. -/
theorem getSessionTokenInfo_error_ne {s : ServerState} {u e : String}
    (h : getSessionTokenInfoByUsername s u = Except.error e) : e ≠ "" := by
  unfold getSessionTokenInfoByUsername at h
  repeat' split at h
  all_goals first
    | exact Except.noConfusion h
    | (rw [Except.error.injEq] at h; subst h; decide)
    | (rw [Except.error.injEq] at h; subst h; rename_i heq;
       rw [validateUnique_error_eq heq]; decide)

/-- Every error produced by removeSessionTokenInfoByUsername is a
nonempty message. -/
theorem removeSessionTokenInfo_error_ne {s : ServerState} {u e : String}
    (h : removeSessionTokenInfoByUsername s u = Except.error e) : e ≠ "" := by
  unfold removeSessionTokenInfoByUsername at h
  repeat' split at h
  all_goals first
    | exact Except.noConfusion h
    | (rw [Except.error.injEq] at h; subst h; rename_i heq;
       rw [validateUnique_error_eq heq]; decide)

/-- Every error produced by updateSessionTokenInfoByUsername is a
nonempty message. -/
theorem updateSessionTokenInfo_error_ne {s : ServerState} {now : Nat}
    {u e : String}
    (h : updateSessionTokenInfoByUsername s now u = Except.error e) :
    e ≠ "" := by
  unfold updateSessionTokenInfoByUsername at h
  repeat' split at h
  all_goals first
    | exact Except.noConfusion h
    | (rw [Except.error.injEq] at h; subst h; rename_i heq;
       rw [validateUnique_error_eq heq]; decide)

/-- Every error produced by the session check is a nonempty message. -/
theorem checkSessionToken_error_ne {s s1 : ServerState} {now : Nat}
    {u tok e : String}
    (h : checkSessionToken s now u tok = (s1, Except.error e)) : e ≠ "" := by
  unfold checkSessionToken at h
  repeat' split at h
  all_goals rw [Prod.mk.injEq] at h
  all_goals obtain ⟨h1, h2⟩ := h
  all_goals first
    | exact Except.noConfusion h2
    | (rw [Except.error.injEq] at h2; subst h2; decide)
    | (rw [Except.error.injEq] at h2; subst h2; rename_i heq;
       exact getSessionTokenInfo_error_ne heq)
    | (rw [Except.error.injEq] at h2; subst h2; rename_i heq;
       exact removeSessionTokenInfo_error_ne heq)
    | (rw [Except.error.injEq] at h2; subst h2; rename_i heq;
       exact updateSessionTokenInfo_error_ne heq)

/-- Every error produced by unshareFileFromSharee is a nonempty message. -/
theorem unshareFileFromSharee_error_ne {s : ServerState}
    {a f p c b e : String}
    (h : unshareFileFromSharee s a f p c b = Except.error e) : e ≠ "" := by
  unfold unshareFileFromSharee at h
  repeat' split at h
  all_goals first
    | exact Except.noConfusion h
    | (rw [Except.error.injEq] at h; subst h; decide)
    | (rw [Except.error.injEq] at h; subst h; rename_i heq;
       rw [validateUnique_error_eq heq]; decide)
    | (rw [Except.error.injEq] at h; subst h; rename_i heq;
       exact getNumSharedFilesByInfo_error_ne heq)

/-- Every error produced by removeSharerDirectoryForSharee is a nonempty
message. -/
theorem removeSharerDirectory_error_ne {s : ServerState} {a b e : String}
    (h : removeSharerDirectoryForSharee s a b = Except.error e) : e ≠ "" := by
  unfold removeSharerDirectoryForSharee at h
  repeat' first
    | split at h
    | dsimp only at h
  all_goals first
    | exact Except.noConfusion h
    | (rw [Except.error.injEq] at h; subst h; decide)
    | (rw [Except.error.injEq] at h; subst h; rename_i heq;
       rw [validateUnique_error_eq heq]; decide)

/-- Every error produced by getNumSharedFilesBySharerAndShareeUsername is
a nonempty message. -/
theorem getNumSharedBySharerSharee_error_ne {s : ServerState}
    {a b e : String}
    (h : getNumSharedFilesBySharerAndShareeUsername s a b = Except.error e) :
    e ≠ "" := by
  unfold getNumSharedFilesBySharerAndShareeUsername at h
  repeat' split at h
  all_goals first
    | exact Except.noConfusion h
    | (rw [Except.error.injEq] at h; subst h; rename_i heq;
       rw [validateUnique_error_eq heq]; decide)

/-- getNumDirectoriesByUsername reads only the directories table. -/
theorem getNumDirectories_congr {s t : ServerState}
    (h : t.directories = s.directories) (u p c : String) :
    getNumDirectoriesByUsername t u p c = getNumDirectoriesByUsername s u p c := by
  unfold getNumDirectoriesByUsername
  rw [h]

/-- Every reachable state satisfies the combined invariant: the induction
over the transition system, dispatching to the per-handler preservation
lemmas. -/
theorem reachable_dirInvAux (s : ServerState) (hr : Reachable s) :
    DirInvAux s := by
  unfold Reachable at hr
  induction hr with
  | refl =>
    refine ⟨fun o sh => Iff.rfl, fun o sh => ?_⟩
    exact Nat.zero_le 1
  | tail hab hbc ih =>
    cases hbc with
    | emailRegister now salt ver email username password =>
      exact emailRegisterHandler_inv _ now salt ver email username password ih
    | validateRegister now email username password ver_code =>
      exact validateRegisterHandler_inv _ now email username password
        ver_code ih
    | validateLogin now token username password =>
      exact validateLoginHandler_inv _ now token username password ih
    | getWorkingDirectory now username session_token =>
      exact getWorkingDirectoryHandler_inv _ now username session_token ih
    | ls now username session_token =>
      exact lsHandler_inv _ now username session_token ih
    | cd now username session_token path =>
      exact cdHandler_inv _ now username session_token path ih
    | mkdir now username session_token dirname =>
      exact mkdirHandler_inv _ now username session_token dirname ih
    | rmdir now username session_token dirname =>
      exact rmdirHandler_inv _ now username session_token dirname ih
    | rmfile now username session_token filename =>
      exact rmfileHandler_inv _ now username session_token filename ih
    | logout username =>
      exact logoutHandler_inv _ username ih
    | upload now username session_token file_bytes dest_filename modify =>
      exact uploadHandler_inv _ now username session_token file_bytes
        dest_filename modify ih
    | cat now username session_token file =>
      exact catHandler_inv _ now username session_token file ih
    | sharefile now sharer tok filename sharee wp =>
      exact sharefileHandler_inv _ now sharer tok filename sharee wp ih
    | unsharefile sx now sharer tok filename sharee rr hcall =>
      exact unsharefileHandler_inv hcall ih
    | deleteacct now username session_token =>
      exact deleteacctHandler_inv _ now username session_token ih
    | listsharees now username session_token filename =>
      exact listshareesHandler_inv _ now username session_token filename ih
    | chmodfile now sharer tok filename sharee wp =>
      exact chmodfileHandler_inv _ now sharer tok filename sharee wp ih

/-- A sharefile call that reports no error appended the sharee's
/shared/<owner>/ Directory Entry exactly when it was absent. -/
theorem sharefileHandler_success_dirs (s : ServerState) (now : Nat)
    (a tok filename b : String) (wp : Bool) (s' : ServerState)
    (r : ErrorReturn)
    (h : sharefileHandler s now a tok filename b wp = (s', r))
    (hok : r.Err = "") :
    s'.directories =
      (if getNumDirectoriesByUsername s b "/shared/" (a ++ "/") = 0
       then s.directories ++ [⟨b, "/shared/", a ++ "/"⟩]
       else s.directories) := by
  unfold sharefileHandler at h
  split at h
  next s1 e heq =>
    rw [Prod.mk.injEq] at h
    obtain ⟨-, h2⟩ := h
    subst h2
    exact absurd hok (checkSessionToken_error_ne heq)
  next s1 heq =>
    have hfr := checkSessionToken_frame s now a tok
    rw [heq] at hfr
    have hd1 : s1.directories = s.directories := hfr.1
    split at h
    next hvf =>
      rw [Prod.mk.injEq] at h
      obtain ⟨-, h2⟩ := h
      subst h2
      exact absurd hok (by decide)
    next hvf =>
      split at h
      next hvu =>
        rw [Prod.mk.injEq] at h
        obtain ⟨-, h2⟩ := h
        subst h2
        exact absurd hok (by decide)
      next hvu =>
        split at h
        next hvb =>
          rw [Prod.mk.injEq] at h
          obtain ⟨-, h2⟩ := h
          subst h2
          exact absurd hok (by decide)
        next hvb =>
          split at h
          next hab =>
            rw [Prod.mk.injEq] at h
            obtain ⟨-, h2⟩ := h
            subst h2
            exact absurd hok (by decide)
          next hab =>
            split at h
            next e heqCD =>
              rw [Prod.mk.injEq] at h
              obtain ⟨-, h2⟩ := h
              subst h2
              exact absurd hok (getCurrDir_error_ne heqCD)
            next curr_dir heqCD =>
              split at h
              next hpre =>
                rw [Prod.mk.injEq] at h
                obtain ⟨-, h2⟩ := h
                subst h2
                exact absurd hok (by decide)
              next hpre =>
                split at h
                next e heqCF =>
                  rw [Prod.mk.injEq] at h
                  obtain ⟨-, h2⟩ := h
                  subst h2
                  exact absurd hok (countNumFiles_error_ne heqCF)
                next cf heqCF =>
                  split at h
                  next hcf1 =>
                    rw [Prod.mk.injEq] at h
                    obtain ⟨-, h2⟩ := h
                    subst h2
                    exact absurd hok (by decide)
                  next hcf1 =>
                    split at h
                    next e heqCK =>
                      rw [Prod.mk.injEq] at h
                      obtain ⟨-, h2⟩ := h
                      subst h2
                      exact absurd hok (getChecksum_error_ne heqCK)
                    next ck heqCK =>
                      split at h
                      next hnum =>
                        rw [Prod.mk.injEq] at h
                        obtain ⟨-, h2⟩ := h
                        subst h2
                        exact absurd hok (by decide)
                      next hnum =>
                        split at h
                        next e heqMS =>
                          rw [Prod.mk.injEq] at h
                          obtain ⟨-, h2⟩ := h
                          subst h2
                          exact absurd hok (makeSharerDirectory_error_ne heqMS)
                        next s2 heqMS =>
                          split at h
                          next e heqSF =>
                            rw [Prod.mk.injEq] at h
                            obtain ⟨-, h2⟩ := h
                            subst h2
                            exact absurd hok
                              (shareFileWithSharee_error_ne heqSF)
                          next s3 heqSF =>
                            rw [Prod.mk.injEq] at h
                            obtain ⟨h1', -⟩ := h
                            subst h1'
                            obtain ⟨hcnt0, hs3⟩ := shareFileWithSharee_ok heqSF
                            subst hs3
                            obtain ⟨hu2, hf2, hsh2, hb2, hd2⟩ :=
                              makeSharerDirectory_ok heqMS
                            show s2.directories = _
                            rw [hd2,
                              getNumDirectories_congr hd1 b "/shared/"
                                (a ++ "/"),
                              hd1]

/-- An unsharefile call that reports no error removed the sharee's
/shared/<owner>/ Directory Entry exactly when the deleted edge was the
last one from that owner to that sharee. -/
theorem unsharefileHandler_success_dirs (s : ServerState) (now : Nat)
    (a tok f b : String) (s' : ServerState) (r : ErrorReturn)
    (h : unsharefileHandler s now a tok f b = some (s', r))
    (hok : r.Err = "") :
    (edgeCount s' a b = 0 →
      s'.directories = s.directories.filter fun d =>
        !(d.username == b && d.path == "/shared/" && d.name == a ++ "/")) ∧
    (edgeCount s' a b ≠ 0 → s'.directories = s.directories) := by
  unfold unsharefileHandler at h
  split at h
  next s1 e heq =>
    rw [Option.some.injEq, Prod.mk.injEq] at h
    obtain ⟨-, h2⟩ := h
    subst h2
    exact absurd hok (checkSessionToken_error_ne heq)
  next s1 heq =>
    have hfr := checkSessionToken_frame s now a tok
    rw [heq] at hfr
    have hd1 : s1.directories = s.directories := hfr.1
    split at h
    next hvf => exact Option.noConfusion h
    next hvf =>
      split at h
      next hva =>
        rw [Option.some.injEq, Prod.mk.injEq] at h
        obtain ⟨-, h2⟩ := h
        subst h2
        exact absurd hok (by decide)
      next hva =>
        split at h
        next hvb =>
          rw [Option.some.injEq, Prod.mk.injEq] at h
          obtain ⟨-, h2⟩ := h
          subst h2
          exact absurd hok (by decide)
        next hvb =>
          split at h
          next hab =>
            rw [Option.some.injEq, Prod.mk.injEq] at h
            obtain ⟨-, h2⟩ := h
            subst h2
            exact absurd hok (by decide)
          next hab =>
            split at h
            next e heqCD =>
              rw [Option.some.injEq, Prod.mk.injEq] at h
              obtain ⟨-, h2⟩ := h
              subst h2
              exact absurd hok (getCurrDir_error_ne heqCD)
            next curr_dir heqCD =>
              split at h
              next hpre =>
                rw [Option.some.injEq, Prod.mk.injEq] at h
                obtain ⟨-, h2⟩ := h
                subst h2
                exact absurd hok (by decide)
              next hpre =>
                split at h
                next e heqCF =>
                  rw [Option.some.injEq, Prod.mk.injEq] at h
                  obtain ⟨-, h2⟩ := h
                  subst h2
                  exact absurd hok (countNumFiles_error_ne heqCF)
                next cf heqCF =>
                  split at h
                  next hcf1 =>
                    rw [Option.some.injEq, Prod.mk.injEq] at h
                    obtain ⟨-, h2⟩ := h
                    subst h2
                    exact absurd hok (by decide)
                  next hcf1 =>
                    split at h
                    next e heqCK =>
                      rw [Option.some.injEq, Prod.mk.injEq] at h
                      obtain ⟨-, h2⟩ := h
                      subst h2
                      exact absurd hok (getChecksum_error_ne heqCK)
                    next ck heqCK =>
                      split at h
                      next hnb =>
                        rw [Option.some.injEq, Prod.mk.injEq] at h
                        obtain ⟨-, h2⟩ := h
                        subst h2
                        exact absurd hok (by decide)
                      next hnb =>
                        split at h
                        next e heqUS =>
                          rw [Option.some.injEq, Prod.mk.injEq] at h
                          obtain ⟨-, h2⟩ := h
                          subst h2
                          exact absurd hok
                            (unshareFileFromSharee_error_ne heqUS)
                        next s2 heqUS =>
                          obtain ⟨hcnt1, hu2, hd2, hs2f⟩ :=
                            unshareFileFromSharee_ok heqUS
                          split at h
                          next e heqNum =>
                            rw [Option.some.injEq, Prod.mk.injEq] at h
                            obtain ⟨-, h2⟩ := h
                            subst h2
                            exact absurd hok
                              (getNumSharedBySharerSharee_error_ne heqNum)
                          next num heqNum =>
                            have hnum : edgeCount s2 a b = num :=
                              getNumSharedBySharerSharee_ok_eq heqNum
                            split at h
                            next hz =>
                              split at h
                              next e heqRS =>
                                rw [Option.some.injEq, Prod.mk.injEq] at h
                                obtain ⟨-, h2⟩ := h
                                subst h2
                                exact absurd hok
                                  (removeSharerDirectory_error_ne heqRS)
                              next s3 heqRS =>
                                rw [Option.some.injEq, Prod.mk.injEq] at h
                                obtain ⟨h1', -⟩ := h
                                subst h1'
                                obtain ⟨hcnt, hs3sh, hd3⟩ :=
                                  removeSharerDirectory_ok heqRS
                                have hez : edgeCount s3 a b = 0 := by
                                  rw [edgeCount_congr hs3sh a b, hnum]
                                  omega
                                constructor
                                · intro hz0
                                  rw [hd3, hd2, hd1]
                                · intro hne
                                  exact (hne hez).elim
                            next hz =>
                              rw [Option.some.injEq, Prod.mk.injEq] at h
                              obtain ⟨h1', -⟩ := h
                              subst h1'
                              constructor
                              · intro hz0
                                exfalso
                                omega
                              · intro hne
                                rw [hd2, hd1]

/-- C6: in every reachable state a sharee's /shared/<owner>/ Directory
Entry exists iff at least one live Share Entry from that owner to that
sharee exists; a sharefile call that reports no error creates the entry
exactly when it was absent; and an unsharefile call that reports no error
deletes the entry exactly when the removed edge was the owner's last
remaining edge to that sharee across all files. -/
theorem sharedDir_invariant_spec :
    (∀ s, Reachable s → SharedDirInv s) ∧
    (∀ s now sharer session_token filename sharee write_perms s' r,
      sharefileHandler s now sharer session_token filename sharee
        write_perms = (s', r) → r.Err = "" →
      s'.directories =
        (if getNumDirectoriesByUsername s sharee "/shared/"
            (sharer ++ "/") = 0
         then s.directories ++ [⟨sharee, "/shared/", sharer ++ "/"⟩]
         else s.directories)) ∧
    (∀ s now sharer session_token filename sharee s' r,
      unsharefileHandler s now sharer session_token filename sharee
        = some (s', r) → r.Err = "" →
      ((edgeCount s' sharer sharee = 0 →
          s'.directories = s.directories.filter fun d =>
            !(d.username == sharee && d.path == "/shared/" &&
              d.name == sharer ++ "/")) ∧
       (edgeCount s' sharer sharee ≠ 0 →
          s'.directories = s.directories))) :=
  ⟨fun s hr => (reachable_dirInvAux s hr).1,
   fun s now a tok fn b wp s' r h hok =>
     sharefileHandler_success_dirs s now a tok fn b wp s' r h hok,
   fun s now a tok fn b s' r h hok =>
     unsharefileHandler_success_dirs s now a tok fn b s' r h hok⟩

/-- Witness for C6: the invariant holds in the (reachable) initial state;
sharing alice's second file with bob appends no directory row because
bob's /shared/alice/ entry already exists; unsharing the last shared file
deletes exactly that entry. -/
theorem sharedDir_invariant_spec_witness :
    SharedDirInv initState ∧
    postShareState.directories =
      (if getNumDirectoriesByUsername shareDemoState2 "bob" "/shared/"
          ("alice" ++ "/") = 0
       then shareDemoState2.directories ++ [⟨"bob", "/shared/", "alice" ++ "/"⟩]
       else shareDemoState2.directories) ∧
    ((edgeCount postUnshareState "alice" "bob" = 0 →
        postUnshareState.directories = shareDemoState.directories.filter
          fun d => !(d.username == "bob" && d.path == "/shared/" &&
            d.name == "alice" ++ "/")) ∧
     (edgeCount postUnshareState "alice" "bob" ≠ 0 →
        postUnshareState.directories = shareDemoState.directories)) :=
  ⟨sharedDir_invariant_spec.1 initState Relation.ReflTransGen.refl,
   sharedDir_invariant_spec.2.1 shareDemoState2 100 "alice" "tok" "g.txt"
     "bob" false postShareState ⟨"", false⟩ (by decide) rfl,
   sharedDir_invariant_spec.2.2 shareDemoState 100 "alice" "tok" "f.txt"
     "bob" postUnshareState ⟨"", false⟩ (by decide) rfl⟩

end BoxDrop
